import Mathlib

/-!
# Direct-fired absorption chiller-heater and indoor ice rink

A shallow embedding of two EnergyPlus modules: the gas absorption chiller-heater
(`ChillerGasAbsorption.cc`, namespace `ChillerGasAbsorption` below) and the indoor ice
rink (`IndoorIceRink.cc`, namespace `IceRink` below), with a model of the curve
evaluation they rely on (namespace `CurveManager`).  The definitions of all three come
first, the theorems about them follow.

## The absorption chiller-heater

The per-timestep operating-point resolution: `CalcGasAbsorberChillerModel`,
`CalcGasAbsorberHeaterModel` and the two `Update...Records` passes.

Conventions of the embedding.

* `Real64` is the field of rationals: the theorems speak about the exact-arithmetic
  reading of the code.  Infinities and NaN are outside the model; no theorem below
  relies on the value the rationals give to a quotient with a zero denominator.
* Rounding is modelled where the outcome of the code turns on it: `roundToDouble` is the
  rounding of IEEE 754 binary64, and `clampLoadFl`, `coolPartLoadRatioFl` and
  `coolFractionOfPeriodRunningFl` are the capacity clamp, the cooling part load ratio and
  the running fraction with every arithmetic result passed through a rounding function.
  With the identity as rounding function they are the exact readings `clampLoad`,
  `coolPartLoadRatio` and `coolFractionOfPeriodRunning` used in the chiller model.
* One equipment unit is modelled (`ChillNum` fixed); its six plant nodes are distinct
  nodes and appear as the six fields of `Nodes`.
* Collaborators that live outside the file (curve evaluation, fluid properties, the plant
  flow setter, the plant loop data and the two tolerances) are the fields of `Plant`.
* Calls that leave the module (`SetComponentFlowRate`, the recurring warning) are
  recorded in an event list so that statements about requests and warnings can be made.
* `ShowFatalError` ends the run: the functions return in `Except Fatal`.
-/

namespace EnergyPlus
namespace ChillerGasAbsorption

/-- Double precision reals of the source, read as exact rationals. -/
abbrev Real64 := ℚ

/-- Fields of `DataLoopNode::Node(n)` read or written by the absorber. -/
structure NodeData where
  Temp : Real64
  MassFlowRate : Real64
  TempSetPoint : Real64
  TempSetPointHi : Real64
  TempSetPointLo : Real64
  TempMin : Real64
  OutAirDryBulb : Real64

/-- The six nodes of one absorber: `Node(ChillReturnNodeNum)` and so on. -/
structure Nodes where
  ChillReturn : NodeData
  ChillSupply : NodeData
  CondReturn : NodeData
  CondSupply : NodeData
  HeatReturn : NodeData
  HeatSupply : NodeData

/-- Values of `DataPlant::PlantLoop(n).LoopDemandCalcScheme` handled by the absorber (any
other value runs into `assert(false)`). -/
inductive LoopDemandCalcScheme where
  | SingleSetPoint
  | DualSetPointDeadBand
deriving DecidableEq

/-- Fields of `GasAbsorberSpecs` used by the calculation routines. -/
structure GasAbsorberSpecs where
  NomCoolingCap : Real64
  NomHeatCoolRatio : Real64
  FuelCoolRatio : Real64
  FuelHeatRatio : Real64
  ElecCoolRatio : Real64
  ElecHeatRatio : Real64
  MinPartLoadRat : Real64
  MaxPartLoadRat : Real64
  CHWLowLimitTemp : Real64
  DesCondMassFlowRate : Real64
  DesEvapMassFlowRate : Real64
  DesHeatMassFlowRate : Real64
  CoolCapFTCurve : Int
  FuelCoolFTCurve : Int
  FuelCoolFPLRCurve : Int
  ElecCoolFTCurve : Int
  ElecCoolFPLRCurve : Int
  HeatCapFCoolCurve : Int
  FuelHeatFHPLRCurve : Int
  isEnterCondensTemp : Bool
  isWaterCooled : Bool
  InCoolingMode : Bool
  InHeatingMode : Bool
  PossibleSubcooling : Bool
  CWLoopNum : Int
  CDLoopNum : Int
  HWLoopNum : Int

/-- The record `ReportVars` of one absorber. -/
structure ReportVars where
  CoolingLoad : Real64
  CoolingEnergy : Real64
  HeatingLoad : Real64
  HeatingEnergy : Real64
  TowerLoad : Real64
  TowerEnergy : Real64
  FuelUseRate : Real64
  FuelEnergy : Real64
  CoolFuelUseRate : Real64
  CoolFuelEnergy : Real64
  HeatFuelUseRate : Real64
  HeatFuelEnergy : Real64
  ElectricPower : Real64
  ElectricEnergy : Real64
  CoolElectricPower : Real64
  CoolElectricEnergy : Real64
  HeatElectricPower : Real64
  HeatElectricEnergy : Real64
  ChillReturnTemp : Real64
  ChillSupplyTemp : Real64
  ChillWaterFlowRate : Real64
  CondReturnTemp : Real64
  CondSupplyTemp : Real64
  CondWaterFlowRate : Real64
  HotWaterReturnTemp : Real64
  HotWaterSupplyTemp : Real64
  HotWaterFlowRate : Real64
  CoolPartLoadRatio : Real64
  HeatPartLoadRatio : Real64
  CoolingCapacity : Real64
  HeatingCapacity : Real64
  FractionOfPeriodRunning : Real64
  FuelCOP : Real64

/-- Mutable state reached by the routines: the unit, its report record, its nodes and the
file-level variable `Calc_oldCondSupplyTemp`. -/
structure ModuleState where
  GasAbsorber : GasAbsorberSpecs
  GasAbsorberReport : ReportVars
  Node : Nodes
  Calc_oldCondSupplyTemp : Real64

/-- Collaborators outside `ChillerGasAbsorption.cc`, taken as parameters.
`CurveValue` has the optional second independent variable of `CurveManager::CurveValue`;
`GetSpecificHeatGlycol` and `SetComponentFlowRate` are keyed by the plant loop number,
the latter returning the flow rate it leaves in its in/out argument; `Cp_CD_unset` is the
value of the local `Cp_CD` when `CDLoopNum > 0` fails and the local is never assigned;
`TimeStepSys` and `SecInHour` are the globals of `DataHVACGlobals` and `DataGlobals`. -/
structure Plant where
  MassFlowTolerance : Real64
  DeltaTempTol : Real64
  CurveValue : Int → Real64 → Option Real64 → Real64
  GetSpecificHeatGlycol : Int → Real64 → Real64
  SetComponentFlowRate : Int → Real64 → Real64
  LoopDemandCalcScheme : Int → LoopDemandCalcScheme
  FlowLock : Int → Int
  Cp_CD_unset : Real64
  TimeStepSys : Real64
  SecInHour : Real64

/-- The recurring-warning counters of `GasAbsorberSpecs`. -/
inductive ErrCount where
  | DeltaTempCoolErrCount
  | DeltaTempHeatErrCount
  | CondErrCount
deriving DecidableEq

/-- Calls leaving the module, in program order. -/
inductive Event where
  | SetComponentFlowRate (LoopNum : Int) (requested : Real64)
  | ShowRecurringWarningErrorAtEnd (counter : ErrCount)

/-- Outcome of `ShowFatalError`: the run ends. -/
inductive Fatal where
  | ShowFatalError

/-- Fortran `SIGN(a, b)` as provided by `ObjexxFCL/Fmath.hh` (outside the sources at hand):
the magnitude of `a` with the sign of `b`. -/
def sign (a b : Real64) : Real64 :=
  if b ≥ 0 then |a| else -|a|

/-- Locals of the chilled-water side that leave the `FlowLock` block (lines 1640-1713),
with the flag `PossibleSubcooling` and the events of the block. -/
structure ChillSide where
  PossibleSubcooling : Bool
  lCoolingLoad : Real64
  lChillWaterMassFlowRate : Real64
  ChillDeltaTemp : Real64
  lChillSupplyTemp : Real64
  events : List Event

/-- The branch `FlowLock == 0` of the chiller model (lines 1642-1663). -/
def chillFlowFree (p : Plant) (g : GasAbsorberSpecs) (MyLoad Cp_CW ChillDeltaTemp
    ChillSupplySetPointTemp : Real64) : ChillSide :=
  let lChillWaterMassflowratemax := g.DesEvapMassFlowRate
  let lCoolingLoad := |MyLoad|
  if ChillDeltaTemp ≠ 0 then
    let requested := |lCoolingLoad / (Cp_CW * ChillDeltaTemp)|
    { PossibleSubcooling :=
        decide (requested - lChillWaterMassflowratemax > p.MassFlowTolerance)
      lCoolingLoad := lCoolingLoad
      lChillWaterMassFlowRate := p.SetComponentFlowRate g.CWLoopNum requested
      ChillDeltaTemp := ChillDeltaTemp
      lChillSupplyTemp := ChillSupplySetPointTemp
      events := [Event.SetComponentFlowRate g.CWLoopNum requested] }
  else
    { PossibleSubcooling := false
      lCoolingLoad := lCoolingLoad
      lChillWaterMassFlowRate := 0
      ChillDeltaTemp := ChillDeltaTemp
      lChillSupplyTemp := ChillSupplySetPointTemp
      events := [Event.ShowRecurringWarningErrorAtEnd ErrCount.DeltaTempCoolErrCount] }

/-- Triple (supply temperature, delta-T, load) carried through the clamps of the
flow-locked branch. -/
structure Locked where
  lChillSupplyTemp : Real64
  ChillDeltaTemp : Real64
  lCoolingLoad : Real64

/-- Lines 1666-1675: delta-T and load from the locked flow. -/
def lockedStart (PossibleSubcooling : Bool) (MyLoad Cp_CW flow ChillReturnNodeTemp
    ChillSupplySetPointTemp : Real64) : Locked :=
  if PossibleSubcooling then
    let lCoolingLoad := |MyLoad|
    let ChillDeltaTemp := lCoolingLoad / flow / Cp_CW
    { lChillSupplyTemp := ChillReturnNodeTemp - ChillDeltaTemp
      ChillDeltaTemp := ChillDeltaTemp
      lCoolingLoad := lCoolingLoad }
  else
    let ChillDeltaTemp := ChillReturnNodeTemp - ChillSupplySetPointTemp
    { lChillSupplyTemp := ChillSupplySetPointTemp
      ChillDeltaTemp := ChillDeltaTemp
      lCoolingLoad := |flow * Cp_CW * ChillDeltaTemp| }

/-- Lines 1677-1687 and 1688-1698: keep the supply temperature at or above `limit`
(the chiller low limit, then the node minimum). -/
def lockedLowLimit (p : Plant) (limit Cp_CW flow ChillReturnNodeTemp : Real64)
    (l : Locked) : Locked :=
  if l.lChillSupplyTemp < limit then
    if ChillReturnNodeTemp - limit > p.DeltaTempTol then
      let lChillSupplyTemp := limit
      let ChillDeltaTemp := ChillReturnNodeTemp - lChillSupplyTemp
      { lChillSupplyTemp := lChillSupplyTemp
        ChillDeltaTemp := ChillDeltaTemp
        lCoolingLoad := flow * Cp_CW * ChillDeltaTemp }
    else
      let lChillSupplyTemp := ChillReturnNodeTemp
      let ChillDeltaTemp := ChillReturnNodeTemp - lChillSupplyTemp
      { lChillSupplyTemp := lChillSupplyTemp
        ChillDeltaTemp := ChillDeltaTemp
        lCoolingLoad := flow * Cp_CW * ChillDeltaTemp }
  else l

/-- Lines 1700-1711: the load may not exceed the requested load. -/
def lockedLoadLimit (p : Plant) (MyLoad Cp_CW flow ChillReturnNodeTemp : Real64)
    (l : Locked) : Locked :=
  if l.lCoolingLoad > |MyLoad| then
    if flow > p.MassFlowTolerance then
      let lCoolingLoad := |MyLoad|
      let ChillDeltaTemp := lCoolingLoad / flow / Cp_CW
      { lChillSupplyTemp := ChillReturnNodeTemp - ChillDeltaTemp
        ChillDeltaTemp := ChillDeltaTemp
        lCoolingLoad := lCoolingLoad }
    else
      let lChillSupplyTemp := ChillReturnNodeTemp
      let ChillDeltaTemp := ChillReturnNodeTemp - lChillSupplyTemp
      { lChillSupplyTemp := lChillSupplyTemp
        ChillDeltaTemp := ChillDeltaTemp
        lCoolingLoad := flow * Cp_CW * ChillDeltaTemp }
  else l

/-- Lines 1665-1698: the locked flow branch up to the two low temperature checks. -/
def lockedLimited (p : Plant) (g : GasAbsorberSpecs) (n : Nodes) (MyLoad Cp_CW
    ChillSupplySetPointTemp : Real64) : Locked :=
  let flow := n.ChillReturn.MassFlowRate
  let l0 := lockedStart g.PossibleSubcooling MyLoad Cp_CW flow n.ChillReturn.Temp
    ChillSupplySetPointTemp
  let l1 := lockedLowLimit p g.CHWLowLimitTemp Cp_CW flow n.ChillReturn.Temp l0
  lockedLowLimit p n.ChillSupply.TempMin Cp_CW flow n.ChillReturn.Temp l1

/-- The branch `FlowLock == 1` of the chiller model (lines 1664-1711). -/
def chillFlowLocked (p : Plant) (g : GasAbsorberSpecs) (n : Nodes) (MyLoad Cp_CW
    ChillSupplySetPointTemp : Real64) : ChillSide :=
  let flow := n.ChillReturn.MassFlowRate
  let l2 := lockedLimited p g n MyLoad Cp_CW ChillSupplySetPointTemp
  let l3 := lockedLoadLimit p MyLoad Cp_CW flow n.ChillReturn.Temp l2
  { PossibleSubcooling := g.PossibleSubcooling
    lCoolingLoad := l3.lCoolingLoad
    lChillWaterMassFlowRate := flow
    ChillDeltaTemp := l3.ChillDeltaTemp
    lChillSupplyTemp := l3.lChillSupplyTemp
    events := [] }

/-- The `FlowLock` block of the chiller model (lines 1640-1713).  With a flow lock other
than 0 and 1 no branch runs and the locals keep their entry values. -/
def chillSide (p : Plant) (g : GasAbsorberSpecs) (n : Nodes) (MyLoad Cp_CW ChillDeltaTemp
    ChillSupplySetPointTemp : Real64) : ChillSide :=
  if p.FlowLock g.CWLoopNum = 0 then
    chillFlowFree p g MyLoad Cp_CW ChillDeltaTemp ChillSupplySetPointTemp
  else if p.FlowLock g.CWLoopNum = 1 then
    chillFlowLocked p g n MyLoad Cp_CW ChillSupplySetPointTemp
  else
    { PossibleSubcooling := g.PossibleSubcooling
      lCoolingLoad := 0
      lChillWaterMassFlowRate := n.ChillReturn.MassFlowRate
      ChillDeltaTemp := ChillDeltaTemp
      lChillSupplyTemp := 0
      events := [] }

/-- Locals of the condenser side after lines 1584-1622, with the node write of the
air-cooled path and the stored estimate. -/
structure CondSide where
  calcCondTemp : Real64
  lCondReturnTemp : Real64
  lCondWaterMassFlowRate : Real64
  Calc_oldCondSupplyTemp : Real64
  Node : Nodes
  events : List Event

/-- Lines 1584-1622: condenser temperature for the curves and condenser flow request. -/
def condSide (p : Plant) (s : ModuleState) : CondSide :=
  let g := s.GasAbsorber
  if g.isWaterCooled then
    let lCondReturnTemp := s.Node.CondReturn.Temp
    let old :=
      if g.isEnterCondensTemp then s.Calc_oldCondSupplyTemp
      else if s.Calc_oldCondSupplyTemp = 0 then lCondReturnTemp + 8
      else s.Calc_oldCondSupplyTemp
    { calcCondTemp := if g.isEnterCondensTemp then lCondReturnTemp else old
      lCondReturnTemp := lCondReturnTemp
      lCondWaterMassFlowRate := p.SetComponentFlowRate g.CDLoopNum g.DesCondMassFlowRate
      Calc_oldCondSupplyTemp := old
      Node := s.Node
      events := [Event.SetComponentFlowRate g.CDLoopNum g.DesCondMassFlowRate] }
  else
    let Node1 : Nodes :=
      { s.Node with CondReturn :=
          { s.Node.CondReturn with Temp := s.Node.CondReturn.OutAirDryBulb } }
    { calcCondTemp := Node1.CondReturn.OutAirDryBulb
      lCondReturnTemp := Node1.CondReturn.Temp
      lCondWaterMassFlowRate :=
        if g.CDLoopNum > 0 then p.SetComponentFlowRate g.CDLoopNum 0 else 0
      Calc_oldCondSupplyTemp := s.Calc_oldCondSupplyTemp
      Node := Node1
      events := if g.CDLoopNum > 0 then [Event.SetComponentFlowRate g.CDLoopNum 0] else [] }

/-- Lines 1628-1629: the requested load limited by the capacity range, in exact
arithmetic. -/
def clampLoad (MyLoad capacity lMinPartLoadRat lMaxPartLoadRat : Real64) : Real64 :=
  let MyLoad1 := sign (max |MyLoad| (capacity * lMinPartLoadRat)) MyLoad
  sign (min |MyLoad1| (capacity * lMaxPartLoadRat)) MyLoad1

/-- Lines 1715-1727: operating part load ratio for cooling, in exact arithmetic.  Applied
to a load that `clampLoad` has raised to `capacity * lMinPartLoadRat` the quotient
`|MyLoad| / capacity` is exactly `lMinPartLoadRat` and the test of line 1720 fails; in
the `double` arithmetic of the source the product and the quotient are both rounded and
the test can succeed (`coolPartLoadRatioFl`). -/
def coolPartLoadRatio (MyLoad lAvailableCoolingCapacity lMinPartLoadRat
    lMaxPartLoadRat : Real64) : Real64 :=
  let PartLoadRat0 := min (|MyLoad| / lAvailableCoolingCapacity) lMaxPartLoadRat
  let PartLoadRat := max lMinPartLoadRat PartLoadRat0
  if lAvailableCoolingCapacity > 0 then
    if |MyLoad| / lAvailableCoolingCapacity < lMinPartLoadRat then
      MyLoad / lAvailableCoolingCapacity
    else PartLoadRat
  else 0

/-- Lines 1729-1735: fraction of the period the chiller runs, in exact arithmetic. -/
def coolFractionOfPeriodRunning (lCoolPartLoadRatio lHeatPartLoadRatio
    lMinPartLoadRat : Real64) : Real64 :=
  if lCoolPartLoadRatio < lMinPartLoadRat ∨ lHeatPartLoadRatio < lMinPartLoadRat then
    min 1 (max lHeatPartLoadRatio lCoolPartLoadRatio / lMinPartLoadRat)
  else 1

/-- Rounding of a positive rational `a` to 53 significant bits, ties to the even
significand: with `2 ^ e ≤ a < 2 ^ (e + 1)` the unit in the last place is `2 ^ (e - 52)`
and the result is the multiple of it nearest to `a`. -/
def roundMagnitude (a : ℚ) : ℚ :=
  let ulp : ℚ := 2 ^ (Int.log 2 a - 52)
  let t : ℚ := a / ulp
  let n : ℤ :=
    if 2 * Int.fract t < 1 then ⌊t⌋
    else if 1 < 2 * Int.fract t then ⌊t⌋ + 1
    else if ⌊t⌋ % 2 = 0 then ⌊t⌋ else ⌊t⌋ + 1
  n * ulp

/-- The C++ `double` (IEEE 754 binary64, round to nearest, ties to even) that an
arithmetic operation with the exact result `q` delivers, for results in the normal range
(overflow, subnormal numbers, infinities and NaN are outside this reading). -/
def roundToDouble (q : ℚ) : ℚ :=
  if q = 0 then 0 else if q < 0 then -roundMagnitude |q| else roundMagnitude |q|

/-- Lines 1628-1629 with the result of each multiplication rounded by `fl`; `abs`, `max`,
`min` and `sign` return one of their arguments or its negation and do not round. With
`fl := id` this is `clampLoad`, with `fl := roundToDouble` it is the arithmetic of the
`Real64 = double` of the source. -/
def clampLoadFl (fl : Real64 → Real64)
    (MyLoad capacity lMinPartLoadRat lMaxPartLoadRat : Real64) : Real64 :=
  let MyLoad1 := sign (max |MyLoad| (fl (capacity * lMinPartLoadRat))) MyLoad
  sign (min |MyLoad1| (fl (capacity * lMaxPartLoadRat))) MyLoad1

/-- Lines 1715-1727 with the result of each division rounded by `fl`. -/
def coolPartLoadRatioFl (fl : Real64 → Real64)
    (MyLoad lAvailableCoolingCapacity lMinPartLoadRat lMaxPartLoadRat : Real64) : Real64 :=
  let PartLoadRat0 := min (fl (|MyLoad| / lAvailableCoolingCapacity)) lMaxPartLoadRat
  let PartLoadRat := max lMinPartLoadRat PartLoadRat0
  if lAvailableCoolingCapacity > 0 then
    if fl (|MyLoad| / lAvailableCoolingCapacity) < lMinPartLoadRat then
      fl (MyLoad / lAvailableCoolingCapacity)
    else PartLoadRat
  else 0

/-- Lines 1729-1735 with the result of the division rounded by `fl`. -/
def coolFractionOfPeriodRunningFl (fl : Real64 → Real64)
    (lCoolPartLoadRatio lHeatPartLoadRatio lMinPartLoadRat : Real64) : Real64 :=
  if lCoolPartLoadRatio < lMinPartLoadRat ∨ lHeatPartLoadRatio < lMinPartLoadRat then
    min 1 (fl (max lHeatPartLoadRatio lCoolPartLoadRatio / lMinPartLoadRat))
  else 1

/-- Result of `CalcGasAbsorberChillerModel`: the state after the call, the in/out argument
`MyLoad`, the events, and the two locals `ChillDeltaTemp` and `calcCondTemp` as they stand
at the end of the routine (`calcCondTemp` is none on the idle path, where it is never
assigned). -/
structure ChillerResult where
  state : ModuleState
  MyLoad : Real64
  events : List Event
  ChillDeltaTemp : Real64
  calcCondTemp : Option Real64

/-- Lines 1788-1805: the report block of the chiller model. -/
def writeCoolReport (r : ReportVars) (lCoolingLoad lTowerLoad lCoolFuelUseRate
    lCoolElectricPower lCondReturnTemp lChillReturnTemp lCondSupplyTemp lChillSupplyTemp
    lChillWaterMassFlowRate lCondWaterMassFlowRate lCoolPartLoadRatio
    lAvailableCoolingCapacity lFractionOfPeriodRunning lHeatFuelUseRate
    lHeatElectricPower : Real64) : ReportVars :=
  { r with
    CoolingLoad := lCoolingLoad
    TowerLoad := lTowerLoad
    CoolFuelUseRate := lCoolFuelUseRate
    CoolElectricPower := lCoolElectricPower
    CondReturnTemp := lCondReturnTemp
    ChillReturnTemp := lChillReturnTemp
    CondSupplyTemp := lCondSupplyTemp
    ChillSupplyTemp := lChillSupplyTemp
    ChillWaterFlowRate := lChillWaterMassFlowRate
    CondWaterFlowRate := lCondWaterMassFlowRate
    CoolPartLoadRatio := lCoolPartLoadRatio
    CoolingCapacity := lAvailableCoolingCapacity
    FractionOfPeriodRunning := lFractionOfPeriodRunning
    FuelUseRate := lCoolFuelUseRate + lHeatFuelUseRate
    ElectricPower := lCoolElectricPower + lHeatElectricPower }

/-- `ChillSupplySetPointTemp` of the chiller model (lines 1533-1542). -/
def chillSupplySetPointTemp (p : Plant) (s : ModuleState) : Real64 :=
  match p.LoopDemandCalcScheme s.GasAbsorber.CWLoopNum with
  | LoopDemandCalcScheme.SingleSetPoint => s.Node.ChillSupply.TempSetPoint
  | LoopDemandCalcScheme.DualSetPointDeadBand => s.Node.ChillSupply.TempSetPointHi

/-- The condition of line 1566: no loop demand, or the absorber is off. -/
def chillerIdle (s : ModuleState) (MyLoad : Real64) : Prop :=
  MyLoad ≥ 0 ∨ ¬(s.GasAbsorber.InHeatingMode = true ∨ s.GasAbsorber.InCoolingMode = true)

instance (s : ModuleState) (MyLoad : Real64) : Decidable (chillerIdle s MyLoad) := by
  unfold chillerIdle
  infer_instance

/-- The idle path of the chiller model (lines 1567-1581) followed by the report block. -/
def chillerOff (p : Plant) (s : ModuleState) (MyLoad : Real64) : ChillerResult :=
  let g := s.GasAbsorber
  let lHeatElectricPower := s.GasAbsorberReport.HeatElectricPower
  let lHeatFuelUseRate := s.GasAbsorberReport.HeatFuelUseRate
  let lHeatPartLoadRatio := s.GasAbsorberReport.HeatPartLoadRatio
  let lChillReturnTemp := s.Node.ChillReturn.Temp
  let lChillWaterMassFlowRate := s.Node.ChillReturn.MassFlowRate
  let lCondReturnTemp := s.Node.CondReturn.Temp
  let lCoolPartLoadRatio : Real64 := 0
  let lChillSupplyTemp := lChillReturnTemp
  let lCondSupplyTemp := lCondReturnTemp
  let lCondWaterMassFlowRate :=
    if g.isWaterCooled then p.SetComponentFlowRate g.CDLoopNum 0 else 0
  let lFractionOfPeriodRunning :=
    min 1 (max lHeatPartLoadRatio lCoolPartLoadRatio / g.MinPartLoadRat)
  { state :=
      { s with GasAbsorberReport :=
          (writeCoolReport s.GasAbsorberReport 0 0 0 0 lCondReturnTemp lChillReturnTemp
            lCondSupplyTemp lChillSupplyTemp lChillWaterMassFlowRate lCondWaterMassFlowRate
            lCoolPartLoadRatio 0 lFractionOfPeriodRunning lHeatFuelUseRate
            lHeatElectricPower) }
    MyLoad := MyLoad
    events := if g.isWaterCooled then [Event.SetComponentFlowRate g.CDLoopNum 0] else []
    ChillDeltaTemp := 0
    calcCondTemp := none }

/-- The local `Cp_CW` (lines 1549-1552). -/
def Cp_CW (p : Plant) (s : ModuleState) : Real64 :=
  p.GetSpecificHeatGlycol s.GasAbsorber.CWLoopNum s.Node.ChillReturn.Temp

/-- The local `Cp_CD` (lines 1553-1562), looked up at the chilled water return
temperature as in the source. -/
def Cp_CD (p : Plant) (s : ModuleState) : Real64 :=
  if s.GasAbsorber.CDLoopNum > 0 then
    p.GetSpecificHeatGlycol s.GasAbsorber.CDLoopNum s.Node.ChillReturn.Temp
  else p.Cp_CD_unset

/-- The local `lAvailableCoolingCapacity` (line 1625). -/
def availableCoolingCapacity (p : Plant) (s : ModuleState) : Real64 :=
  s.GasAbsorber.NomCoolingCap *
    p.CurveValue s.GasAbsorber.CoolCapFTCurve (chillSupplySetPointTemp p s)
      (some (condSide p s).calcCondTemp)

/-- The test of line 1756 fails on a water cooled unit: the routine ends in
`ShowFatalError` (line 1761). -/
def condFlowFails (p : Plant) (s : ModuleState) : Prop :=
  s.GasAbsorber.isWaterCooled = true ∧
    ¬ ((condSide p s).lCondWaterMassFlowRate > p.MassFlowTolerance)

instance (p : Plant) (s : ModuleState) : Decidable (condFlowFails p s) := by
  unfold condFlowFails
  infer_instance

/-- The operating path of the chiller model from line 1624 on, followed by the report
block, in terms of the values the routine holds at that point: the unit data `g`, the
report record `rep`, the node data `n` and the locals `lChillReturnTemp`,
`ChillSupplySetPointTemp`, `Cp_CW`, `Cp_CD` and those of the condenser side `c`. -/
def chillerCore (p : Plant) (g : GasAbsorberSpecs) (rep : ReportVars)
    (lChillReturnTemp ChillSupplySetPointTemp Cp_CW Cp_CD : Real64) (c : CondSide)
    (MyLoad0 : Real64) : ChillerResult :=
  let lHeatElectricPower := rep.HeatElectricPower
  let lHeatFuelUseRate := rep.HeatFuelUseRate
  let lHeatPartLoadRatio := rep.HeatPartLoadRatio
  let ChillDeltaTemp0 := |lChillReturnTemp - ChillSupplySetPointTemp|
  let lAvailableCoolingCapacity :=
    g.NomCoolingCap * p.CurveValue g.CoolCapFTCurve ChillSupplySetPointTemp (some c.calcCondTemp)
  let MyLoad := clampLoad MyLoad0 lAvailableCoolingCapacity g.MinPartLoadRat g.MaxPartLoadRat
  let e := chillSide p g c.Node MyLoad Cp_CW ChillDeltaTemp0 ChillSupplySetPointTemp
  let lCoolPartLoadRatio :=
    coolPartLoadRatio MyLoad lAvailableCoolingCapacity g.MinPartLoadRat g.MaxPartLoadRat
  let lFractionOfPeriodRunning :=
    coolFractionOfPeriodRunning lCoolPartLoadRatio lHeatPartLoadRatio g.MinPartLoadRat
  let lCoolFuelUseRate :=
    lAvailableCoolingCapacity * g.FuelCoolRatio *
      p.CurveValue g.FuelCoolFTCurve e.lChillSupplyTemp (some c.calcCondTemp) *
      p.CurveValue g.FuelCoolFPLRCurve lCoolPartLoadRatio none * lFractionOfPeriodRunning
  let lCoolElectricPower :=
    g.NomCoolingCap * g.ElecCoolRatio * lFractionOfPeriodRunning *
      p.CurveValue g.ElecCoolFTCurve e.lChillSupplyTemp (some c.calcCondTemp) *
      p.CurveValue g.ElecCoolFPLRCurve lCoolPartLoadRatio none
  let lTowerLoad := e.lCoolingLoad + lCoolFuelUseRate / g.FuelHeatRatio + lCoolElectricPower
  let lCondSupplyTemp :=
    if g.isWaterCooled then
      c.lCondReturnTemp + lTowerLoad / (c.lCondWaterMassFlowRate * Cp_CD)
    else c.lCondReturnTemp
  let revisedEstimateAvailCap :=
    g.NomCoolingCap * p.CurveValue g.CoolCapFTCurve ChillSupplySetPointTemp (some lCondSupplyTemp)
  let errorAvailCap :=
    |(revisedEstimateAvailCap - lAvailableCoolingCapacity) / revisedEstimateAvailCap|
  let warn : List Event :=
    if g.isEnterCondensTemp = false ∧ revisedEstimateAvailCap > 0 ∧ errorAvailCap > 5 / 100
    then [Event.ShowRecurringWarningErrorAtEnd ErrCount.CondErrCount] else []
  { state :=
      { GasAbsorber := { g with PossibleSubcooling := e.PossibleSubcooling }
        GasAbsorberReport :=
          (writeCoolReport rep e.lCoolingLoad lTowerLoad lCoolFuelUseRate
            lCoolElectricPower c.lCondReturnTemp lChillReturnTemp lCondSupplyTemp
            e.lChillSupplyTemp e.lChillWaterMassFlowRate c.lCondWaterMassFlowRate
            lCoolPartLoadRatio lAvailableCoolingCapacity lFractionOfPeriodRunning
            lHeatFuelUseRate lHeatElectricPower)
        Node := c.Node
        Calc_oldCondSupplyTemp := lCondSupplyTemp }
    MyLoad := MyLoad
    events := c.events ++ e.events ++ warn
    ChillDeltaTemp := e.ChillDeltaTemp
    calcCondTemp := some c.calcCondTemp }

/-- The operating path of the chiller model (lines 1583-1786) followed by the report
block, for a call that does not end in `ShowFatalError`: the entering conditions are read
(lines 1497-1562), the condenser side is set up (lines 1584-1622) and the operating point
is resolved. -/
def chillerRun (p : Plant) (s : ModuleState) (MyLoad0 : Real64) : ChillerResult :=
  chillerCore p s.GasAbsorber s.GasAbsorberReport s.Node.ChillReturn.Temp
    (chillSupplySetPointTemp p s) (Cp_CW p s) (Cp_CD p s) (condSide p s) MyLoad0

/-- The routine `CalcGasAbsorberChillerModel` (lines 1402-1806). -/
def CalcGasAbsorberChillerModel (p : Plant) (s : ModuleState) (MyLoad : Real64) :
    Except Fatal ChillerResult :=
  if chillerIdle s MyLoad then Except.ok (chillerOff p s MyLoad)
  else if condFlowFails p s then Except.error Fatal.ShowFatalError
  else Except.ok (chillerRun p s MyLoad)

/-- Locals of the hot-water side that leave the `FlowLock` block of the heater model
(lines 1943-2006), with the events of the block. -/
structure HeatSide where
  lHeatingLoad : Real64
  lHotWaterMassFlowRate : Real64
  HeatDeltaTemp : Real64
  lHotWaterSupplyTemp : Real64
  events : List Event

/-- The `FlowLock` block of the heater model (lines 1943-2006).  With a flow lock other
than 0, 1 and 2 no branch runs and the locals keep their entry values. -/
def heatSide (p : Plant) (g : GasAbsorberSpecs) (MyLoad Cp_HW HeatDeltaTemp
    lHotWaterReturnTemp lHotWaterMassFlowRate HeatSupplySetPointTemp : Real64) : HeatSide :=
  if p.FlowLock g.HWLoopNum = 0 then
    let lHeatingLoad := |MyLoad|
    if HeatDeltaTemp ≠ 0 then
      let requested := |lHeatingLoad / (Cp_HW * HeatDeltaTemp)|
      { lHeatingLoad := lHeatingLoad
        lHotWaterMassFlowRate := p.SetComponentFlowRate g.HWLoopNum requested
        HeatDeltaTemp := HeatDeltaTemp
        lHotWaterSupplyTemp := HeatSupplySetPointTemp
        events := [Event.SetComponentFlowRate g.HWLoopNum requested] }
    else
      { lHeatingLoad := lHeatingLoad
        lHotWaterMassFlowRate := 0
        HeatDeltaTemp := HeatDeltaTemp
        lHotWaterSupplyTemp := HeatSupplySetPointTemp
        events := [Event.ShowRecurringWarningErrorAtEnd ErrCount.DeltaTempHeatErrCount] }
  else if p.FlowLock g.HWLoopNum = 1 then
    { lHeatingLoad := |lHotWaterMassFlowRate * Cp_HW * HeatDeltaTemp|
      lHotWaterMassFlowRate := lHotWaterMassFlowRate
      HeatDeltaTemp := HeatDeltaTemp
      lHotWaterSupplyTemp := HeatSupplySetPointTemp
      events := [] }
  else if p.FlowLock g.HWLoopNum = 2 then
    let HeatDeltaTemp1 :=
      if lHotWaterMassFlowRate < p.MassFlowTolerance then 0
      else |MyLoad| / (Cp_HW * lHotWaterMassFlowRate)
    { lHeatingLoad := |lHotWaterMassFlowRate * Cp_HW * HeatDeltaTemp1|
      lHotWaterMassFlowRate := lHotWaterMassFlowRate
      HeatDeltaTemp := HeatDeltaTemp1
      lHotWaterSupplyTemp := lHotWaterReturnTemp + HeatDeltaTemp1
      events := [] }
  else
    { lHeatingLoad := 0
      lHotWaterMassFlowRate := lHotWaterMassFlowRate
      HeatDeltaTemp := HeatDeltaTemp
      lHotWaterSupplyTemp := 0
      events := [] }

/-- Lines 2034-2047: the report block of the heater model. -/
def writeHeatReport (r : ReportVars) (lHeatingLoad lHeatFuelUseRate lHeatElectricPower
    lHotWaterReturnTemp lHotWaterSupplyTemp lHotWaterMassFlowRate lHeatPartLoadRatio
    lAvailableHeatingCapacity lFractionOfPeriodRunning lCoolFuelUseRate
    lCoolElectricPower : Real64) : ReportVars :=
  { r with
    HeatingLoad := lHeatingLoad
    HeatFuelUseRate := lHeatFuelUseRate
    HeatElectricPower := lHeatElectricPower
    HotWaterReturnTemp := lHotWaterReturnTemp
    HotWaterSupplyTemp := lHotWaterSupplyTemp
    HotWaterFlowRate := lHotWaterMassFlowRate
    HeatPartLoadRatio := lHeatPartLoadRatio
    HeatingCapacity := lAvailableHeatingCapacity
    FractionOfPeriodRunning := lFractionOfPeriodRunning
    FuelUseRate := lCoolFuelUseRate + lHeatFuelUseRate
    ElectricPower := lCoolElectricPower + lHeatElectricPower }

/-- `HeatSupplySetPointTemp` of the heater model (lines 1908-1917). -/
def heatSupplySetPointTemp (p : Plant) (s : ModuleState) : Real64 :=
  match p.LoopDemandCalcScheme s.GasAbsorber.HWLoopNum with
  | LoopDemandCalcScheme.SingleSetPoint => s.Node.HeatSupply.TempSetPoint
  | LoopDemandCalcScheme.DualSetPointDeadBand => s.Node.HeatSupply.TempSetPointLo

/-- Lines 2020-2031: heating parasitic electricity, net of the cooling parasitic. -/
def heatElectricPower (g : GasAbsorberSpecs) (lFractionOfPeriodRunning
    lCoolElectricPower : Real64) : Real64 :=
  let lHeatElectricPower :=
    g.NomCoolingCap * g.NomHeatCoolRatio * g.ElecHeatRatio * lFractionOfPeriodRunning
  if lHeatElectricPower ≤ lCoolElectricPower then 0
  else lHeatElectricPower - lCoolElectricPower

/-- Result of `CalcGasAbsorberHeaterModel`: the state after the call, the in/out argument
`MyLoad`, the events and the local `HeatDeltaTemp` at the end of the routine. -/
structure HeaterResult where
  state : ModuleState
  MyLoad : Real64
  events : List Event
  HeatDeltaTemp : Real64

/-- The routine `CalcGasAbsorberHeaterModel` (lines 1808-2048).  The specific heat is
looked up with `lHotWaterReturnTemp` before that local receives the node temperature,
that is at its initial value 0. -/
def CalcGasAbsorberHeaterModel (p : Plant) (s : ModuleState) (MyLoad0 : Real64)
    (RunFlag : Bool) : HeaterResult :=
  let g := s.GasAbsorber
  let Cp_HW := p.GetSpecificHeatGlycol g.HWLoopNum 0
  let lCoolElectricPower := s.GasAbsorberReport.CoolElectricPower
  let lCoolFuelUseRate := s.GasAbsorberReport.CoolFuelUseRate
  let lCoolPartLoadRatio := s.GasAbsorberReport.CoolPartLoadRatio
  let lHotWaterReturnTemp := s.Node.HeatReturn.Temp
  let lHotWaterMassFlowRate := s.Node.HeatReturn.MassFlowRate
  let HeatSupplySetPointTemp := heatSupplySetPointTemp p s
  let HeatDeltaTemp0 := |lHotWaterReturnTemp - HeatSupplySetPointTemp|
  if MyLoad0 ≤ 0 ∨ RunFlag = false then
    let lHeatPartLoadRatio : Real64 := 0
    let lHotWaterSupplyTemp := lHotWaterReturnTemp
    let lFractionOfPeriodRunning :=
      min 1 (max lHeatPartLoadRatio lCoolPartLoadRatio / g.MinPartLoadRat)
    { state :=
        { s with GasAbsorberReport :=
            (writeHeatReport s.GasAbsorberReport 0 0 0 lHotWaterReturnTemp
              lHotWaterSupplyTemp lHotWaterMassFlowRate lHeatPartLoadRatio 0
              lFractionOfPeriodRunning lCoolFuelUseRate lCoolElectricPower) }
      MyLoad := MyLoad0
      events := []
      HeatDeltaTemp := 0 }
  else
    let lAvailableHeatingCapacity :=
      g.NomHeatCoolRatio * g.NomCoolingCap *
        p.CurveValue g.HeatCapFCoolCurve (s.GasAbsorberReport.CoolingLoad / g.NomCoolingCap)
          none
    let MyLoad := clampLoad MyLoad0 s.GasAbsorberReport.HeatingCapacity g.MinPartLoadRat
      g.MaxPartLoadRat
    let h := heatSide p g MyLoad Cp_HW HeatDeltaTemp0 lHotWaterReturnTemp
      lHotWaterMassFlowRate HeatSupplySetPointTemp
    let lHeatPartLoadRatio := h.lHeatingLoad / lAvailableHeatingCapacity
    let lHeatFuelUseRate :=
      lAvailableHeatingCapacity * g.FuelHeatRatio *
        p.CurveValue g.FuelHeatFHPLRCurve lHeatPartLoadRatio none
    let lFractionOfPeriodRunning :=
      min 1 (max lHeatPartLoadRatio lCoolPartLoadRatio / g.MinPartLoadRat)
    let lHeatElectricPower := heatElectricPower g lFractionOfPeriodRunning lCoolElectricPower
    { state :=
        { s with GasAbsorberReport :=
            (writeHeatReport s.GasAbsorberReport h.lHeatingLoad lHeatFuelUseRate
              lHeatElectricPower lHotWaterReturnTemp h.lHotWaterSupplyTemp
              h.lHotWaterMassFlowRate lHeatPartLoadRatio lAvailableHeatingCapacity
              lFractionOfPeriodRunning lCoolFuelUseRate lCoolElectricPower) }
      MyLoad := MyLoad
      events := h.events
      HeatDeltaTemp := h.HeatDeltaTemp }

/-- The routine `UpdateGasAbsorberCoolRecords` (lines 2050-2087). -/
def UpdateGasAbsorberCoolRecords (p : Plant) (s : ModuleState) (MyLoad : Real64)
    (RunFlag : Bool) : ModuleState :=
  let g := s.GasAbsorber
  let r := s.GasAbsorberReport
  let ChillSupplyTemp :=
    if MyLoad = 0 ∨ RunFlag = false then s.Node.ChillReturn.Temp else r.ChillSupplyTemp
  let CondSupplyTemp :=
    if g.isWaterCooled then
      (if MyLoad = 0 ∨ RunFlag = false then s.Node.CondReturn.Temp else r.CondSupplyTemp)
    else s.Node.CondSupply.Temp
  { s with
    Node :=
      { s.Node with
        ChillSupply := { s.Node.ChillSupply with Temp := ChillSupplyTemp }
        CondSupply := { s.Node.CondSupply with Temp := CondSupplyTemp } }
    GasAbsorberReport :=
      { r with
        CoolingEnergy := r.CoolingLoad * p.TimeStepSys * p.SecInHour
        TowerEnergy := r.TowerLoad * p.TimeStepSys * p.SecInHour
        FuelEnergy := r.FuelUseRate * p.TimeStepSys * p.SecInHour
        CoolFuelEnergy := r.CoolFuelUseRate * p.TimeStepSys * p.SecInHour
        ElectricEnergy := r.ElectricPower * p.TimeStepSys * p.SecInHour
        CoolElectricEnergy := r.CoolElectricPower * p.TimeStepSys * p.SecInHour
        FuelCOP := if r.CoolFuelUseRate ≠ 0 then r.CoolingLoad / r.CoolFuelUseRate else 0 } }

/-- The routine `UpdateGasAbsorberHeatRecords` (lines 2089-2112). -/
def UpdateGasAbsorberHeatRecords (p : Plant) (s : ModuleState) (MyLoad : Real64)
    (RunFlag : Bool) : ModuleState :=
  let r := s.GasAbsorberReport
  let HeatSupplyTemp :=
    if MyLoad = 0 ∨ RunFlag = false then s.Node.HeatReturn.Temp else r.HotWaterSupplyTemp
  { s with
    Node := { s.Node with HeatSupply := { s.Node.HeatSupply with Temp := HeatSupplyTemp } }
    GasAbsorberReport :=
      { r with
        HeatingEnergy := r.HeatingLoad * p.TimeStepSys * p.SecInHour
        FuelEnergy := r.FuelUseRate * p.TimeStepSys * p.SecInHour
        HeatFuelEnergy := r.HeatFuelUseRate * p.TimeStepSys * p.SecInHour
        ElectricEnergy := r.ElectricPower * p.TimeStepSys * p.SecInHour
        HeatElectricEnergy := r.HeatElectricPower * p.TimeStepSys * p.SecInHour } }

/-- Sample node data: water at 12 C, set point 7 C, outdoor air at 30 C. -/
def node0 : NodeData :=
  { Temp := 12, MassFlowRate := 2, TempSetPoint := 7, TempSetPointHi := 7,
    TempSetPointLo := 7, TempMin := 1, OutAirDryBulb := 30 }

/-- Sample unit: water cooled, entering-condenser convention, cooling mode on. -/
def spec0 : GasAbsorberSpecs :=
  { NomCoolingCap := 100000, NomHeatCoolRatio := 4/5, FuelCoolRatio := 97/100,
    FuelHeatRatio := 5/4, ElecCoolRatio := 1/100, ElecHeatRatio := 1/200,
    MinPartLoadRat := 1/10, MaxPartLoadRat := 1, CHWLowLimitTemp := 2,
    DesCondMassFlowRate := 5, DesEvapMassFlowRate := 4, DesHeatMassFlowRate := 3,
    CoolCapFTCurve := 1, FuelCoolFTCurve := 2, FuelCoolFPLRCurve := 3,
    ElecCoolFTCurve := 4, ElecCoolFPLRCurve := 5, HeatCapFCoolCurve := 6,
    FuelHeatFHPLRCurve := 7, isEnterCondensTemp := true, isWaterCooled := true,
    InCoolingMode := true, InHeatingMode := false, PossibleSubcooling := false,
    CWLoopNum := 1, CDLoopNum := 2, HWLoopNum := 3 }

/-- The report record with every field zero, as `ReportVars` is constructed. -/
def report0 : ReportVars :=
  { CoolingLoad := 0, CoolingEnergy := 0, HeatingLoad := 0, HeatingEnergy := 0,
    TowerLoad := 0, TowerEnergy := 0, FuelUseRate := 0, FuelEnergy := 0,
    CoolFuelUseRate := 0, CoolFuelEnergy := 0, HeatFuelUseRate := 0, HeatFuelEnergy := 0,
    ElectricPower := 0, ElectricEnergy := 0, CoolElectricPower := 0,
    CoolElectricEnergy := 0, HeatElectricPower := 0, HeatElectricEnergy := 0,
    ChillReturnTemp := 0, ChillSupplyTemp := 0, ChillWaterFlowRate := 0,
    CondReturnTemp := 0, CondSupplyTemp := 0, CondWaterFlowRate := 0,
    HotWaterReturnTemp := 0, HotWaterSupplyTemp := 0, HotWaterFlowRate := 0,
    CoolPartLoadRatio := 0, HeatPartLoadRatio := 0, CoolingCapacity := 0,
    HeatingCapacity := 0, FractionOfPeriodRunning := 0, FuelCOP := 0 }

/-- Sample nodes: condenser water returns at 29 C. -/
def nodes0 : Nodes :=
  { ChillReturn := node0, ChillSupply := node0, CondReturn := { node0 with Temp := 29 },
    CondSupply := node0, HeatReturn := node0, HeatSupply := node0 }

/-- Sample module state before the first call. -/
def state0 : ModuleState :=
  { GasAbsorber := spec0, GasAbsorberReport := report0, Node := nodes0,
    Calc_oldCondSupplyTemp := 0 }

/-- Sample plant with the given chilled/hot water flow lock: every curve evaluates to 1,
the specific heat is 4000 J/kg-K, the flow setter grants every request. -/
def plantWith (lock : Int) : Plant :=
  { MassFlowTolerance := 1/1000, DeltaTempTol := 1/10000,
    CurveValue := fun _ _ _ => 1, GetSpecificHeatGlycol := fun _ _ => 4000,
    SetComponentFlowRate := fun _ q => q,
    LoopDemandCalcScheme := fun _ => LoopDemandCalcScheme.SingleSetPoint,
    FlowLock := fun _ => lock, Cp_CD_unset := 0, TimeStepSys := 1/4, SecInHour := 3600 }

/-- Sample state for the flow-locked branch: chilled water returns at 3 C, below the
chiller low limit of 5 C, with a set point of 2 C. -/
def stateColdReturn : ModuleState :=
  { state0 with
    GasAbsorber := { spec0 with CHWLowLimitTemp := 5 }
    Node := { nodes0 with
      ChillReturn := { node0 with Temp := 3 }
      ChillSupply := { node0 with TempSetPoint := 2 } } }

/-- Sample state for the flow-locked branch: chilled water returns at 6 C, below the set
point of 8 C and above the chiller low limit of 5 C. -/
def stateWarmSetPoint : ModuleState :=
  { state0 with
    GasAbsorber := { spec0 with CHWLowLimitTemp := 5 }
    Node := { nodes0 with
      ChillReturn := { node0 with Temp := 6 }
      ChillSupply := { node0 with TempSetPoint := 8 } } }

/-- Relation between load and supply temperature kept by the flow-locked branch up to
the final load check: the load is within the request, or it is the heat taken from the
locked flow between return and supply temperature. -/
def lockedBalanced (MyLoad Cp flow ret : Real64) (l : Locked) : Prop :=
  l.lCoolingLoad ≤ |MyLoad| ∨
    (0 < flow → l.lCoolingLoad = flow * Cp * (ret - l.lChillSupplyTemp))

/-- Heat balance of the flow-locked branch: the load is flow times specific heat times
delta-T, and delta-T is the drop from return to supply temperature. -/
def lockedExact (Cp flow ret : Real64) (l : Locked) : Prop :=
  l.lCoolingLoad = flow * Cp * l.ChillDeltaTemp ∧ l.ChillDeltaTemp = ret - l.lChillSupplyTemp

/-- Sample state for the flow-free branch: chilled water returns at the set point, 7 C. -/
def stateAtSetPoint : ModuleState :=
  { state0 with Node := { nodes0 with ChillReturn := { node0 with Temp := 7 } } }

/-- Sample plant with flow lock 0 whose flow setter grants at most 1 kg/s. -/
def plantLimitedFlow : Plant :=
  { plantWith 0 with SetComponentFlowRate := fun _ q => min q 1 }

/-- Sample state of a water cooled unit using the leaving-condenser convention, with no
fuel or electric input to the condenser load and condenser water returning at -2 C: the
first call, asked for 40 kW, computes a condenser supply temperature of
`-2 + 40000 / (5 * 4000) = 0` C. -/
def stateLeaving : ModuleState :=
  { state0 with
    GasAbsorber :=
      { spec0 with isEnterCondensTemp := false, FuelCoolRatio := 0, ElecCoolRatio := 0 }
    Node := { nodes0 with CondReturn := { node0 with Temp := -2 } } }

/-- State for a repeated call: `st` with the nodes `n` and with the stored condenser supply
temperature estimate put back to `t`. -/
def pinned (st : ModuleState) (n : Nodes) (t : Real64) : ModuleState :=
  { st with Node := n, Calc_oldCondSupplyTemp := t }

/-- Sample plant with flow lock 0 in which the cooling capacity curve (curve 1 of the
sample unit) evaluates to 0 and every other curve to 1. -/
def plantNoCapacity : Plant :=
  { plantWith 0 with CurveValue := fun c _ _ => if c = 1 then 0 else 1 }

/-- The sample state after an earlier heating call stored a heating capacity of 80 kW,
with 100 W of cooling parasitic electricity in the report record. -/
def stateHeated : ModuleState :=
  { state0 with
    GasAbsorberReport :=
      { report0 with HeatingCapacity := 80000, CoolElectricPower := 100 } }

/-- The local `Cp_HW` of the heater model (lines 1898-1899): the lookup is made with
`lHotWaterReturnTemp`, which holds its initial value 0 (line 1861) until the node
temperature is read (line 1906). -/
def Cp_HW (p : Plant) (s : ModuleState) : Real64 :=
  p.GetSpecificHeatGlycol s.GasAbsorber.HWLoopNum 0

/-- The state `s` with the hot water return node at temperature `T`. -/
def withHeatReturnTemp (s : ModuleState) (T : Real64) : ModuleState :=
  { s with Node := { s.Node with HeatReturn := { s.Node.HeatReturn with Temp := T } } }

/-- Sample plant with flow lock 2 whose hot water specific heat grows with temperature:
`4000 + T` J/kg-K. -/
def plantCpVaries : Plant :=
  { plantWith 2 with GetSpecificHeatGlycol := fun _ T => 4000 + T }

/-- The module with all its units: the arrays `GasAbsorber` and `GasAbsorberReport`
(lines 116-117, dimensioned to the number of machines), the nodes of each unit, and the
file-level variable `Calc_oldCondSupplyTemp` (line 132), of which there is one for all
units.  Different units are taken to sit on different nodes. -/
structure ModuleData where
  GasAbsorber : Int → GasAbsorberSpecs
  GasAbsorberReport : Int → ReportVars
  Node : Int → Nodes
  Calc_oldCondSupplyTemp : Real64

/-- The part of the module a routine called with `ChillNum` reads and writes. -/
def unitState (M : ModuleData) (ChillNum : Int) : ModuleState :=
  { GasAbsorber := M.GasAbsorber ChillNum
    GasAbsorberReport := M.GasAbsorberReport ChillNum
    Node := M.Node ChillNum
    Calc_oldCondSupplyTemp := M.Calc_oldCondSupplyTemp }

/-- The module after a routine called with `ChillNum` left the state `s` behind. -/
def storeUnit (M : ModuleData) (ChillNum : Int) (s : ModuleState) : ModuleData :=
  { GasAbsorber := Function.update M.GasAbsorber ChillNum s.GasAbsorber
    GasAbsorberReport := Function.update M.GasAbsorberReport ChillNum s.GasAbsorberReport
    Node := Function.update M.Node ChillNum s.Node
    Calc_oldCondSupplyTemp := s.Calc_oldCondSupplyTemp }

/-- The routine `CalcGasAbsorberChillerModel` called with the unit number `ChillNum`. -/
def CalcGasAbsorberChillerModelOf (p : Plant) (M : ModuleData) (ChillNum : Int)
    (MyLoad : Real64) : Except Fatal (ModuleData × ChillerResult) :=
  match CalcGasAbsorberChillerModel p (unitState M ChillNum) MyLoad with
  | Except.error f => Except.error f
  | Except.ok r => Except.ok (storeUnit M ChillNum r.state, r)

/-- Sample leaving-convention unit as `stateLeaving`, with condenser water returning at
30 C: asked for 40 kW it computes a condenser supply temperature of
`30 + 40000 / (5 * 4000) = 32` C. -/
def stateLeavingWarm : ModuleState :=
  { stateLeaving with Node := { nodes0 with CondReturn := { node0 with Temp := 30 } } }

/-- Sample module before the first call: unit 2 is the leaving-convention unit of
`stateLeavingWarm`, every other unit the entering-convention unit of `state0`. -/
def twoUnits : ModuleData :=
  { GasAbsorber := fun n => if n = 2 then stateLeavingWarm.GasAbsorber else state0.GasAbsorber
    GasAbsorberReport := fun _ => report0
    Node := fun n => if n = 2 then stateLeavingWarm.Node else state0.Node
    Calc_oldCondSupplyTemp := 0 }

/-- The module after a resolution of unit `ChillNum` that takes the operating path. -/
def resolveUnit (p : Plant) (M : ModuleData) (ChillNum : Int) (MyLoad : Real64) :
    ModuleData :=
  storeUnit M ChillNum (chillerRun p (unitState M ChillNum) MyLoad).state

end ChillerGasAbsorption

/-! # Indoor ice rink (`IndoorIceRink.cc`)

A shallow embedding of `IceRinkData::calcEffectiveness`, `IceRinkFreezing`, the first-time
block of `initialize`, `calculateIceRink` and `report`.

Conventions of the embedding.

* The definitions are written over an arbitrary linearly ordered field `R` standing for
  `Real64`, so they can be run over the rationals and reasoned about over the reals.  The
  library functions `std::exp` and `std::pow` and the constant `Pi` are the fields of
  `MathFns`; `realMath` is their reading over the reals.  No theorem relies on the value a
  field gives to a quotient with a zero denominator.
* The two quotients of the closure that give `Ck` and `Cl` are formed by `quotient`, whose
  value for a zero denominator is `none`: the infinity or NaN that the division delivers
  in the source.  The members `Ck` and `Cl` are therefore of type `Option R`.
* The class declaration (`IndoorIceRink.hh`) is outside the sources at hand: the members
  `operation`, `Increments`, `hrstofreeze`, `deltatemp`, `COP` and `SecInHour` are taken as
  `Real64` members whose values are part of the rink record.
* Data owned by other modules (schedules, nodes, the heat balance arrays, the fluid
  properties) are the fields of `World`.  The array `QRadSysSource` is written by the rink
  and is returned with the result.
* `abs` is the absolute value of a `Real64`.
* `ShowFatalError` ends the run: `calculateIceRink` returns in `Except Fatal`.
-/

namespace IceRink

/-- The functions `std::exp`, `std::pow` and the constant `DataGlobalConstants::Pi`. -/
structure MathFns (R : Type) where
  Pi : R
  exp : R → R
  pow : R → R → R

/-- The member `coeffs` of `IceRinkData`.  `Ck` and `Cl` are the results of a division:
`none` is the value that is no number (infinity or NaN). -/
structure Coeffs (R : Type) where
  Ca : R
  Cb : R
  Cc : R
  Cd : R
  Ce : R
  Cf : R
  Cg : R
  Ch : R
  Ci : R
  Cj : R
  Ck : Option R
  Cl : Option R
  Area : R

/-- The members of `IceRinkData` read or written by the embedded routines. -/
structure IceRinkData (R : Type) where
  SchedPtr : Int
  SurfacePtr : Int
  ZonePtr : Int
  InNode : Int
  OutNode : Int
  LoopNum : Int
  ControlStrategy : Int
  IceSetptSchedPtr : Int
  RefrigSetptSchedPtr : Int
  TubeDiameter : R
  TubeLength : R
  LengthRink : R
  WidthRink : R
  IceThickness : R
  IceSetPointTemp : R
  WaterTemp : R
  hrstofreeze : R
  deltatemp : R
  Increments : R
  SecInHour : R
  COP : R
  operation : R
  RefrigSetptTemp : R
  IceSetptTemp : R
  RefrigTempIn : R
  RefrigMassFlow : R
  PastRefrigMassFlow : R
  ReqMassFlow : R
  coeffs : Coeffs R
  Tsurfin1 : R
  Tsurfin2 : R
  IceTemperature : R
  CpRefrig : R
  Tsrc : R
  RhoWater : R
  CpWater : R
  Qsetpoint : R
  Effectiveness : R
  Q : R
  Qsrcmax : R
  maxmdot : R
  TRefigOutCheck : R
  Qsource2 : R
  LoadMet : R
  CoolPower : R
  CoolEnergy : R
  RefrigInletTemp : R
  RefrigOutletTemp : R

/-- Data of other modules the rink reads.  The fluid property functions take the plant loop
whose fluid is looked up and the temperature; the two `Water` functions are the lookups
with the fluid name `"WATER"`.  `CTFTSourceQ0 c` is `Construct(c).CTFTSourceQ(0)`, and
likewise for `In` and `Out`. -/
structure World (R : Type) where
  GetCurrentScheduleValue : Int → R
  NodeTemp : Int → R
  RadSysTiHBConstCoef : Int → R
  RadSysTiHBToutCoef : Int → R
  RadSysTiHBQsrcCoef : Int → R
  RadSysToHBConstCoef : Int → R
  RadSysToHBTinCoef : Int → R
  RadSysToHBQsrcCoef : Int → R
  CTFTsrcConstPart : Int → R
  SurfaceConstruction : Int → Int
  CTFTSourceQ0 : Int → R
  CTFTSourceIn0 : Int → R
  CTFTSourceOut0 : Int → R
  SurfaceArea : Int → R
  TH : Int → Int → Int → R
  TempSurfIn : Int → R
  TempSource : Int → R
  GetSpecificHeatGlycol : Int → R → R
  GetConductivityGlycol : Int → R → R
  GetViscosityGlycol : Int → R → R
  GetDensityGlycol : Int → R → R
  GetSpecificHeatWater : R → R
  GetDensityWater : R → R
  QRadSysSource : Int → R
  TimeStepSys : R

/-- The ways `calculateIceRink` ends the run. -/
inductive Fatal where
  | IllegalInletNode
  | IllegalBrinePointer
  | IllegalSurfacePointer
  | IllegalControlStrategy
deriving DecidableEq

/-- Calls that leave the module, in program order. -/
inductive Event where
  | CalcHeatBalanceOutsideSurf (ZoneNum : Int)
  | CalcHeatBalanceInsideSurf (ZoneNum : Int)
deriving DecidableEq

/-- Line 112. -/
def SurfaceTempControl : Int := 1

/-- Line 113. -/
def BrineOutletTempControl : Int := 2

variable {R : Type} [LinearOrderedField R]

/-- `ReynoldsNum` of `calcEffectiveness` (lines 801-803). -/
def reynoldsNum (m : MathFns R) (w : World R) (d : IceRinkData R)
    (Temperature RefrigMassFlow : R) : R :=
  4 * RefrigMassFlow / (m.Pi * w.GetViscosityGlycol d.LoopNum Temperature * d.TubeDiameter)

/-- `NuseltNum` of `calcEffectiveness` (lines 805-812). -/
def nuseltNum (m : MathFns R) (w : World R) (d : IceRinkData R)
    (Temperature RefrigMassFlow : R) : R :=
  let SpecificHeat := w.GetSpecificHeatGlycol d.LoopNum Temperature
  let Conductivity := w.GetConductivityGlycol d.LoopNum Temperature
  let Viscosity := w.GetViscosityGlycol d.LoopNum Temperature
  let ReynoldsNum := reynoldsNum m w d Temperature RefrigMassFlow
  let PrantlNum := Viscosity * SpecificHeat / Conductivity
  if ReynoldsNum ≥ 2300 then
    23 / 1000 * m.pow ReynoldsNum (8 / 10) * m.pow PrantlNum (3 / 10)
  else 366 / 100

/-- `NTU` of `calcEffectiveness` (line 814). -/
def ntu (m : MathFns R) (w : World R) (d : IceRinkData R)
    (Temperature RefrigMassFlow : R) : R :=
  m.Pi * w.GetConductivityGlycol d.LoopNum Temperature *
      nuseltNum m w d Temperature RefrigMassFlow * d.TubeLength /
    (RefrigMassFlow * w.GetSpecificHeatGlycol d.LoopNum Temperature)

/-- The last statement of `calcEffectiveness` (lines 816-820), as a function of `NTU`. -/
def effectivenessOfNTU (m : MathFns R) (NTU : R) : R :=
  if NTU > 50 then 1 else 1 - m.exp (-NTU)

/-- The function `IceRinkData::calcEffectiveness` (lines 771-823). -/
def calcEffectiveness (m : MathFns R) (w : World R) (d : IceRinkData R)
    (Temperature RefrigMassFlow : R) : R :=
  effectivenessOfNTU m (ntu m w d Temperature RefrigMassFlow)

/-- The function `IceRinkData::IceRinkFreezing` (lines 729-748). -/
def IceRinkFreezing (w : World R) (d : IceRinkData R) : R :=
  let QFusion : R := 333550
  let CpIce : R := 2108
  let RhoWater := w.GetDensityWater d.WaterTemp
  let CpWater := w.GetSpecificHeatWater d.WaterTemp
  let Volume := d.LengthRink * d.WidthRink * d.IceThickness
  RhoWater * Volume * (CpWater * d.WaterTemp + QFusion - CpIce * d.IceSetPointTemp) /
    (d.hrstofreeze * d.SecInHour)

/-- The rink members set by the `FirstTimeInit` block of `initialize` (lines 576-591). -/
def initializeFirstTime (w : World R) (d : IceRinkData R) : IceRinkData R :=
  let CpRefrig := w.GetSpecificHeatGlycol d.LoopNum (-10)
  let Qsrcmax := -(IceRinkFreezing w d)
  { d with
    PastRefrigMassFlow := 1 / 100
    RefrigTempIn := -10
    CpRefrig := CpRefrig
    Qsrcmax := Qsrcmax
    maxmdot := |Qsrcmax| / (CpRefrig * d.deltatemp) }

/-- The checks of `calculateIceRink` that end in `ShowFatalError` (lines 869-895), in
program order; `none` when the call goes on. -/
def fatalCheck (d : IceRinkData R) : Option Fatal :=
  if d.InNode = 0 then some Fatal.IllegalInletNode
  else if d.ControlStrategy = BrineOutletTempControl then
    (if d.RefrigSetptSchedPtr > 0 then none else some Fatal.IllegalBrinePointer)
  else if d.ControlStrategy = SurfaceTempControl then
    (if d.IceSetptSchedPtr > 0 then none else some Fatal.IllegalSurfacePointer)
  else some Fatal.IllegalControlStrategy

/-- The set point read from its schedule (lines 874-895), for a call that goes on. -/
def readSetPoint (w : World R) (d : IceRinkData R) : IceRinkData R :=
  if d.ControlStrategy = BrineOutletTempControl then
    { d with RefrigSetptTemp := w.GetCurrentScheduleValue d.RefrigSetptSchedPtr }
  else
    { d with IceSetptTemp := w.GetCurrentScheduleValue d.IceSetptSchedPtr }

/-- The division `x / y` of two `Real64`, as it is written in the source with no test of
the denominator: with `y` equal to 0 the result is an infinity or NaN, rendered `none`. -/
def quotient (x y : R) : Option R :=
  if y = 0 then none else some (x / y)

/-- The block `if (!is_test)` of `calculateIceRink` (lines 917-947): the stored past flow
becomes the flow, the coefficients are fetched from the heat balance and `Ck`, `Cl` are
derived from them, each by a division by `1.0 - Ce * Cb`. -/
def fetchCoeffs (w : World R) (d : IceRinkData R) : IceRinkData R :=
  let SurfNum := d.SurfacePtr
  let ConstrNum := w.SurfaceConstruction SurfNum
  let Ca := w.RadSysTiHBConstCoef SurfNum
  let Cb := w.RadSysTiHBToutCoef SurfNum
  let Cc := w.RadSysTiHBQsrcCoef SurfNum
  let Cd := w.RadSysToHBConstCoef SurfNum
  let Ce := w.RadSysToHBTinCoef SurfNum
  let Cf := w.RadSysToHBQsrcCoef SurfNum
  let Cg := w.CTFTsrcConstPart SurfNum
  let Ch := w.CTFTSourceQ0 ConstrNum
  let Ci := w.CTFTSourceIn0 ConstrNum
  let Cj := w.CTFTSourceOut0 ConstrNum
  { d with
    RefrigMassFlow := d.PastRefrigMassFlow
    RefrigTempIn := w.NodeTemp d.InNode
    coeffs :=
      { Ca := Ca, Cb := Cb, Cc := Cc, Cd := Cd, Ce := Ce, Cf := Cf, Cg := Cg, Ch := Ch,
        Ci := Ci, Cj := Cj
        Ck := Option.map (fun q => Cg + q)
          (quotient (Ci * (Ca + Cb * Cd) + Cj * (Cd + Ce * Ca)) (1 - Ce * Cb))
        Cl := Option.map (fun q => Ch + q)
          (quotient (Ci * (Cc + Cb * Cf) + Cj * (Cf + Ce * Cc)) (1 - Ce * Cb))
        Area := w.SurfaceArea SurfNum } }

/-- The statements between the coefficient block and the operating branch (lines 970-972,
1007-1016 and 1066-1068): surface temperatures, refrigerant specific heat, source temperature and
the water properties at the ice temperature. -/
def readSurface (w : World R) (d : IceRinkData R) : IceRinkData R :=
  let SurfNum := d.SurfacePtr
  let IceTemperature := w.TempSurfIn SurfNum
  { d with
    Tsurfin1 := w.TH 2 2 SurfNum
    Tsurfin2 := w.TH 1 2 SurfNum
    IceTemperature := IceTemperature
    CpRefrig := w.GetSpecificHeatGlycol d.LoopNum d.RefrigTempIn
    Tsrc := w.TempSource SurfNum
    RhoWater := w.GetDensityWater IceTemperature
    CpWater := w.GetSpecificHeatWater IceTemperature }

/-- The branches that switch the rink off (lines 1081-1086 and 1156-1161). -/
def rinkOff (d : IceRinkData R) : IceRinkData R :=
  { d with Q := 0, RefrigMassFlow := 0, ReqMassFlow := 0, PastRefrigMassFlow := 0 }

/-- `Qsetpoint` of the two operating branches (lines 1093-1097 and 1128). -/
def targetRate (d : IceRinkData R) : R :=
  let Volume := d.LengthRink * d.WidthRink * d.IceThickness
  let CpIce : R := 2040
  let RhoIce : R := 917
  let QFusion : R := 333550
  if d.Tsurfin2 ≥ 0 then
    d.RhoWater * Volume * (d.CpWater * d.Tsurfin2 + QFusion - CpIce * d.IceSetPointTemp) /
      (d.Increments * d.SecInHour)
  else
    RhoIce * Volume * (CpIce * (d.Tsurfin2 - d.IceSetPointTemp)) /
      (d.Increments * d.SecInHour)

/-- The statements that follow `Qsetpoint` in either operating branch (lines 1099-1117 and,
word for word, 1131-1149). -/
def rinkOn (m : MathFns R) (w : World R) (d : IceRinkData R) : IceRinkData R :=
  let Qsetpoint := targetRate d
  let ReqMassFlow0 := |Qsetpoint / (d.CpRefrig * (d.Tsurfin2 - d.RefrigTempIn))|
  let ReqMassFlow := if ReqMassFlow0 > d.maxmdot then d.maxmdot else ReqMassFlow0
  let Effectiveness := calcEffectiveness m w d d.RefrigTempIn ReqMassFlow
  let Q0 := -(Effectiveness * Qsetpoint)
  let Q := if Q0 < Effectiveness * d.Qsrcmax then Effectiveness * d.Qsrcmax else Q0
  { d with
    Qsetpoint := Qsetpoint
    ReqMassFlow := ReqMassFlow
    RefrigMassFlow := ReqMassFlow
    PastRefrigMassFlow := ReqMassFlow
    Effectiveness := Effectiveness
    Q := Q }

/-- The operating branch of `calculateIceRink` (lines 1078-1162).  In every branch the
value stored in `Q` is the one written to `QRadSysSource(SurfNum)`. -/
def operate (m : MathFns R) (w : World R) (d : IceRinkData R) : IceRinkData R :=
  if d.operation = 1 then
    if d.Tsurfin2 ≤ d.IceSetPointTemp then rinkOff d else rinkOn m w d
  else rinkOff d

/-- Result of `calculateIceRink`: the rink record, the array `QRadSysSource`, the
reference argument `LoadMet` and the calls made. -/
structure CalcResult (R : Type) where
  rink : IceRinkData R
  QRadSysSource : Int → R
  LoadMet : R
  events : List Event

/-- The statements of `calculateIceRink` before the operating branch (lines 858-1073) for a
call that passes the checks of `fatalCheck`: the schedule value, the set point, the inlet
temperature, with `is_test` false the coefficients, and the surface data. -/
def prepare (w : World R) (d0 : IceRinkData R) (is_test : Bool) : IceRinkData R :=
  let d1 := { d0 with operation := w.GetCurrentScheduleValue d0.IceSetptSchedPtr }
  let d2 := readSetPoint w d1
  let d3 := { d2 with RefrigTempIn := w.NodeTemp d2.InNode }
  let d4 := if is_test then d3 else fetchCoeffs w d3
  readSurface w d4

/-- The routine `calculateIceRink` (lines 825-1179) for a call that passes the checks of
`fatalCheck`.  The two heat balance routines called at the end belong to the heat balance
manager; they are recorded as events and are taken to leave `QRadSysSource` as it is. -/
def calculateIceRinkRun (m : MathFns R) (w : World R) (d0 : IceRinkData R)
    (is_test : Bool) : CalcResult R :=
  let ZoneNum := d0.ZonePtr
  let SurfNum := d0.SurfacePtr
  let d6 := operate m w (prepare w d0 is_test)
  let QRadSysSource := Function.update w.QRadSysSource SurfNum d6.Q
  let d7 :=
    if d6.RefrigMassFlow > 0 then
      { d6 with
        TRefigOutCheck :=
          d6.RefrigTempIn - QRadSysSource SurfNum / (d6.RefrigMassFlow * d6.CpRefrig) }
    else d6
  { rink := { d7 with Qsource2 := QRadSysSource SurfNum, LoadMet := QRadSysSource SurfNum }
    QRadSysSource := QRadSysSource
    LoadMet := QRadSysSource SurfNum
    events :=
      [Event.CalcHeatBalanceOutsideSurf ZoneNum, Event.CalcHeatBalanceInsideSurf ZoneNum] }

/-- The routine `IceRinkData::calculateIceRink` (lines 825-1179). -/
def calculateIceRink (m : MathFns R) (w : World R) (d : IceRinkData R)
    (is_test : Bool) : Except Fatal (CalcResult R) :=
  match fatalCheck d with
  | some f => Except.error f
  | none => Except.ok (calculateIceRinkRun m w d is_test)

/-- The routine `IceRinkData::report` (lines 1277-1290); `SecInHour` names the member. -/
def report (w : World R) (d : IceRinkData R) : IceRinkData R :=
  let CoolPower := |d.LoadMet| / d.COP
  { d with
    CoolPower := CoolPower
    RefrigInletTemp := w.NodeTemp d.InNode
    RefrigOutletTemp := w.NodeTemp d.OutNode
    CoolEnergy := CoolPower * w.TimeStepSys * d.SecInHour }

/-- The library functions over the reals. -/
noncomputable def realMath : MathFns ℝ :=
  { Pi := Real.pi, exp := Real.exp, pow := fun x y => x ^ y }

/-- Sample surroundings: the schedule reads `sched`, the slab surface is at `T`, the
refrigerant enters at -1.5 C; the refrigerant has specific heat, conductivity, viscosity
and density 1; water has density 1000 and specific heat 4000; the source array holds 7
everywhere. -/
def worldAt (R : Type) [LinearOrderedField R] (sched T : R) : World R :=
  { GetCurrentScheduleValue := fun _ => sched
    NodeTemp := fun _ => -3 / 2
    RadSysTiHBConstCoef := fun _ => 1
    RadSysTiHBToutCoef := fun _ => 1 / 2
    RadSysTiHBQsrcCoef := fun _ => 1
    RadSysToHBConstCoef := fun _ => 1
    RadSysToHBTinCoef := fun _ => 1 / 2
    RadSysToHBQsrcCoef := fun _ => 1
    CTFTsrcConstPart := fun _ => 1
    SurfaceConstruction := fun _ => 1
    CTFTSourceQ0 := fun _ => 1
    CTFTSourceIn0 := fun _ => 1
    CTFTSourceOut0 := fun _ => 1
    SurfaceArea := fun _ => 1
    TH := fun _ _ _ => T
    TempSurfIn := fun _ => T
    TempSource := fun _ => T
    GetSpecificHeatGlycol := fun _ _ => 1
    GetConductivityGlycol := fun _ _ => 1
    GetViscosityGlycol := fun _ _ => 1
    GetDensityGlycol := fun _ _ => 1
    GetSpecificHeatWater := fun _ => 4000
    GetDensityWater := fun _ => 1000
    QRadSysSource := fun _ => 7
    TimeStepSys := 1 / 4 }

/-- Sample rink as read from input: surface temperature control, a 1 m by 1 m sheet 1 mm
thick kept at -2 C, flooded with water at 0 C, tubes 100 m long of diameter 1 m; all run
time members are 0. -/
def rinkInput (R : Type) [LinearOrderedField R] : IceRinkData R :=
  { SchedPtr := 1, SurfacePtr := 1, ZonePtr := 1, InNode := 1, OutNode := 2, LoopNum := 1
    ControlStrategy := SurfaceTempControl, IceSetptSchedPtr := 1, RefrigSetptSchedPtr := 0
    TubeDiameter := 1, TubeLength := 100, LengthRink := 1, WidthRink := 1
    IceThickness := 1 / 1000, IceSetPointTemp := -2, WaterTemp := 0
    hrstofreeze := 168883 / 9000, deltatemp := 5, Increments := 1, SecInHour := 3600
    COP := 2, operation := 0, RefrigSetptTemp := 0, IceSetptTemp := 0, RefrigTempIn := 0
    RefrigMassFlow := 0, PastRefrigMassFlow := 0, ReqMassFlow := 0
    coeffs :=
      { Ca := 0, Cb := 0, Cc := 0, Cd := 0, Ce := 0, Cf := 0, Cg := 0, Ch := 0, Ci := 0,
        Cj := 0, Ck := some 0, Cl := some 0, Area := 0 }
    Tsurfin1 := 0, Tsurfin2 := 0, IceTemperature := 0, CpRefrig := 0, Tsrc := 0
    RhoWater := 0, CpWater := 0, Qsetpoint := 0, Effectiveness := 0, Q := 0, Qsrcmax := 0
    maxmdot := 0, TRefigOutCheck := 0, Qsource2 := 0, LoadMet := 0, CoolPower := 0
    CoolEnergy := 0, RefrigInletTemp := 0, RefrigOutletTemp := 0 }

/-- The sample rink after the first-time block of `initialize`: `Qsrcmax` is -5 W and
`maxmdot` is 1 kg/s. -/
def rink0 (R : Type) [LinearOrderedField R] : IceRinkData R :=
  initializeFirstTime (worldAt R 1 0) (rinkInput R)

/-- The sample rink with tubes 1 m long. -/
def rinkShort (R : Type) [LinearOrderedField R] : IceRinkData R :=
  { rink0 R with TubeLength := 1 }

/-- The surroundings `w` with the coefficient data of the heat balance (the coefficient
arrays, the construction of each surface with its source terms, the surface areas) taken
from `c`. -/
def withCoefficients (w c : World R) : World R :=
  { w with
    RadSysTiHBConstCoef := c.RadSysTiHBConstCoef
    RadSysTiHBToutCoef := c.RadSysTiHBToutCoef
    RadSysTiHBQsrcCoef := c.RadSysTiHBQsrcCoef
    RadSysToHBConstCoef := c.RadSysToHBConstCoef
    RadSysToHBTinCoef := c.RadSysToHBTinCoef
    RadSysToHBQsrcCoef := c.RadSysToHBQsrcCoef
    CTFTsrcConstPart := c.CTFTsrcConstPart
    SurfaceConstruction := c.SurfaceConstruction
    CTFTSourceQ0 := c.CTFTSourceQ0
    CTFTSourceIn0 := c.CTFTSourceIn0
    CTFTSourceOut0 := c.CTFTSourceOut0
    SurfaceArea := c.SurfaceArea }

/-- The surroundings `w` with the schedule `SchedPtr` reading `v`. -/
def withScheduleValue (w : World R) (SchedPtr : Int) (v : R) : World R :=
  { w with GetCurrentScheduleValue := Function.update w.GetCurrentScheduleValue SchedPtr v }


/-- Sample surroundings as `worldAt R 1 1` in which the heat balance coefficients of the
slab satisfy `Ce * Cb = 2 * (1 / 2) = 1`. -/
def worldSingular (R : Type) [LinearOrderedField R] : World R :=
  { worldAt R 1 1 with RadSysToHBTinCoef := fun _ => 2 }

/-- Line 578, in the first-time block of `initialize`:
`QRadSysSrcAvg.dimension(TotSurfaces, 0.0)`. -/
def dimensionSrcAvg : Option (Int → R) :=
  some (fun _ => 0)

/-- Line 596, at the beginning of an environment: `QRadSysSrcAvg = 0.0`, every entry of
the array becomes 0.  The statement comes after the first-time block, so the array is
allocated when it runs. -/
def resetSrcAvg (QRadSysSrcAvg : Option (Int → R)) : Option (Int → R) :=
  QRadSysSrcAvg.map (fun _ => fun _ => 0)

/-- Line 608, at the beginning of a time step: `QRadSysSrcAvg(SurfNum) = 0.0`. -/
def clearSrcAvg (QRadSysSrcAvg : Option (Int → R)) (SurfNum : Int) : Option (Int → R) :=
  QRadSysSrcAvg.map (fun a => Function.update a SurfNum 0)

/-- The values the array `QRadSysSrcAvg` takes during a run.  It starts unallocated (and
is so again after `clear_state`, line 134); the only statements of the module that write
it are those of lines 578, 596 and 608, run any number of times for any surface.  The
statements of `update` that would accumulate the source into it (lines 1207-1218) are
commented out. -/
inductive SourceAverage : Option (Int → R) → Prop where
  | unallocated : SourceAverage none
  | dimension : SourceAverage (dimensionSrcAvg : Option (Int → R))
  | reset {a : Option (Int → R)} : SourceAverage a → SourceAverage (resetSrcAvg a)
  | clear {a : Option (Int → R)} (SurfNum : Int) :
      SourceAverage a → SourceAverage (clearSrcAvg a SurfNum)

/-- The routine `UpdateIceRinkSourceValAvg` (lines 1234-1275), returning the reference
argument `IceRinkOn` and the array `QRadSysSource`.  `QRadSysSrcAvg` is `none` when the
array was never allocated; the loop over the surfaces and the copy of the averages are
commented out in the source. -/
def UpdateIceRinkSourceValAvg (QRadSysSrcAvg : Option (Int → R))
    (QRadSysSource : Int → R) : Bool × (Int → R) :=
  let IceRinkOn := false
  match QRadSysSrcAvg with
  | none => (IceRinkOn, QRadSysSource)
  | some _ => (IceRinkOn, fun _ => 0)

end IceRink

/-! # Performance curves (`CurveManager`)

The file `CurveManager.cc` is not among the sources at hand; its unit tests
(`CurveManager.unit.cc`) are.  `CurveValue` is modelled from the specification and the
tables of two of the tests are written down with what the missing input routine makes of
them.
-/

namespace CurveManager

/-- Modelled from the spec: one performance curve or table of `CurveManager` (the code of
`CurveManager.cc` is missing): the function `evaluate` the curve or the table
interpolation stands for, the authored bounds `Var1Min` and `Var1Max` of the
independent variable, and the output bounds `CurveMin` and `CurveMax`, each present or
not. -/
structure PerfCurve where
  evaluate : ℚ → ℚ
  Var1Min : ℚ
  Var1Max : ℚ
  CurveMin : Option ℚ
  CurveMax : Option ℚ

/-- Modelled from the spec: the output bounds applied to a curve output (`CurveValue` of
`CurveManager.cc` is missing): "output clipped to authored min/max output bounds if
present". -/
def clipOutput (c : PerfCurve) (y : ℚ) : ℚ :=
  let y1 := match c.CurveMin with
    | some lo => max y lo
    | none => y
  match c.CurveMax with
  | some hi => min y1 hi
  | none => y1

/-- Modelled from the spec: `CurveManager::CurveValue` for one independent variable (the
code of `CurveManager.cc` is missing): "given a curve handle and one or two
independent variables, returns a scalar, clamped to the curve's domain (no extrapolation
beyond authored min/max independent-variable bounds; output clipped to authored min/max
output bounds if present)". -/
def CurveValue (c : PerfCurve) (x : ℚ) : ℚ :=
  clipOutput c (c.evaluate (max (min x c.Var1Max) c.Var1Min))

/-- The table `TestTableOverwrite` of the test
`Tables_OneIndependentVariable_EvaluateToLimits_UserEnteredMinMaxXY` (test lines 288-310):
curve type `Linear` evaluated to limits, that is the least squares line
`20/21 + 17/35 * x` through the six points (0,0), (1,2), (2,2), (3,3), (4,4), (5,2), with
`x` between 0.1 and 4.9 and the output between `lo` and `hi` (1.2 and 2.5 as read, 1.1
and 2.6 after `SetCurveOutputMinMaxValues`). -/
def testTableOverwrite (lo hi : ℚ) : PerfCurve :=
  { evaluate := fun x => 20 / 21 + 17 / 35 * x
    Var1Min := 1 / 10, Var1Max := 49 / 10
    CurveMin := some lo, CurveMax := some hi }

/-- The table `TestTableMinMax` of the test
`Tables_OneIndependentVariable_Linear_EvaluateCurveTypes` (test lines 746-760): linear
interpolation between the points (0,0) and (4,4), no bounds entered, so that the bounds
of `x` are those of the table and the output has none. -/
def testTableMinMax : PerfCurve :=
  { evaluate := fun x => x
    Var1Min := 0, Var1Max := 4
    CurveMin := none, CurveMax := none }

end CurveManager

namespace ChillerGasAbsorption

/-! ## Outcome of a chiller call -/

theorem calc_idle {p : Plant} {s : ModuleState} {MyLoad : Real64}
    (h : chillerIdle s MyLoad) :
    CalcGasAbsorberChillerModel p s MyLoad = Except.ok (chillerOff p s MyLoad) := by
  simp [CalcGasAbsorberChillerModel, h]

theorem calc_run {p : Plant} {s : ModuleState} {MyLoad : Real64}
    (h : ¬ chillerIdle s MyLoad) (hf : ¬ condFlowFails p s) :
    CalcGasAbsorberChillerModel p s MyLoad = Except.ok (chillerRun p s MyLoad) := by
  simp [CalcGasAbsorberChillerModel, h, hf]

theorem calc_fatal {p : Plant} {s : ModuleState} {MyLoad : Real64}
    (h : ¬ chillerIdle s MyLoad) (hf : condFlowFails p s) :
    CalcGasAbsorberChillerModel p s MyLoad = Except.error Fatal.ShowFatalError := by
  simp [CalcGasAbsorberChillerModel, h, hf]

theorem calc_ok_run {p : Plant} {s : ModuleState} {MyLoad : Real64} {r : ChillerResult}
    (h : ¬ chillerIdle s MyLoad) (hr : CalcGasAbsorberChillerModel p s MyLoad = Except.ok r) :
    r = chillerRun p s MyLoad ∧ ¬ condFlowFails p s := by
  by_cases hf : condFlowFails p s
  · rw [calc_fatal h hf] at hr
    cases hr
  · rw [calc_run h hf] at hr
    cases hr
    exact ⟨rfl, hf⟩

theorem condSide_flow_waterCooled {p : Plant} {s : ModuleState}
    (hw : s.GasAbsorber.isWaterCooled = true) :
    (condSide p s).lCondWaterMassFlowRate =
      p.SetComponentFlowRate s.GasAbsorber.CDLoopNum s.GasAbsorber.DesCondMassFlowRate := by
  simp [condSide, hw]

theorem condSide_return_waterCooled {p : Plant} {s : ModuleState}
    (hw : s.GasAbsorber.isWaterCooled = true) :
    (condSide p s).lCondReturnTemp = s.Node.CondReturn.Temp := by
  simp [condSide, hw]

theorem condSide_chillReturn (p : Plant) (s : ModuleState) :
    (condSide p s).Node.ChillReturn = s.Node.ChillReturn := by
  cases hw : s.GasAbsorber.isWaterCooled <;> simp [condSide, hw]

theorem condSide_chillSupply (p : Plant) (s : ModuleState) :
    (condSide p s).Node.ChillSupply = s.Node.ChillSupply := by
  cases hw : s.GasAbsorber.isWaterCooled <;> simp [condSide, hw]

theorem state0_not_idle : ¬ chillerIdle state0 (-40000) := by
  simp [chillerIdle, state0, spec0]

theorem state0_condFlow (lock : Int) : ¬ condFlowFails (plantWith lock) state0 := by
  simp [condFlowFails, condSide, state0, spec0, plantWith]
  norm_num

/-! ## C2: the idle call -/

/-- C2. When the requested load is not negative, or neither mode is active, the chiller
call returns; it reports the chilled water supply temperature equal to the return
temperature (the return node temperature), the condenser supply temperature equal to the
condenser return temperature, makes no flow request other than a condenser request of 0
(made when the unit is water cooled), reports cooling load, cooling fuel use rate and
cooling electric power 0 and leaves the load unchanged; after the following
`UpdateGasAbsorberCoolRecords` the supply node temperature equals the return node
temperature. -/
theorem idle_call_reports_inlet_conditions (p : Plant) (s : ModuleState) (MyLoad : Real64)
    (RunFlag : Bool) (h : chillerIdle s MyLoad) :
    ∃ r, CalcGasAbsorberChillerModel p s MyLoad = Except.ok r ∧
      r.state.GasAbsorberReport.ChillSupplyTemp = r.state.GasAbsorberReport.ChillReturnTemp ∧
      r.state.GasAbsorberReport.ChillReturnTemp = s.Node.ChillReturn.Temp ∧
      r.state.GasAbsorberReport.CondSupplyTemp = r.state.GasAbsorberReport.CondReturnTemp ∧
      (∀ e ∈ r.events, e = Event.SetComponentFlowRate s.GasAbsorber.CDLoopNum 0) ∧
      (s.GasAbsorber.isWaterCooled = true →
        r.events = [Event.SetComponentFlowRate s.GasAbsorber.CDLoopNum 0] ∧
        r.state.GasAbsorberReport.CondWaterFlowRate =
          p.SetComponentFlowRate s.GasAbsorber.CDLoopNum 0) ∧
      (s.GasAbsorber.isWaterCooled = false →
        r.state.GasAbsorberReport.CondWaterFlowRate = 0) ∧
      r.state.GasAbsorberReport.CoolingLoad = 0 ∧
      r.state.GasAbsorberReport.CoolFuelUseRate = 0 ∧
      r.state.GasAbsorberReport.CoolElectricPower = 0 ∧
      r.MyLoad = MyLoad ∧
      (UpdateGasAbsorberCoolRecords p r.state r.MyLoad RunFlag).Node.ChillSupply.Temp =
        (UpdateGasAbsorberCoolRecords p r.state r.MyLoad RunFlag).Node.ChillReturn.Temp := by
  refine ⟨chillerOff p s MyLoad, calc_idle h, ?_⟩
  cases hw : s.GasAbsorber.isWaterCooled <;>
    simp [chillerOff, writeCoolReport, UpdateGasAbsorberCoolRecords, hw]

/-- Witness for C2: the sample unit called with a zero load. -/
theorem idle_call_reports_inlet_conditions_witness :
    ∃ r, CalcGasAbsorberChillerModel (plantWith 0) state0 0 = Except.ok r ∧
      r.state.GasAbsorberReport.ChillSupplyTemp = 12 ∧
      r.state.GasAbsorberReport.CoolingLoad = 0 :=
  have h : chillerIdle state0 0 := Or.inl (le_refl 0)
  let ⟨r, h1, h2, h3, _, _, _, _, h8, _⟩ :=
    idle_call_reports_inlet_conditions (plantWith 0) state0 0 true h
  ⟨r, h1, by rw [h2, h3]; rfl, h8⟩

/-! ## C3: zero condenser flow is fatal -/

/-- C3. On a water cooled unit a call that is not idle ends in the fatal error exactly when
the condenser flow obtained from the flow request (for the design condenser flow) is not
greater than `MassFlowTolerance`; otherwise it returns, the reported condenser flow is the
flow obtained, and the reported condenser supply temperature is the condenser return
temperature plus tower load over (condenser flow times `Cp_CD`), the tower load being the
cooling load plus the cooling fuel use rate over `FuelHeatRatio` plus the cooling electric
power. -/
theorem condenser_flow_fatal_iff (p : Plant) (s : ModuleState) (MyLoad : Real64)
    (h : ¬ chillerIdle s MyLoad) (hw : s.GasAbsorber.isWaterCooled = true) :
    (CalcGasAbsorberChillerModel p s MyLoad = Except.error Fatal.ShowFatalError ↔
      ¬ (p.SetComponentFlowRate s.GasAbsorber.CDLoopNum s.GasAbsorber.DesCondMassFlowRate
          > p.MassFlowTolerance)) ∧
    (p.SetComponentFlowRate s.GasAbsorber.CDLoopNum s.GasAbsorber.DesCondMassFlowRate
        > p.MassFlowTolerance →
      ∃ r, CalcGasAbsorberChillerModel p s MyLoad = Except.ok r ∧
        r.state.GasAbsorberReport.CondWaterFlowRate =
          p.SetComponentFlowRate s.GasAbsorber.CDLoopNum s.GasAbsorber.DesCondMassFlowRate ∧
        r.state.GasAbsorberReport.CondReturnTemp = s.Node.CondReturn.Temp ∧
        r.state.GasAbsorberReport.TowerLoad =
          r.state.GasAbsorberReport.CoolingLoad +
            r.state.GasAbsorberReport.CoolFuelUseRate / s.GasAbsorber.FuelHeatRatio +
            r.state.GasAbsorberReport.CoolElectricPower ∧
        r.state.GasAbsorberReport.CondSupplyTemp =
          r.state.GasAbsorberReport.CondReturnTemp +
            r.state.GasAbsorberReport.TowerLoad /
              (r.state.GasAbsorberReport.CondWaterFlowRate * Cp_CD p s)) := by
  have hfl : condFlowFails p s ↔
      ¬ (p.SetComponentFlowRate s.GasAbsorber.CDLoopNum s.GasAbsorber.DesCondMassFlowRate
          > p.MassFlowTolerance) := by
    simp [condFlowFails, condSide_flow_waterCooled hw, hw]
  constructor
  · constructor
    · intro he
      by_contra hc
      rw [calc_run h (fun hf => (hfl.mp hf) hc)] at he
      cases he
    · intro hc
      exact calc_fatal h (hfl.mpr hc)
  · intro hc
    refine ⟨chillerRun p s MyLoad, calc_run h (fun hf => (hfl.mp hf) hc), ?_⟩
    simp [chillerRun, chillerCore, writeCoolReport, condSide_flow_waterCooled hw,
      condSide_return_waterCooled hw, hw]

/-- Witness for C3: the sample unit with the design condenser flow granted. -/
theorem condenser_flow_fatal_iff_witness :
    (CalcGasAbsorberChillerModel (plantWith 0) state0 (-40000)
        = Except.error Fatal.ShowFatalError ↔
      ¬ ((plantWith 0).SetComponentFlowRate state0.GasAbsorber.CDLoopNum
          state0.GasAbsorber.DesCondMassFlowRate > (plantWith 0).MassFlowTolerance)) :=
  (condenser_flow_fatal_iff (plantWith 0) state0 (-40000) state0_not_idle rfl).1

/-! ## The capacity clamp and the cooling part load ratio in exact arithmetic -/

theorem sign_of_neg (a : Real64) {b : Real64} (hb : b < 0) : sign a b = -|a| := by
  simp [sign, not_le.mpr hb]

theorem clampLoad_of_neg {MyLoad : Real64} (capacity lMin lMax : Real64) (hM : MyLoad < 0) :
    clampLoad MyLoad capacity lMin lMax
      = -|min (max |MyLoad| (capacity * lMin)) (capacity * lMax)| := by
  have h0 : 0 < max |MyLoad| (capacity * lMin) :=
    lt_of_lt_of_le (abs_pos.mpr (ne_of_lt hM)) (le_max_left _ _)
  have h1 : sign (max |MyLoad| (capacity * lMin)) MyLoad
      = -(max |MyLoad| (capacity * lMin)) := by
    rw [sign_of_neg _ hM, abs_of_pos h0]
  have h2 : -(max |MyLoad| (capacity * lMin)) < 0 := by linarith
  simp only [clampLoad]
  rw [h1, sign_of_neg _ h2, abs_neg, abs_of_pos h0]

theorem clampLoad_nonpos {MyLoad : Real64} (capacity lMin lMax : Real64) (hM : MyLoad < 0) :
    clampLoad MyLoad capacity lMin lMax ≤ 0 := by
  rw [clampLoad_of_neg _ _ _ hM]
  exact neg_nonpos.mpr (abs_nonneg _)

theorem clampLoad_in_range {MyLoad capacity lMin lMax : Real64} (hM : MyLoad < 0)
    (hc : 0 < capacity) (hmin : 0 < lMin) (hmax : lMin ≤ lMax) :
    clampLoad MyLoad capacity lMin lMax < 0 ∧
      lMin * capacity ≤ |clampLoad MyLoad capacity lMin lMax| ∧
      |clampLoad MyLoad capacity lMin lMax| ≤ lMax * capacity := by
  have h1 : 0 < capacity * lMin := mul_pos hc hmin
  have h2 : capacity * lMin ≤ capacity * lMax := mul_le_mul_of_nonneg_left hmax hc.le
  have h3 : capacity * lMin ≤ min (max |MyLoad| (capacity * lMin)) (capacity * lMax) :=
    le_min (le_max_right _ _) h2
  have h4 : min (max |MyLoad| (capacity * lMin)) (capacity * lMax) ≤ capacity * lMax :=
    min_le_right _ _
  have h5 : 0 < min (max |MyLoad| (capacity * lMin)) (capacity * lMax) :=
    lt_of_lt_of_le h1 h3
  rw [clampLoad_of_neg _ _ _ hM, abs_neg, abs_abs, abs_of_pos h5]
  refine ⟨by linarith, by linarith, by linarith⟩

theorem coolPartLoadRatio_in_range {MyLoad capacity lMin lMax : Real64}
    (hc : 0 < capacity) (hmax : lMin ≤ lMax) (hlo : lMin * capacity ≤ |MyLoad|) :
    lMin ≤ coolPartLoadRatio MyLoad capacity lMin lMax ∧
      coolPartLoadRatio MyLoad capacity lMin lMax ≤ lMax := by
  have h1 : ¬ (|MyLoad| / capacity < lMin) := by
    rw [not_lt, le_div_iff₀ hc]
    exact hlo
  simp only [coolPartLoadRatio, hc, h1, if_true, if_false, gt_iff_lt]
  exact ⟨le_max_left _ _, max_le hmax (min_le_right _ _)⟩

/-- Exact arithmetic. In a call that is not idle, with available cooling capacity greater
than 0 and `0 < MinPartLoadRat ≤ MaxPartLoadRat`, and with the condenser flow test passed,
the call returns; the load handed back keeps the (negative) sign of the requested load, its
magnitude lies between `MinPartLoadRat` and `MaxPartLoadRat` times the available capacity,
and the reported cooling part load ratio lies between `MinPartLoadRat` and
`MaxPartLoadRat`. -/
theorem exact_load_and_part_load_ratio_clamped (p : Plant) (s : ModuleState) (MyLoad : Real64)
    (h : ¬ chillerIdle s MyLoad) (hf : ¬ condFlowFails p s)
    (hcap : 0 < availableCoolingCapacity p s)
    (hmin : 0 < s.GasAbsorber.MinPartLoadRat)
    (hmax : s.GasAbsorber.MinPartLoadRat ≤ s.GasAbsorber.MaxPartLoadRat) :
    ∃ r, CalcGasAbsorberChillerModel p s MyLoad = Except.ok r ∧
      r.state.GasAbsorberReport.CoolingCapacity = availableCoolingCapacity p s ∧
      MyLoad < 0 ∧ r.MyLoad < 0 ∧
      s.GasAbsorber.MinPartLoadRat * availableCoolingCapacity p s ≤ |r.MyLoad| ∧
      |r.MyLoad| ≤ s.GasAbsorber.MaxPartLoadRat * availableCoolingCapacity p s ∧
      s.GasAbsorber.MinPartLoadRat ≤ r.state.GasAbsorberReport.CoolPartLoadRatio ∧
      r.state.GasAbsorberReport.CoolPartLoadRatio ≤ s.GasAbsorber.MaxPartLoadRat := by
  have hM : MyLoad < 0 := by
    by_contra hc
    exact h (Or.inl (not_lt.mp hc))
  obtain ⟨c1, c2, c3⟩ := clampLoad_in_range hM hcap hmin hmax
  obtain ⟨d1, d2⟩ := coolPartLoadRatio_in_range hcap hmax c2
  refine ⟨chillerRun p s MyLoad, calc_run h hf, rfl, hM, c1, c2, c3, d1, d2⟩

/-- The sample unit asked for 40 kW of cooling, in exact arithmetic. -/
theorem exact_load_and_part_load_ratio_clamped_witness :
    ∃ r, CalcGasAbsorberChillerModel (plantWith 0) state0 (-40000) = Except.ok r ∧
      r.MyLoad < 0 ∧
      state0.GasAbsorber.MinPartLoadRat ≤ r.state.GasAbsorberReport.CoolPartLoadRatio ∧
      r.state.GasAbsorberReport.CoolPartLoadRatio ≤ state0.GasAbsorber.MaxPartLoadRat :=
  let ⟨r, h1, _, _, h4, _, _, h7, h8⟩ :=
    exact_load_and_part_load_ratio_clamped (plantWith 0) state0 (-40000) state0_not_idle
      (state0_condFlow 0)
      (by simp [availableCoolingCapacity, plantWith, state0, spec0])
      (by simp [state0, spec0]) (by simp [state0, spec0]; norm_num)
  ⟨r, h1, h4, h7, h8⟩

/-! ## C4: the flow-free branch -/

theorem calc_fatal_iff {p : Plant} {s : ModuleState} {MyLoad : Real64}
    (h : ¬ chillerIdle s MyLoad) :
    CalcGasAbsorberChillerModel p s MyLoad = Except.error Fatal.ShowFatalError ↔
      condFlowFails p s := by
  constructor
  · intro he
    by_contra hf
    rw [calc_run h hf] at he
    cases he
  · exact calc_fatal h

/-- C4. In a call that is not idle with flow lock 0: the call ends in the fatal error only
when the condenser flow test of line 1756 fails (a test that does not look at the chilled
water delta-T), and otherwise returns with the load handed back equal to the
capacity-clamped requested load, the reported cooling load equal to its magnitude, and the
reported supply temperature equal to the set point.  With `deltaT = |inlet - setpoint|`
not zero, the flow requested from the plant is `|load / (Cp * deltaT)|`, which is
`|load| / (Cp * deltaT)` for a positive specific heat, the reported flow is what the plant
grants, and the possible-subcooling flag is set exactly when the requested flow exceeds
the design maximum flow by more than `MassFlowTolerance`.  With `deltaT = 0` the reported
flow is 0, the flag is cleared and the recurring warning with `DeltaTempCoolErrCount` is
issued. -/
theorem flow_free_resolution (p : Plant) (s : ModuleState) (MyLoad : Real64)
    (h : ¬ chillerIdle s MyLoad) (hl : p.FlowLock s.GasAbsorber.CWLoopNum = 0) :
    (CalcGasAbsorberChillerModel p s MyLoad = Except.error Fatal.ShowFatalError ↔
      condFlowFails p s) ∧
    (¬ condFlowFails p s →
      ∃ r, CalcGasAbsorberChillerModel p s MyLoad = Except.ok r ∧
        r.MyLoad = clampLoad MyLoad (availableCoolingCapacity p s)
          s.GasAbsorber.MinPartLoadRat s.GasAbsorber.MaxPartLoadRat ∧
        r.state.GasAbsorberReport.CoolingLoad = |r.MyLoad| ∧
        r.state.GasAbsorberReport.ChillSupplyTemp = chillSupplySetPointTemp p s ∧
        r.ChillDeltaTemp = |s.Node.ChillReturn.Temp - chillSupplySetPointTemp p s| ∧
        (r.ChillDeltaTemp ≠ 0 →
          Event.SetComponentFlowRate s.GasAbsorber.CWLoopNum
              |r.state.GasAbsorberReport.CoolingLoad / (Cp_CW p s * r.ChillDeltaTemp)|
            ∈ r.events ∧
          (0 < Cp_CW p s →
            |r.state.GasAbsorberReport.CoolingLoad / (Cp_CW p s * r.ChillDeltaTemp)| =
              |r.MyLoad| / (Cp_CW p s * r.ChillDeltaTemp)) ∧
          r.state.GasAbsorberReport.ChillWaterFlowRate =
            p.SetComponentFlowRate s.GasAbsorber.CWLoopNum
              |r.state.GasAbsorberReport.CoolingLoad / (Cp_CW p s * r.ChillDeltaTemp)| ∧
          (r.state.GasAbsorber.PossibleSubcooling = true ↔
            |r.state.GasAbsorberReport.CoolingLoad / (Cp_CW p s * r.ChillDeltaTemp)|
              - s.GasAbsorber.DesEvapMassFlowRate > p.MassFlowTolerance)) ∧
        (r.ChillDeltaTemp = 0 →
          r.state.GasAbsorberReport.ChillWaterFlowRate = 0 ∧
          r.state.GasAbsorber.PossibleSubcooling = false ∧
          Event.ShowRecurringWarningErrorAtEnd ErrCount.DeltaTempCoolErrCount
            ∈ r.events)) := by
  refine ⟨calc_fatal_iff h, fun hf => ⟨chillerRun p s MyLoad, calc_run h hf, rfl, ?_⟩⟩
  by_cases hd : |s.Node.ChillReturn.Temp - chillSupplySetPointTemp p s| = 0
  · simp [chillerRun, chillerCore, chillSide, chillFlowFree, writeCoolReport, hl, hd]
  · have hpos : 0 < |s.Node.ChillReturn.Temp - chillSupplySetPointTemp p s| :=
      lt_of_le_of_ne (abs_nonneg _) (Ne.symm hd)
    simp only [chillerRun, chillerCore, chillSide, chillFlowFree, writeCoolReport, hl, hd, if_true,
      if_false, ne_eq, not_false_eq_true, not_true_eq_false, true_and, false_implies,
      and_true, forall_true_left, decide_eq_true_eq, List.mem_append, List.mem_singleton,
      or_true, true_or, abs_abs, gt_iff_lt, and_self, implies_true]
    intro hcp
    rw [abs_div, abs_abs, abs_of_pos (mul_pos hcp hpos)]

/-- Witness for C4: the sample unit with flow lock 0 supplies at the 7 C set point. -/
theorem flow_free_resolution_witness :
    ∃ r, CalcGasAbsorberChillerModel (plantWith 0) state0 (-40000) = Except.ok r ∧
      r.state.GasAbsorberReport.ChillSupplyTemp = 7 :=
  let ⟨r, h1, _, _, h4, _⟩ :=
    (flow_free_resolution (plantWith 0) state0 (-40000) state0_not_idle rfl).2
      (state0_condFlow 0)
  ⟨r, h1, by rw [h4]; rfl⟩

/-! ## The flow-locked branch -/

theorem chillFlowLocked_condSide (p : Plant) (s : ModuleState) (MyLoad Cp setPoint : Real64) :
    chillFlowLocked p s.GasAbsorber (condSide p s).Node MyLoad Cp setPoint
      = chillFlowLocked p s.GasAbsorber s.Node MyLoad Cp setPoint := by
  simp [chillFlowLocked, lockedLimited, condSide_chillReturn, condSide_chillSupply]

/-- Values of the flow-locked branch as they reach the report record. -/
theorem chillerRun_locked (p : Plant) (s : ModuleState) (MyLoad : Real64)
    (hl : p.FlowLock s.GasAbsorber.CWLoopNum = 1) :
    (chillerRun p s MyLoad).MyLoad = clampLoad MyLoad (availableCoolingCapacity p s)
        s.GasAbsorber.MinPartLoadRat s.GasAbsorber.MaxPartLoadRat ∧
      (chillerRun p s MyLoad).state.GasAbsorberReport.ChillReturnTemp
        = s.Node.ChillReturn.Temp ∧
      (chillerRun p s MyLoad).state.GasAbsorberReport.ChillWaterFlowRate
        = s.Node.ChillReturn.MassFlowRate ∧
      (chillerRun p s MyLoad).state.GasAbsorberReport.CoolingLoad
        = (lockedLoadLimit p (chillerRun p s MyLoad).MyLoad (Cp_CW p s)
            s.Node.ChillReturn.MassFlowRate s.Node.ChillReturn.Temp
            (lockedLimited p s.GasAbsorber s.Node (chillerRun p s MyLoad).MyLoad (Cp_CW p s)
              (chillSupplySetPointTemp p s))).lCoolingLoad ∧
      (chillerRun p s MyLoad).state.GasAbsorberReport.ChillSupplyTemp
        = (lockedLoadLimit p (chillerRun p s MyLoad).MyLoad (Cp_CW p s)
            s.Node.ChillReturn.MassFlowRate s.Node.ChillReturn.Temp
            (lockedLimited p s.GasAbsorber s.Node (chillerRun p s MyLoad).MyLoad (Cp_CW p s)
              (chillSupplySetPointTemp p s))).lChillSupplyTemp ∧
      (chillerRun p s MyLoad).ChillDeltaTemp
        = (lockedLoadLimit p (chillerRun p s MyLoad).MyLoad (Cp_CW p s)
            s.Node.ChillReturn.MassFlowRate s.Node.ChillReturn.Temp
            (lockedLimited p s.GasAbsorber s.Node (chillerRun p s MyLoad).MyLoad (Cp_CW p s)
              (chillSupplySetPointTemp p s))).ChillDeltaTemp := by
  simp [chillerRun, chillerCore, chillSide, hl, chillFlowLocked_condSide, writeCoolReport,
    availableCoolingCapacity]
  simp [chillFlowLocked]

theorem lockedLoadLimit_le (p : Plant) (MyLoad Cp flow ret : Real64) (l : Locked) :
    (lockedLoadLimit p MyLoad Cp flow ret l).lCoolingLoad ≤ |MyLoad| := by
  unfold lockedLoadLimit
  split_ifs with h1 h2
  · exact le_refl _
  · simp
  · exact not_lt.mp h1

theorem lockedLoadLimit_fires (p : Plant) (MyLoad Cp flow ret : Real64) (l : Locked)
    (h : l.lCoolingLoad > |MyLoad|) :
    (flow > p.MassFlowTolerance →
      (lockedLoadLimit p MyLoad Cp flow ret l).lCoolingLoad = |MyLoad|) ∧
    (¬ flow > p.MassFlowTolerance →
      (lockedLoadLimit p MyLoad Cp flow ret l).lCoolingLoad = 0 ∧
      (lockedLoadLimit p MyLoad Cp flow ret l).lChillSupplyTemp = ret) := by
  constructor
  · intro h2
    simp [lockedLoadLimit, h, h2]
  · intro h2
    simp [lockedLoadLimit, h, h2]

/-! ## C6: the load limit of the flow-locked branch -/

/-- C6. In a flow-locked call (flow lock 1) that is not idle and passes the condenser flow
test, the call returns; the reported cooling load does not exceed the magnitude of the
capacity-clamped requested load; and when the load reaching the final check of line 1701
exceeds that magnitude, the reported load is exactly the magnitude if the chilled water
flow is above `MassFlowTolerance`, and otherwise the reported load is 0 and the reported
supply temperature equals the return temperature. -/
theorem locked_load_not_above_request (p : Plant) (s : ModuleState) (MyLoad : Real64)
    (h : ¬ chillerIdle s MyLoad) (hl : p.FlowLock s.GasAbsorber.CWLoopNum = 1)
    (hf : ¬ condFlowFails p s) :
    ∃ r, CalcGasAbsorberChillerModel p s MyLoad = Except.ok r ∧
      r.MyLoad = clampLoad MyLoad (availableCoolingCapacity p s)
        s.GasAbsorber.MinPartLoadRat s.GasAbsorber.MaxPartLoadRat ∧
      r.state.GasAbsorberReport.CoolingLoad ≤ |r.MyLoad| ∧
      ((lockedLimited p s.GasAbsorber s.Node r.MyLoad (Cp_CW p s)
          (chillSupplySetPointTemp p s)).lCoolingLoad > |r.MyLoad| →
        (s.Node.ChillReturn.MassFlowRate > p.MassFlowTolerance →
          r.state.GasAbsorberReport.CoolingLoad = |r.MyLoad|) ∧
        (¬ s.Node.ChillReturn.MassFlowRate > p.MassFlowTolerance →
          r.state.GasAbsorberReport.CoolingLoad = 0 ∧
          r.state.GasAbsorberReport.ChillSupplyTemp = s.Node.ChillReturn.Temp ∧
          r.state.GasAbsorberReport.ChillReturnTemp = s.Node.ChillReturn.Temp)) := by
  obtain ⟨e1, e2, _, e4, e5, _⟩ := chillerRun_locked p s MyLoad hl
  refine ⟨chillerRun p s MyLoad, calc_run h hf, e1, ?_, ?_⟩
  · rw [e4]
    exact lockedLoadLimit_le _ _ _ _ _ _
  · intro hgt
    obtain ⟨f1, f2⟩ := lockedLoadLimit_fires p (chillerRun p s MyLoad).MyLoad (Cp_CW p s)
      s.Node.ChillReturn.MassFlowRate s.Node.ChillReturn.Temp _ hgt
    refine ⟨fun hflow => ?_, fun hflow => ⟨?_, ?_, e2⟩⟩
    · rw [e4]
      exact f1 hflow
    · rw [e4]
      exact (f2 hflow).1
    · rw [e5]
      exact (f2 hflow).2

/-- Witness for C6: the sample unit with flow lock 1. -/
theorem locked_load_not_above_request_witness :
    ∃ r, CalcGasAbsorberChillerModel (plantWith 1) state0 (-40000) = Except.ok r ∧
      r.state.GasAbsorberReport.CoolingLoad ≤ |r.MyLoad| :=
  let ⟨r, h1, _, h3, _⟩ :=
    locked_load_not_above_request (plantWith 1) state0 (-40000) state0_not_idle rfl
      (state0_condFlow 1)
  ⟨r, h1, h3⟩

/-! ## C5: low temperature limits of the flow-locked branch -/

/-- C5, as stated, fails.  (1) With chilled water returning at 3 C, a set point of 2 C and a
low limit of 5 C, the return temperature is not above the limit, the check of line 1678
takes its second branch, and the reported supply temperature is the return temperature
3 C, below the limit.  (2) With chilled water returning at 6 C, below the set point of
8 C, the final load check of line 1701 replaces the supply temperature by
`6 - 10000 / 2 / 4000 = 4.75` C, below the low limit of 5 C. -/
theorem locked_outlet_below_low_limit :
    (∃ r, CalcGasAbsorberChillerModel (plantWith 1) stateColdReturn (-40000) = Except.ok r ∧
      r.state.GasAbsorberReport.ChillSupplyTemp = 3 ∧
      r.state.GasAbsorberReport.ChillSupplyTemp < stateColdReturn.GasAbsorber.CHWLowLimitTemp) ∧
    (∃ r, CalcGasAbsorberChillerModel (plantWith 1) stateWarmSetPoint (-10000) = Except.ok r ∧
      r.state.GasAbsorberReport.ChillSupplyTemp = 19 / 4 ∧
      r.state.GasAbsorberReport.ChillSupplyTemp
        < stateWarmSetPoint.GasAbsorber.CHWLowLimitTemp) := by
  constructor
  · refine ⟨chillerRun (plantWith 1) stateColdReturn (-40000), calc_run ?_ ?_, ?_⟩
    · simp [chillerIdle, stateColdReturn, state0, spec0]
    · norm_num [condFlowFails, condSide, stateColdReturn, state0, spec0, plantWith]
    · obtain ⟨_, _, _, _, e5, _⟩ :=
        chillerRun_locked (plantWith 1) stateColdReturn (-40000) rfl
      rw [e5]
      norm_num [chillerRun, chillerCore, lockedLimited, lockedStart, lockedLowLimit,
        lockedLoadLimit, clampLoad, sign, availableCoolingCapacity, condSide,
        chillSupplySetPointTemp, Cp_CW,
        plantWith, stateColdReturn, state0, spec0, nodes0, node0]
  · refine ⟨chillerRun (plantWith 1) stateWarmSetPoint (-10000), calc_run ?_ ?_, ?_⟩
    · simp [chillerIdle, stateWarmSetPoint, state0, spec0]
    · norm_num [condFlowFails, condSide, stateWarmSetPoint, state0, spec0, plantWith]
    · obtain ⟨_, _, _, _, e5, _⟩ :=
        chillerRun_locked (plantWith 1) stateWarmSetPoint (-10000) rfl
      rw [e5]
      norm_num [chillerRun, chillerCore, lockedLimited, lockedStart, lockedLowLimit,
        lockedLoadLimit, clampLoad, sign, availableCoolingCapacity, condSide,
        chillSupplySetPointTemp, Cp_CW,
        plantWith, stateWarmSetPoint, state0, spec0, nodes0, node0]

theorem lockedLowLimit_ge (p : Plant) (limit Cp flow ret : Real64) (l : Locked)
    (hr : ret - limit > p.DeltaTempTol) :
    limit ≤ (lockedLowLimit p limit Cp flow ret l).lChillSupplyTemp ∧
      l.lChillSupplyTemp ≤ (lockedLowLimit p limit Cp flow ret l).lChillSupplyTemp := by
  unfold lockedLowLimit
  split_ifs with h1
  · exact ⟨le_refl _, le_of_lt h1⟩
  · exact ⟨not_lt.mp h1, le_refl _⟩

theorem lockedLowLimit_balanced (p : Plant) (MyLoad limit Cp flow ret : Real64) (l : Locked)
    (hb : lockedBalanced MyLoad Cp flow ret l) :
    lockedBalanced MyLoad Cp flow ret (lockedLowLimit p limit Cp flow ret l) := by
  unfold lockedLowLimit
  split_ifs with h1 h2
  · exact Or.inr (fun _ => rfl)
  · exact Or.inr (fun _ => rfl)
  · exact hb

theorem lockedStart_balanced (sub : Bool) (MyLoad Cp flow ret setPoint : Real64)
    (hcp : 0 < Cp) (hset : sub = false → setPoint ≤ ret) :
    lockedBalanced MyLoad Cp flow ret (lockedStart sub MyLoad Cp flow ret setPoint) := by
  cases sub with
  | true => exact Or.inl (le_refl _)
  | false =>
    refine Or.inr (fun hflow => ?_)
    have h1 : 0 ≤ flow * Cp * (ret - setPoint) :=
      mul_nonneg (mul_nonneg hflow.le hcp.le) (sub_nonneg.mpr (hset rfl))
    simp [lockedStart, abs_of_nonneg h1]

theorem lockedLoadLimit_supply_ge (p : Plant) (MyLoad Cp flow ret : Real64) (l : Locked)
    (htol : 0 ≤ p.MassFlowTolerance) (hcp : 0 < Cp)
    (hb : lockedBalanced MyLoad Cp flow ret l) :
    l.lChillSupplyTemp ≤ (lockedLoadLimit p MyLoad Cp flow ret l).lChillSupplyTemp ∨
      (lockedLoadLimit p MyLoad Cp flow ret l).lChillSupplyTemp = ret := by
  unfold lockedLoadLimit
  split_ifs with h1 h2
  · left
    have hflow : 0 < flow := lt_of_le_of_lt htol h2
    rcases hb with hb | hb
    · exact absurd h1 (not_lt.mpr hb)
    · have h3 := hb hflow
      have h4 : |MyLoad| / flow / Cp < ret - l.lChillSupplyTemp := by
        rw [div_div, div_lt_iff₀ (mul_pos hflow hcp)]
        rw [h3] at h1
        linarith
      show l.lChillSupplyTemp ≤ ret - |MyLoad| / flow / Cp
      linarith
  · right
    rfl
  · left
    exact le_refl _

/-- C5, amended. In a flow-locked call (flow lock 1) that is not idle and passes the
condenser flow test, with a positive specific heat and non-negative tolerances: when the
return temperature exceeds the chiller low limit and the minimum temperature of the
supply node by more than `DeltaTempTol`, and the set point is not above the return
temperature unless the possible-subcooling flag is set, the call returns and the reported
supply temperature is below neither limit. -/
theorem locked_outlet_not_below_limits (p : Plant) (s : ModuleState) (MyLoad : Real64)
    (h : ¬ chillerIdle s MyLoad) (hl : p.FlowLock s.GasAbsorber.CWLoopNum = 1)
    (hf : ¬ condFlowFails p s)
    (htolT : 0 ≤ p.DeltaTempTol) (htolM : 0 ≤ p.MassFlowTolerance) (hcp : 0 < Cp_CW p s)
    (hlow : s.Node.ChillReturn.Temp - s.GasAbsorber.CHWLowLimitTemp > p.DeltaTempTol)
    (hmin : s.Node.ChillReturn.Temp - s.Node.ChillSupply.TempMin > p.DeltaTempTol)
    (hset : s.GasAbsorber.PossibleSubcooling = false →
      chillSupplySetPointTemp p s ≤ s.Node.ChillReturn.Temp) :
    ∃ r, CalcGasAbsorberChillerModel p s MyLoad = Except.ok r ∧
      s.GasAbsorber.CHWLowLimitTemp ≤ r.state.GasAbsorberReport.ChillSupplyTemp ∧
      s.Node.ChillSupply.TempMin ≤ r.state.GasAbsorberReport.ChillSupplyTemp := by
  obtain ⟨_, _, _, _, e5, _⟩ := chillerRun_locked p s MyLoad hl
  refine ⟨chillerRun p s MyLoad, calc_run h hf, ?_⟩
  rw [e5]
  generalize (chillerRun p s MyLoad).MyLoad = M
  have b0 := lockedStart_balanced s.GasAbsorber.PossibleSubcooling M (Cp_CW p s)
    s.Node.ChillReturn.MassFlowRate s.Node.ChillReturn.Temp (chillSupplySetPointTemp p s)
    hcp hset
  have g1 := lockedLowLimit_ge p s.GasAbsorber.CHWLowLimitTemp (Cp_CW p s)
    s.Node.ChillReturn.MassFlowRate s.Node.ChillReturn.Temp
    (lockedStart s.GasAbsorber.PossibleSubcooling M (Cp_CW p s)
      s.Node.ChillReturn.MassFlowRate s.Node.ChillReturn.Temp (chillSupplySetPointTemp p s))
    hlow
  have b1 := lockedLowLimit_balanced p M s.GasAbsorber.CHWLowLimitTemp (Cp_CW p s)
    s.Node.ChillReturn.MassFlowRate s.Node.ChillReturn.Temp _ b0
  have g2 := lockedLowLimit_ge p s.Node.ChillSupply.TempMin (Cp_CW p s)
    s.Node.ChillReturn.MassFlowRate s.Node.ChillReturn.Temp
    (lockedLowLimit p s.GasAbsorber.CHWLowLimitTemp (Cp_CW p s)
      s.Node.ChillReturn.MassFlowRate s.Node.ChillReturn.Temp
      (lockedStart s.GasAbsorber.PossibleSubcooling M (Cp_CW p s)
        s.Node.ChillReturn.MassFlowRate s.Node.ChillReturn.Temp
        (chillSupplySetPointTemp p s)))
    hmin
  have b2 := lockedLowLimit_balanced p M s.Node.ChillSupply.TempMin (Cp_CW p s)
    s.Node.ChillReturn.MassFlowRate s.Node.ChillReturn.Temp _ b1
  have g3 := lockedLoadLimit_supply_ge p M (Cp_CW p s) s.Node.ChillReturn.MassFlowRate
    s.Node.ChillReturn.Temp _ htolM hcp b2
  have hlim : s.GasAbsorber.CHWLowLimitTemp ≤
      (lockedLimited p s.GasAbsorber s.Node M (Cp_CW p s)
        (chillSupplySetPointTemp p s)).lChillSupplyTemp ∧
      s.Node.ChillSupply.TempMin ≤
      (lockedLimited p s.GasAbsorber s.Node M (Cp_CW p s)
        (chillSupplySetPointTemp p s)).lChillSupplyTemp :=
    ⟨le_trans g1.1 g2.2, g2.1⟩
  rcases g3 with g3 | g3
  · exact ⟨le_trans hlim.1 g3, le_trans hlim.2 g3⟩
  · rw [show (lockedLoadLimit p M (Cp_CW p s) s.Node.ChillReturn.MassFlowRate
        s.Node.ChillReturn.Temp (lockedLimited p s.GasAbsorber s.Node M (Cp_CW p s)
          (chillSupplySetPointTemp p s))).lChillSupplyTemp = s.Node.ChillReturn.Temp from g3]
    constructor <;> linarith

/-- Witness for C5, amended: the sample unit with flow lock 1 (return 12 C, set point
7 C, low limit 2 C, node minimum 1 C). -/
theorem locked_outlet_not_below_limits_witness :
    ∃ r, CalcGasAbsorberChillerModel (plantWith 1) state0 (-40000) = Except.ok r ∧
      state0.GasAbsorber.CHWLowLimitTemp ≤ r.state.GasAbsorberReport.ChillSupplyTemp ∧
      state0.Node.ChillSupply.TempMin ≤ r.state.GasAbsorberReport.ChillSupplyTemp :=
  locked_outlet_not_below_limits (plantWith 1) state0 (-40000) state0_not_idle rfl
    (state0_condFlow 1) (by norm_num [plantWith]) (by norm_num [plantWith])
    (by norm_num [Cp_CW, plantWith])
    (by norm_num [plantWith, state0, spec0, nodes0, node0])
    (by norm_num [plantWith, state0, spec0, nodes0, node0])
    (by norm_num [chillSupplySetPointTemp, plantWith, state0, spec0, nodes0, node0])

/-! ## C1: load, flow and delta-T on exit -/

theorem lockedStart_exact (sub : Bool) (MyLoad Cp flow ret setPoint : Real64)
    (hcp : 0 < Cp) (hflow : 0 < flow) (hset : sub = false → setPoint ≤ ret) :
    lockedExact Cp flow ret (lockedStart sub MyLoad Cp flow ret setPoint) := by
  cases sub with
  | true =>
    refine ⟨?_, ?_⟩
    · show |MyLoad| = flow * Cp * (|MyLoad| / flow / Cp)
      field_simp
    · show |MyLoad| / flow / Cp = ret - (ret - |MyLoad| / flow / Cp)
      ring
  | false =>
    have h1 : 0 ≤ flow * Cp * (ret - setPoint) :=
      mul_nonneg (mul_nonneg hflow.le hcp.le) (sub_nonneg.mpr (hset rfl))
    exact ⟨abs_of_nonneg h1, rfl⟩

theorem lockedLowLimit_exact (p : Plant) (limit Cp flow ret : Real64) (l : Locked)
    (he : lockedExact Cp flow ret l) :
    lockedExact Cp flow ret (lockedLowLimit p limit Cp flow ret l) := by
  unfold lockedLowLimit
  split_ifs with h1 h2
  · exact ⟨rfl, rfl⟩
  · exact ⟨rfl, rfl⟩
  · exact he

theorem lockedLoadLimit_exact (p : Plant) (MyLoad Cp flow ret : Real64) (l : Locked)
    (hcp : 0 < Cp) (hflow : 0 < flow) (he : lockedExact Cp flow ret l) :
    lockedExact Cp flow ret (lockedLoadLimit p MyLoad Cp flow ret l) := by
  unfold lockedLoadLimit
  split_ifs with h1 h2
  · refine ⟨?_, ?_⟩
    · show |MyLoad| = flow * Cp * (|MyLoad| / flow / Cp)
      field_simp
    · show |MyLoad| / flow / Cp = ret - (ret - |MyLoad| / flow / Cp)
      ring
  · exact ⟨rfl, rfl⟩
  · exact he

/-- The flow-locked branch leaves load, flow and delta-T in balance when the specific heat
and the locked flow are positive and the set point is not above the return temperature
unless the possible-subcooling flag is set. -/
theorem chillerRun_locked_exact (p : Plant) (s : ModuleState) (MyLoad : Real64)
    (hl : p.FlowLock s.GasAbsorber.CWLoopNum = 1) (hcp : 0 < Cp_CW p s)
    (hflow : 0 < s.Node.ChillReturn.MassFlowRate)
    (hset : s.GasAbsorber.PossibleSubcooling = false →
      chillSupplySetPointTemp p s ≤ s.Node.ChillReturn.Temp) :
    (chillerRun p s MyLoad).state.GasAbsorberReport.CoolingLoad =
        (chillerRun p s MyLoad).state.GasAbsorberReport.ChillWaterFlowRate * Cp_CW p s *
          (chillerRun p s MyLoad).ChillDeltaTemp ∧
      (chillerRun p s MyLoad).ChillDeltaTemp =
        (chillerRun p s MyLoad).state.GasAbsorberReport.ChillReturnTemp -
          (chillerRun p s MyLoad).state.GasAbsorberReport.ChillSupplyTemp := by
  obtain ⟨_, e2, e3, e4, e5, e6⟩ := chillerRun_locked p s MyLoad hl
  rw [e2, e3, e4, e5, e6]
  generalize (chillerRun p s MyLoad).MyLoad = M
  exact lockedLoadLimit_exact p M _ _ _ _ hcp hflow
    (lockedLowLimit_exact p _ _ _ _ _
      (lockedLowLimit_exact p _ _ _ _ _
        (lockedStart_exact _ M _ _ _ _ hcp hflow hset)))

/-- C1, as stated, fails.  (1) Flow lock 0 with the return temperature at the set point:
delta-T is 0, the flow is set to 0 and the load stays at the 40 kW requested.  (2) Flow
lock 0 with a flow setter granting 1 kg/s where 2 kg/s are requested: the load stays at
40 kW against `1 * 4000 * 5`.  (3) Flow lock 1 with the return temperature 6 C below the
set point 8 C: the load is `|2 * 4000 * (6 - 8)| = 16000` while delta-T is `-2`. -/
theorem load_differs_from_flow_cp_deltaT :
    (∃ r, CalcGasAbsorberChillerModel (plantWith 0) stateAtSetPoint (-40000) = Except.ok r ∧
      r.state.GasAbsorberReport.CoolingLoad = 40000 ∧
      r.state.GasAbsorberReport.ChillWaterFlowRate = 0 ∧ r.ChillDeltaTemp = 0 ∧
      r.state.GasAbsorberReport.CoolingLoad ≠
        r.state.GasAbsorberReport.ChillWaterFlowRate * Cp_CW (plantWith 0) stateAtSetPoint *
          r.ChillDeltaTemp) ∧
    (∃ r, CalcGasAbsorberChillerModel plantLimitedFlow state0 (-40000) = Except.ok r ∧
      r.state.GasAbsorberReport.CoolingLoad = 40000 ∧
      r.state.GasAbsorberReport.ChillWaterFlowRate = 1 ∧ r.ChillDeltaTemp = 5 ∧
      r.state.GasAbsorberReport.CoolingLoad ≠
        r.state.GasAbsorberReport.ChillWaterFlowRate * Cp_CW plantLimitedFlow state0 *
          r.ChillDeltaTemp) ∧
    (∃ r, CalcGasAbsorberChillerModel (plantWith 1) stateWarmSetPoint (-40000) = Except.ok r ∧
      r.state.GasAbsorberReport.CoolingLoad = 16000 ∧
      r.state.GasAbsorberReport.ChillWaterFlowRate = 2 ∧ r.ChillDeltaTemp = -2 ∧
      r.state.GasAbsorberReport.CoolingLoad ≠
        r.state.GasAbsorberReport.ChillWaterFlowRate * Cp_CW (plantWith 1) stateWarmSetPoint *
          r.ChillDeltaTemp) := by
  refine ⟨?_, ?_, ?_⟩
  · refine ⟨chillerRun (plantWith 0) stateAtSetPoint (-40000), calc_run ?_ ?_, ?_⟩
    · simp [chillerIdle, stateAtSetPoint, state0, spec0]
    · norm_num [condFlowFails, condSide, stateAtSetPoint, state0, spec0, plantWith]
    · norm_num [chillerRun, chillerCore, chillSide, chillFlowFree, writeCoolReport,
        clampLoad, sign, availableCoolingCapacity, condSide, chillSupplySetPointTemp, Cp_CW,
        plantWith, stateAtSetPoint, state0, spec0, nodes0, node0]
  · refine ⟨chillerRun plantLimitedFlow state0 (-40000), calc_run ?_ ?_, ?_⟩
    · simp [chillerIdle, state0, spec0]
    · norm_num [condFlowFails, condSide, state0, spec0, plantWith, plantLimitedFlow]
    · norm_num [chillerRun, chillerCore, chillSide, chillFlowFree, writeCoolReport,
        clampLoad, sign, availableCoolingCapacity, condSide, chillSupplySetPointTemp, Cp_CW,
        plantWith, plantLimitedFlow, state0, spec0, nodes0, node0]
  · refine ⟨chillerRun (plantWith 1) stateWarmSetPoint (-40000), calc_run ?_ ?_, ?_⟩
    · simp [chillerIdle, stateWarmSetPoint, state0, spec0]
    · norm_num [condFlowFails, condSide, stateWarmSetPoint, state0, spec0, plantWith]
    · obtain ⟨_, _, e3, e4, _, e6⟩ :=
        chillerRun_locked (plantWith 1) stateWarmSetPoint (-40000) rfl
      rw [e3, e4, e6]
      norm_num [chillerRun, chillerCore, lockedLimited, lockedStart, lockedLowLimit,
        lockedLoadLimit, clampLoad, sign, availableCoolingCapacity, condSide,
        chillSupplySetPointTemp, Cp_CW,
        plantWith, stateWarmSetPoint, state0, spec0, nodes0, node0]

/-- C1, amended. In a call that is not idle and passes the condenser flow test, with a
positive chilled water specific heat, the reported cooling load equals reported flow times
`Cp` times delta-T on exit in these cases: flow lock 1 with a positive locked flow and the
set point not above the return temperature unless the possible-subcooling flag is set; and
flow lock 0 with `|inlet - setpoint|` not zero when the plant grants the flow requested.
(With flow lock 0 and delta-T zero the flow is set to 0 and the load is kept.) -/
theorem load_equals_flow_cp_deltaT (p : Plant) (s : ModuleState) (MyLoad : Real64)
    (h : ¬ chillerIdle s MyLoad) (hf : ¬ condFlowFails p s) (hcp : 0 < Cp_CW p s)
    (hcase :
      (p.FlowLock s.GasAbsorber.CWLoopNum = 1 ∧ 0 < s.Node.ChillReturn.MassFlowRate ∧
        (s.GasAbsorber.PossibleSubcooling = false →
          chillSupplySetPointTemp p s ≤ s.Node.ChillReturn.Temp)) ∨
      (p.FlowLock s.GasAbsorber.CWLoopNum = 0 ∧
        |s.Node.ChillReturn.Temp - chillSupplySetPointTemp p s| ≠ 0 ∧
        p.SetComponentFlowRate s.GasAbsorber.CWLoopNum
            (abs (|clampLoad MyLoad (availableCoolingCapacity p s) s.GasAbsorber.MinPartLoadRat
                s.GasAbsorber.MaxPartLoadRat| /
              (Cp_CW p s * |s.Node.ChillReturn.Temp - chillSupplySetPointTemp p s|)))
          = abs (|clampLoad MyLoad (availableCoolingCapacity p s) s.GasAbsorber.MinPartLoadRat
                s.GasAbsorber.MaxPartLoadRat| /
              (Cp_CW p s * |s.Node.ChillReturn.Temp - chillSupplySetPointTemp p s|)))) :
    ∃ r, CalcGasAbsorberChillerModel p s MyLoad = Except.ok r ∧
      r.state.GasAbsorberReport.CoolingLoad =
        r.state.GasAbsorberReport.ChillWaterFlowRate * Cp_CW p s * r.ChillDeltaTemp := by
  refine ⟨chillerRun p s MyLoad, calc_run h hf, ?_⟩
  rcases hcase with ⟨hl, hflow, hset⟩ | ⟨hl, hd, hgrant⟩
  · exact (chillerRun_locked_exact p s MyLoad hl hcp hflow hset).1
  · have hpos : 0 < |s.Node.ChillReturn.Temp - chillSupplySetPointTemp p s| :=
      lt_of_le_of_ne (abs_nonneg _) (Ne.symm hd)
    have hden : 0 < Cp_CW p s * |s.Node.ChillReturn.Temp - chillSupplySetPointTemp p s| :=
      mul_pos hcp hpos
    simp only [chillerRun, chillerCore, chillSide, chillFlowFree, writeCoolReport, hl, hd,
      if_true, if_false, ne_eq, not_false_eq_true]
    rw [show s.GasAbsorber.NomCoolingCap *
        p.CurveValue s.GasAbsorber.CoolCapFTCurve (chillSupplySetPointTemp p s)
          (some (condSide p s).calcCondTemp) = availableCoolingCapacity p s from rfl]
    rw [hgrant, abs_of_nonneg (div_nonneg (abs_nonneg _) hden.le)]
    field_simp
    ring

/-- Witness for C1, amended: the sample unit with flow lock 1 and 2 kg/s locked flow. -/
theorem load_equals_flow_cp_deltaT_witness :
    ∃ r, CalcGasAbsorberChillerModel (plantWith 1) state0 (-40000) = Except.ok r ∧
      r.state.GasAbsorberReport.CoolingLoad =
        r.state.GasAbsorberReport.ChillWaterFlowRate * Cp_CW (plantWith 1) state0 *
          r.ChillDeltaTemp :=
  load_equals_flow_cp_deltaT (plantWith 1) state0 (-40000) state0_not_idle
    (state0_condFlow 1) (by norm_num [Cp_CW, plantWith])
    (Or.inl ⟨rfl, by norm_num [state0, nodes0, node0],
      by norm_num [chillSupplySetPointTemp, plantWith, state0, spec0, nodes0, node0]⟩)

/-! ## C8: fraction of the period running -/

theorem chillerRun_stored (p : Plant) (s : ModuleState) (MyLoad : Real64) :
    (chillerRun p s MyLoad).state.Calc_oldCondSupplyTemp =
      (chillerRun p s MyLoad).state.GasAbsorberReport.CondSupplyTemp :=
  rfl

theorem chillerRun_calcCondTemp (p : Plant) (s : ModuleState) (MyLoad : Real64) :
    (chillerRun p s MyLoad).calcCondTemp = some (condSide p s).calcCondTemp :=
  rfl

theorem condSide_node_waterCooled {p : Plant} {s : ModuleState}
    (hw : s.GasAbsorber.isWaterCooled = true) : (condSide p s).Node = s.Node := by
  simp [condSide, hw]

/-! ## C9: the condenser temperature used in the curves -/

/-- The condenser temperature passed to the curves (lines 1584-1622): the condenser return
temperature for a water cooled unit with the entering convention; for the leaving
convention the stored estimate, replaced by return + 8 when the stored value is 0; the
outdoor air dry bulb temperature for an air cooled unit. -/
theorem condSide_calcCondTemp (p : Plant) (s : ModuleState) :
    (s.GasAbsorber.isWaterCooled = true → s.GasAbsorber.isEnterCondensTemp = true →
      (condSide p s).calcCondTemp = s.Node.CondReturn.Temp) ∧
    (s.GasAbsorber.isWaterCooled = true → s.GasAbsorber.isEnterCondensTemp = false →
      (condSide p s).calcCondTemp =
        if s.Calc_oldCondSupplyTemp = 0 then s.Node.CondReturn.Temp + 8
        else s.Calc_oldCondSupplyTemp) ∧
    (s.GasAbsorber.isWaterCooled = false →
      (condSide p s).calcCondTemp = s.Node.CondReturn.OutAirDryBulb ∧
      (condSide p s).lCondReturnTemp = s.Node.CondReturn.OutAirDryBulb) := by
  refine ⟨fun hw he => ?_, fun hw he => ?_, fun hw => ?_⟩
  · simp [condSide, hw, he]
  · simp [condSide, hw, he]
  · simp [condSide, hw]

/-- C9, as stated, fails. A water cooled unit with the leaving convention is called
twice under the same node conditions.  The first call finds no estimate, uses return + 8
= 6 C in the curves and computes the condenser supply temperature 0 C, which it stores.
The second call finds the stored value 0, treats it as no estimate and uses return + 8
= 6 C again, not the 0 C computed by the preceding call. -/
theorem zero_estimate_is_taken_for_no_estimate :
    ∃ r1 r2,
      CalcGasAbsorberChillerModel (plantWith 0) stateLeaving (-40000) = Except.ok r1 ∧
      r1.calcCondTemp = some 6 ∧
      r1.state.GasAbsorberReport.CondSupplyTemp = 0 ∧
      r1.state.Calc_oldCondSupplyTemp = 0 ∧
      r1.state.Node = stateLeaving.Node ∧
      CalcGasAbsorberChillerModel (plantWith 0) r1.state (-40000) = Except.ok r2 ∧
      r2.calcCondTemp = some 6 ∧
      r2.calcCondTemp ≠ some r1.state.GasAbsorberReport.CondSupplyTemp := by
  have hidle : ¬ chillerIdle stateLeaving (-40000) := by
    simp [chillerIdle, stateLeaving, state0, spec0]
  have hflow : ¬ condFlowFails (plantWith 0) stateLeaving := by
    norm_num [condFlowFails, condSide, stateLeaving, state0, spec0, plantWith]
  have hsupply :
      (chillerRun (plantWith 0) stateLeaving (-40000)).state.Calc_oldCondSupplyTemp = 0 := by
    norm_num [chillerRun, chillerCore, chillSide, chillFlowFree, writeCoolReport, clampLoad, sign,
      coolPartLoadRatio, coolFractionOfPeriodRunning,
      availableCoolingCapacity, condSide, chillSupplySetPointTemp, Cp_CW, Cp_CD,
      plantWith, stateLeaving, state0, spec0, nodes0, node0]
  have hnode : (chillerRun (plantWith 0) stateLeaving (-40000)).state.Node
      = stateLeaving.Node := condSide_node_waterCooled rfl
  have hidle2 : ¬ chillerIdle (chillerRun (plantWith 0) stateLeaving (-40000)).state
      (-40000) := by
    intro hc
    rcases hc with hc | hc
    · norm_num at hc
    · exact hc (Or.inr rfl)
  have hflow2 : ¬ condFlowFails (plantWith 0)
      (chillerRun (plantWith 0) stateLeaving (-40000)).state := by
    intro hc
    have h2 := hc.2
    rw [condSide_flow_waterCooled rfl] at h2
    have h3 : (plantWith 0).SetComponentFlowRate
        (chillerRun (plantWith 0) stateLeaving (-40000)).state.GasAbsorber.CDLoopNum
        (chillerRun (plantWith 0) stateLeaving (-40000)).state.GasAbsorber.DesCondMassFlowRate
        = 5 := rfl
    rw [h3] at h2
    norm_num [plantWith] at h2
  have hcalc2 : (condSide (plantWith 0)
      (chillerRun (plantWith 0) stateLeaving (-40000)).state).calcCondTemp = 6 := by
    rw [(condSide_calcCondTemp (plantWith 0) _).2.1 rfl rfl, hsupply, hnode]
    norm_num [stateLeaving, nodes0, node0]
  refine ⟨chillerRun (plantWith 0) stateLeaving (-40000),
    chillerRun (plantWith 0) (chillerRun (plantWith 0) stateLeaving (-40000)).state (-40000),
    calc_run hidle hflow, ?_, hsupply, hsupply, hnode, calc_run hidle2 hflow2, ?_, ?_⟩
  · rw [chillerRun_calcCondTemp]
    norm_num [condSide, stateLeaving, state0, spec0, nodes0, node0]
  · rw [chillerRun_calcCondTemp, hcalc2]
  · rw [chillerRun_calcCondTemp, hcalc2, ← chillerRun_stored, hsupply]
    norm_num

/-- C9, amended. A call that is not idle and passes the condenser flow test returns, and
the condenser temperature it used in the curves is: the condenser return temperature for a
water cooled unit with the entering convention; for a water cooled unit with the leaving
convention the stored estimate, except that a stored value of exactly 0 (nothing stored
yet, or an estimate equal to 0) is replaced by return + 8; the outdoor air dry bulb
temperature for an air cooled unit, whose condenser return and supply temperatures are
both reported equal to it.  The estimate stored for the next call is the condenser supply
temperature computed by this call; an idle call leaves the stored estimate as it is. -/
theorem condenser_temperature_for_curves (p : Plant) (s : ModuleState) (MyLoad : Real64)
    (h : ¬ chillerIdle s MyLoad) (hf : ¬ condFlowFails p s) :
    ∃ r, CalcGasAbsorberChillerModel p s MyLoad = Except.ok r ∧
      (s.GasAbsorber.isWaterCooled = true → s.GasAbsorber.isEnterCondensTemp = true →
        r.calcCondTemp = some s.Node.CondReturn.Temp) ∧
      (s.GasAbsorber.isWaterCooled = true → s.GasAbsorber.isEnterCondensTemp = false →
        r.calcCondTemp = some
          (if s.Calc_oldCondSupplyTemp = 0 then s.Node.CondReturn.Temp + 8
           else s.Calc_oldCondSupplyTemp)) ∧
      (s.GasAbsorber.isWaterCooled = false →
        r.calcCondTemp = some s.Node.CondReturn.OutAirDryBulb ∧
        r.state.GasAbsorberReport.CondReturnTemp = s.Node.CondReturn.OutAirDryBulb ∧
        r.state.GasAbsorberReport.CondSupplyTemp = s.Node.CondReturn.OutAirDryBulb) ∧
      r.state.Calc_oldCondSupplyTemp = r.state.GasAbsorberReport.CondSupplyTemp ∧
      ∀ idleLoad, chillerIdle s idleLoad →
        ∃ r0, CalcGasAbsorberChillerModel p s idleLoad = Except.ok r0 ∧
          r0.state.Calc_oldCondSupplyTemp = s.Calc_oldCondSupplyTemp := by
  obtain ⟨c1, c2, c3⟩ := condSide_calcCondTemp p s
  refine ⟨chillerRun p s MyLoad, calc_run h hf, fun hw he => ?_, fun hw he => ?_,
    fun hw => ⟨?_, ?_, ?_⟩, rfl, fun idleLoad hi => ⟨_, calc_idle hi, rfl⟩⟩
  · rw [chillerRun_calcCondTemp, c1 hw he]
  · rw [chillerRun_calcCondTemp, c2 hw he]
  · rw [chillerRun_calcCondTemp, (c3 hw).1]
  · exact (c3 hw).2
  · simp [chillerRun, chillerCore, writeCoolReport, hw, (c3 hw).2]

/-- Witness for C9, amended: the sample leaving-convention unit at its first call. -/
theorem condenser_temperature_for_curves_witness :
    ∃ r, CalcGasAbsorberChillerModel (plantWith 0) stateLeaving (-40000) = Except.ok r ∧
      r.state.Calc_oldCondSupplyTemp = r.state.GasAbsorberReport.CondSupplyTemp :=
  let ⟨r, h1, _, _, _, h5, _⟩ :=
    condenser_temperature_for_curves (plantWith 0) stateLeaving (-40000)
      (by simp [chillerIdle, stateLeaving, state0, spec0])
      (by norm_num [condFlowFails, condSide, stateLeaving, state0, spec0, plantWith])
  ⟨r, h1, h5⟩

/-! ## C10: calling the chiller model twice -/

theorem clampLoad_idem {MyLoad : Real64} (capacity lMin lMax : Real64) (hM : MyLoad < 0)
    (hne : clampLoad MyLoad capacity lMin lMax ≠ 0) :
    clampLoad (clampLoad MyLoad capacity lMin lMax) capacity lMin lMax
      = clampLoad MyLoad capacity lMin lMax := by
  have hlt : clampLoad MyLoad capacity lMin lMax < 0 :=
    lt_of_le_of_ne (clampLoad_nonpos _ _ _ hM) hne
  rw [clampLoad_of_neg _ _ _ hlt]
  rw [clampLoad_of_neg _ _ _ hM] at hne ⊢
  rw [abs_neg, abs_abs]
  generalize capacity * lMin = c1 at *
  generalize capacity * lMax = c2 at *
  have hx : 0 < |MyLoad| := abs_pos.mpr (ne_of_lt hM)
  generalize |MyLoad| = x at *
  congr 1
  rcases le_total (max x c1) c2 with h1 | h1
  · rw [min_eq_left h1] at hne ⊢
    have h0 : 0 < max x c1 := lt_of_lt_of_le hx (le_max_left _ _)
    rw [abs_of_pos h0, max_eq_left (le_max_right _ _), min_eq_left h1, abs_of_pos h0]
  · rw [min_eq_right h1] at hne ⊢
    have h2 : max |c2| c1 ≥ c2 := le_trans (le_abs_self _) (le_max_left _ _)
    rw [min_eq_right h2]

theorem chillSide_flag (p : Plant) (g : GasAbsorberSpecs) (n : Nodes)
    (MyLoad Cp deltaT setPoint MyLoad1 Cp1 deltaT1 setPoint1 : Real64) :
    chillSide p
        { g with PossibleSubcooling :=
            (chillSide p g n MyLoad Cp deltaT setPoint).PossibleSubcooling }
        n MyLoad1 Cp1 deltaT1 setPoint1
      = chillSide p g n MyLoad1 Cp1 deltaT1 setPoint1 := by
  unfold chillSide
  by_cases h0 : p.FlowLock g.CWLoopNum = 0
  · simp only [h0, if_true]
    rfl
  · by_cases h1 : p.FlowLock g.CWLoopNum = 1
    · simp only [h0, h1, if_true, if_false]
      rfl
    · simp only [h0, h1, if_false]

theorem writeCoolReport_twice (r : ReportVars) (a1 a2 a3 a4 a5 a6 a7 a8 a9 a10 a11 a12 a13
    a14 a15 b1 b2 b3 b4 b5 b6 b7 b8 b9 b10 b11 b12 b13 b14 b15 : Real64) :
    writeCoolReport (writeCoolReport r a1 a2 a3 a4 a5 a6 a7 a8 a9 a10 a11 a12 a13 a14 a15)
        b1 b2 b3 b4 b5 b6 b7 b8 b9 b10 b11 b12 b13 b14 b15
      = writeCoolReport r b1 b2 b3 b4 b5 b6 b7 b8 b9 b10 b11 b12 b13 b14 b15 :=
  rfl

/-- Running the operating path again on the unit data and report record it has left, with
the same entering conditions and a load that clamps to the same value, gives the same
load and the same report record. -/
theorem chillerCore_repeat (p : Plant) (g : GasAbsorberSpecs) (rep : ReportVars)
    (ret setPoint Cp1 Cp2 : Real64) (c : CondSide) (MyLoad MyLoad1 : Real64)
    (hM : clampLoad MyLoad1
        (g.NomCoolingCap * p.CurveValue g.CoolCapFTCurve setPoint (some c.calcCondTemp))
        g.MinPartLoadRat g.MaxPartLoadRat
      = clampLoad MyLoad
        (g.NomCoolingCap * p.CurveValue g.CoolCapFTCurve setPoint (some c.calcCondTemp))
        g.MinPartLoadRat g.MaxPartLoadRat) :
    (chillerCore p (chillerCore p g rep ret setPoint Cp1 Cp2 c MyLoad).state.GasAbsorber
        (chillerCore p g rep ret setPoint Cp1 Cp2 c MyLoad).state.GasAbsorberReport
        ret setPoint Cp1 Cp2 c MyLoad1).MyLoad
      = (chillerCore p g rep ret setPoint Cp1 Cp2 c MyLoad).MyLoad ∧
    (chillerCore p (chillerCore p g rep ret setPoint Cp1 Cp2 c MyLoad).state.GasAbsorber
        (chillerCore p g rep ret setPoint Cp1 Cp2 c MyLoad).state.GasAbsorberReport
        ret setPoint Cp1 Cp2 c MyLoad1).state.GasAbsorberReport
      = (chillerCore p g rep ret setPoint Cp1 Cp2 c MyLoad).state.GasAbsorberReport := by
  simp only [chillerCore, hM, chillSide_flag, writeCoolReport_twice]
  simp [writeCoolReport]

theorem condSide_congr (p : Plant) (s1 s2 : ModuleState)
    (h1 : s1.GasAbsorber.isWaterCooled = s2.GasAbsorber.isWaterCooled)
    (h2 : s1.GasAbsorber.isEnterCondensTemp = s2.GasAbsorber.isEnterCondensTemp)
    (h3 : s1.GasAbsorber.CDLoopNum = s2.GasAbsorber.CDLoopNum)
    (h4 : s1.GasAbsorber.DesCondMassFlowRate = s2.GasAbsorber.DesCondMassFlowRate)
    (h5 : s1.Node = s2.Node)
    (h6 : s1.Calc_oldCondSupplyTemp = s2.Calc_oldCondSupplyTemp) :
    condSide p s1 = condSide p s2 := by
  simp only [condSide, h1, h2, h3, h4, h5, h6]

theorem condSide_node_again (p : Plant) (s : ModuleState) :
    condSide p { s with Node := (condSide p s).Node } = condSide p s := by
  cases hw : s.GasAbsorber.isWaterCooled <;> simp [condSide, hw]

theorem pinned_condSide (p : Plant) (s : ModuleState) (MyLoad : Real64) (n : Nodes)
    (hn : n = s.Node ∨ n = (condSide p s).Node) :
    condSide p (pinned (chillerRun p s MyLoad).state n s.Calc_oldCondSupplyTemp)
      = condSide p s := by
  rcases hn with hn | hn
  · exact condSide_congr p _ s rfl rfl rfl rfl hn rfl
  · rw [← condSide_node_again p s]
    exact condSide_congr p _ _ rfl rfl rfl rfl hn rfl

/-- A second run of the operating path, on the state the first run has left with the stored
estimate put back and the nodes as they were before or after the first run, for a load
that clamps to the same value, returns the same load and writes the same report record. -/
theorem chillerRun_repeat (p : Plant) (s : ModuleState) (MyLoad MyLoad1 : Real64) (n : Nodes)
    (hn : n = s.Node ∨ n = (condSide p s).Node)
    (hM : clampLoad MyLoad1 (availableCoolingCapacity p s) s.GasAbsorber.MinPartLoadRat
        s.GasAbsorber.MaxPartLoadRat
      = clampLoad MyLoad (availableCoolingCapacity p s) s.GasAbsorber.MinPartLoadRat
        s.GasAbsorber.MaxPartLoadRat) :
    (chillerRun p (pinned (chillerRun p s MyLoad).state n s.Calc_oldCondSupplyTemp)
        MyLoad1).MyLoad = (chillerRun p s MyLoad).MyLoad ∧
    (chillerRun p (pinned (chillerRun p s MyLoad).state n s.Calc_oldCondSupplyTemp)
        MyLoad1).state.GasAbsorberReport = (chillerRun p s MyLoad).state.GasAbsorberReport := by
  have hr : n.ChillReturn = s.Node.ChillReturn := by
    rcases hn with hn | hn
    · rw [hn]
    · rw [hn, condSide_chillReturn]
  have hs : n.ChillSupply = s.Node.ChillSupply := by
    rcases hn with hn | hn
    · rw [hn]
    · rw [hn, condSide_chillSupply]
  have e1 := pinned_condSide p s MyLoad n hn
  have e2 : chillSupplySetPointTemp p
      (pinned (chillerRun p s MyLoad).state n s.Calc_oldCondSupplyTemp)
      = chillSupplySetPointTemp p s := by
    show (match p.LoopDemandCalcScheme s.GasAbsorber.CWLoopNum with
      | LoopDemandCalcScheme.SingleSetPoint => n.ChillSupply.TempSetPoint
      | LoopDemandCalcScheme.DualSetPointDeadBand => n.ChillSupply.TempSetPointHi) = _
    rw [hs]
    rfl
  have e3 : Cp_CW p (pinned (chillerRun p s MyLoad).state n s.Calc_oldCondSupplyTemp)
      = Cp_CW p s := by
    show p.GetSpecificHeatGlycol s.GasAbsorber.CWLoopNum n.ChillReturn.Temp = _
    rw [hr]
    rfl
  have e4 : Cp_CD p (pinned (chillerRun p s MyLoad).state n s.Calc_oldCondSupplyTemp)
      = Cp_CD p s := by
    show (if s.GasAbsorber.CDLoopNum > 0 then
        p.GetSpecificHeatGlycol s.GasAbsorber.CDLoopNum n.ChillReturn.Temp
      else p.Cp_CD_unset) = _
    rw [hr]
    rfl
  have e5 : (pinned (chillerRun p s MyLoad).state n s.Calc_oldCondSupplyTemp).Node.ChillReturn.Temp
      = s.Node.ChillReturn.Temp := by
    show n.ChillReturn.Temp = _
    rw [hr]
  have key := chillerCore_repeat p s.GasAbsorber s.GasAbsorberReport s.Node.ChillReturn.Temp
    (chillSupplySetPointTemp p s) (Cp_CW p s) (Cp_CD p s) (condSide p s) MyLoad MyLoad1 hM
  unfold chillerRun at e1 e2 e3 e4 e5 key ⊢
  rw [e1, e2, e3, e4, e5]
  exact key

theorem pinned_condFlowFails (p : Plant) (s : ModuleState) (MyLoad : Real64) (n : Nodes)
    (hn : n = s.Node ∨ n = (condSide p s).Node) :
    condFlowFails p (pinned (chillerRun p s MyLoad).state n s.Calc_oldCondSupplyTemp) ↔
      condFlowFails p s := by
  unfold condFlowFails
  rw [pinned_condSide p s MyLoad n hn]
  exact Iff.rfl

/-- C10, as stated, fails. With a cooling capacity curve evaluating to 0 the first call,
asked for 40 kW with flow lock 0, hands back the load clamped to 0 and reports the supply
temperature at the 7 C set point; called again with the load it handed back, under the
same node conditions and with the stored estimate put back, the routine takes the idle
path (0 is not below 0) and reports the supply temperature equal to the 12 C return
temperature: the two report records differ. -/
theorem repeated_call_with_returned_zero_load_differs :
    ∃ r1 r2,
      CalcGasAbsorberChillerModel plantNoCapacity state0 (-40000) = Except.ok r1 ∧
      r1.MyLoad = 0 ∧
      r1.state.GasAbsorberReport.ChillSupplyTemp = 7 ∧
      CalcGasAbsorberChillerModel plantNoCapacity
        (pinned r1.state state0.Node state0.Calc_oldCondSupplyTemp) r1.MyLoad = Except.ok r2 ∧
      r2.state.GasAbsorberReport.ChillSupplyTemp = 12 ∧
      r2.state.GasAbsorberReport ≠ r1.state.GasAbsorberReport := by
  have hidle : ¬ chillerIdle state0 (-40000) := state0_not_idle
  have hflow : ¬ condFlowFails plantNoCapacity state0 := by
    norm_num [condFlowFails, condSide, state0, spec0, plantWith, plantNoCapacity]
  have hload : (chillerRun plantNoCapacity state0 (-40000)).MyLoad = 0 := by
    norm_num [chillerRun, chillerCore, clampLoad, sign, condSide, chillSupplySetPointTemp,
      plantWith, plantNoCapacity, state0, spec0, nodes0, node0]
  have hsup : (chillerRun plantNoCapacity state0 (-40000)).state.GasAbsorberReport.ChillSupplyTemp
      = 7 := by
    norm_num [chillerRun, chillerCore, chillSide, chillFlowFree, writeCoolReport,
      chillSupplySetPointTemp, plantWith, plantNoCapacity, state0, spec0, nodes0, node0]
  have hidle2 : chillerIdle
      (pinned (chillerRun plantNoCapacity state0 (-40000)).state state0.Node
        state0.Calc_oldCondSupplyTemp)
      (chillerRun plantNoCapacity state0 (-40000)).MyLoad := by
    rw [hload]
    exact Or.inl (le_refl 0)
  have hsup2 : (chillerOff plantNoCapacity
      (pinned (chillerRun plantNoCapacity state0 (-40000)).state state0.Node
        state0.Calc_oldCondSupplyTemp)
      (chillerRun plantNoCapacity state0 (-40000)).MyLoad).state.GasAbsorberReport.ChillSupplyTemp
      = 12 := rfl
  refine ⟨_, _, calc_run hidle hflow, hload, hsup, calc_idle hidle2, hsup2, ?_⟩
  intro hc
  have h3 := congrArg ReportVars.ChillSupplyTemp hc
  rw [hsup, hsup2] at h3
  norm_num at h3

/-- C10, amended. When a call of the chiller model has returned, a second call made on the
state it has left, with the stored condenser supply temperature estimate put back, the
same plant conditions (flow lock included), the nodes as they were before or after the
first call, and either the original load, or the load handed back provided the first call
was idle or that load is not 0, returns the same load and writes the same report
record. -/
theorem repeated_call_same_result (p : Plant) (s : ModuleState) (MyLoad : Real64)
    (r1 : ChillerResult) (h1 : CalcGasAbsorberChillerModel p s MyLoad = Except.ok r1)
    (n : Nodes) (hn : n = s.Node ∨ n = r1.state.Node)
    (MyLoad1 : Real64)
    (hM : MyLoad1 = MyLoad ∨
      (MyLoad1 = r1.MyLoad ∧ (chillerIdle s MyLoad ∨ r1.MyLoad ≠ 0))) :
    ∃ r2, CalcGasAbsorberChillerModel p (pinned r1.state n s.Calc_oldCondSupplyTemp) MyLoad1
        = Except.ok r2 ∧
      r2.MyLoad = r1.MyLoad ∧
      r2.state.GasAbsorberReport = r1.state.GasAbsorberReport := by
  by_cases h : chillerIdle s MyLoad
  · rw [calc_idle h] at h1
    cases h1
    have hM1 : MyLoad1 = MyLoad := by
      rcases hM with hM | ⟨hM, _⟩
      · exact hM
      · exact hM
    subst hM1
    have hn1 : n = s.Node := by
      rcases hn with hn | hn
      · exact hn
      · exact hn
    subst hn1
    have hidle2 : chillerIdle (pinned (chillerOff p s MyLoad1).state s.Node
        s.Calc_oldCondSupplyTemp) MyLoad1 := h
    refine ⟨_, calc_idle hidle2, rfl, ?_⟩
    simp [chillerOff, pinned, writeCoolReport]
  · obtain ⟨hr, hf⟩ := calc_ok_run h h1
    subst hr
    have hneg : MyLoad < 0 := by
      by_contra hc
      exact h (Or.inl (not_lt.mp hc))
    have hmode : s.GasAbsorber.InHeatingMode = true ∨ s.GasAbsorber.InCoolingMode = true := by
      by_contra hc
      exact h (Or.inr hc)
    have hclamp : (chillerRun p s MyLoad).MyLoad
        = clampLoad MyLoad (availableCoolingCapacity p s) s.GasAbsorber.MinPartLoadRat
          s.GasAbsorber.MaxPartLoadRat := rfl
    have hneg1 : MyLoad1 < 0 := by
      rcases hM with hM | ⟨hM, hne⟩
      · rw [hM]
        exact hneg
      · have hne2 : (chillerRun p s MyLoad).MyLoad ≠ 0 := hne.resolve_left h
        rw [hM]
        rw [hclamp] at hne2 ⊢
        exact lt_of_le_of_ne (clampLoad_nonpos _ _ _ hneg) hne2
    have hsame : clampLoad MyLoad1 (availableCoolingCapacity p s) s.GasAbsorber.MinPartLoadRat
          s.GasAbsorber.MaxPartLoadRat
        = clampLoad MyLoad (availableCoolingCapacity p s) s.GasAbsorber.MinPartLoadRat
          s.GasAbsorber.MaxPartLoadRat := by
      rcases hM with hM | ⟨hM, hne⟩
      · rw [hM]
      · have hne2 : (chillerRun p s MyLoad).MyLoad ≠ 0 := hne.resolve_left h
        rw [hM, hclamp]
        rw [hclamp] at hne2
        exact clampLoad_idem _ _ _ hneg hne2
    have hidle2 : ¬ chillerIdle (pinned (chillerRun p s MyLoad).state n
        s.Calc_oldCondSupplyTemp) MyLoad1 := by
      intro hc
      rcases hc with hc | hc
      · exact absurd hneg1 (not_lt.mpr hc)
      · exact hc hmode
    have hf2 : ¬ condFlowFails p (pinned (chillerRun p s MyLoad).state n
        s.Calc_oldCondSupplyTemp) :=
      fun hc => hf ((pinned_condFlowFails p s MyLoad n hn).mp hc)
    obtain ⟨k1, k2⟩ := chillerRun_repeat p s MyLoad MyLoad1 n hn hsame
    exact ⟨_, calc_run hidle2 hf2, k1, k2⟩

/-- Witness for C10, amended. The unit whose capacity curve evaluates to 0 hands back the
load 0 for the 40 kW request; called again with the original request it returns the same
load and report.  The sample unit hands back a load other than 0 and, called again with
that load, returns the same load and report. -/
theorem repeated_call_same_result_witness :
    (chillerRun plantNoCapacity state0 (-40000)).MyLoad = 0 ∧
      (∃ r2, CalcGasAbsorberChillerModel plantNoCapacity
          (pinned (chillerRun plantNoCapacity state0 (-40000)).state state0.Node
            state0.Calc_oldCondSupplyTemp) (-40000) = Except.ok r2 ∧
        r2.MyLoad = (chillerRun plantNoCapacity state0 (-40000)).MyLoad ∧
        r2.state.GasAbsorberReport
          = (chillerRun plantNoCapacity state0 (-40000)).state.GasAbsorberReport) ∧
      (chillerRun (plantWith 0) state0 (-40000)).MyLoad ≠ 0 ∧
      ∃ r2, CalcGasAbsorberChillerModel (plantWith 0)
          (pinned (chillerRun (plantWith 0) state0 (-40000)).state state0.Node
            state0.Calc_oldCondSupplyTemp)
          (chillerRun (plantWith 0) state0 (-40000)).MyLoad = Except.ok r2 ∧
        r2.MyLoad = (chillerRun (plantWith 0) state0 (-40000)).MyLoad ∧
        r2.state.GasAbsorberReport
          = (chillerRun (plantWith 0) state0 (-40000)).state.GasAbsorberReport :=
  have hzero : (chillerRun plantNoCapacity state0 (-40000)).MyLoad = 0 := by
    norm_num [chillerRun, chillerCore, clampLoad, sign, condSide, chillSupplySetPointTemp,
      plantWith, plantNoCapacity, state0, spec0, nodes0, node0]
  have hne : (chillerRun (plantWith 0) state0 (-40000)).MyLoad ≠ 0 := by
    norm_num [chillerRun, chillerCore, clampLoad, sign, condSide, chillSupplySetPointTemp,
      plantWith, state0, spec0, nodes0, node0]
  ⟨hzero,
    repeated_call_same_result plantNoCapacity state0 (-40000)
      (chillerRun plantNoCapacity state0 (-40000))
      (calc_run state0_not_idle (by
        norm_num [condFlowFails, condSide, state0, spec0, plantWith, plantNoCapacity]))
      state0.Node (Or.inl rfl) (-40000) (Or.inl rfl),
    hne,
    repeated_call_same_result (plantWith 0) state0 (-40000)
      (chillerRun (plantWith 0) state0 (-40000))
      (calc_run state0_not_idle (state0_condFlow 0))
      state0.Node (Or.inl rfl) (chillerRun (plantWith 0) state0 (-40000)).MyLoad
      (Or.inr ⟨rfl, Or.inr hne⟩)⟩

/-! ## The heater model -/

/-- Values a heating call that is not idle leaves in the report record and in its result,
in terms of the hot water side resolved for the clamped load. -/
theorem heater_run (p : Plant) (s : ModuleState) (MyLoad : Real64) (RunFlag : Bool)
    (hM : 0 < MyLoad) (hR : RunFlag = true) :
    (CalcGasAbsorberHeaterModel p s MyLoad RunFlag).MyLoad =
        clampLoad MyLoad s.GasAbsorberReport.HeatingCapacity s.GasAbsorber.MinPartLoadRat
          s.GasAbsorber.MaxPartLoadRat ∧
      (CalcGasAbsorberHeaterModel p s MyLoad RunFlag).HeatDeltaTemp =
        (heatSide p s.GasAbsorber (CalcGasAbsorberHeaterModel p s MyLoad RunFlag).MyLoad
          (p.GetSpecificHeatGlycol s.GasAbsorber.HWLoopNum 0)
          |s.Node.HeatReturn.Temp - heatSupplySetPointTemp p s| s.Node.HeatReturn.Temp
          s.Node.HeatReturn.MassFlowRate (heatSupplySetPointTemp p s)).HeatDeltaTemp ∧
      (CalcGasAbsorberHeaterModel p s MyLoad RunFlag).state.GasAbsorberReport.HeatingLoad =
        (heatSide p s.GasAbsorber (CalcGasAbsorberHeaterModel p s MyLoad RunFlag).MyLoad
          (p.GetSpecificHeatGlycol s.GasAbsorber.HWLoopNum 0)
          |s.Node.HeatReturn.Temp - heatSupplySetPointTemp p s| s.Node.HeatReturn.Temp
          s.Node.HeatReturn.MassFlowRate (heatSupplySetPointTemp p s)).lHeatingLoad ∧
      (CalcGasAbsorberHeaterModel p s MyLoad RunFlag).state.GasAbsorberReport.HotWaterSupplyTemp =
        (heatSide p s.GasAbsorber (CalcGasAbsorberHeaterModel p s MyLoad RunFlag).MyLoad
          (p.GetSpecificHeatGlycol s.GasAbsorber.HWLoopNum 0)
          |s.Node.HeatReturn.Temp - heatSupplySetPointTemp p s| s.Node.HeatReturn.Temp
          s.Node.HeatReturn.MassFlowRate (heatSupplySetPointTemp p s)).lHotWaterSupplyTemp ∧
      (CalcGasAbsorberHeaterModel p s MyLoad RunFlag).state.GasAbsorberReport.HotWaterReturnTemp =
        s.Node.HeatReturn.Temp := by
  have h : ¬ (MyLoad ≤ 0 ∨ RunFlag = false) := by
    intro hc
    rcases hc with hc | hc
    · exact absurd hM (not_lt.mpr hc)
    · rw [hR] at hc
      cases hc
  simp [CalcGasAbsorberHeaterModel, h, writeHeatReport]

/-! ## C11: the overloaded branch of the heater model -/

/-- C11. In a heating call that is not idle (load above 0, `RunFlag` true) with flow lock
2: when the hot water mass flow is below `MassFlowTolerance`, delta-T is 0, the reported
supply temperature equals the return temperature and the reported heating load is 0,
whatever the flow is (zero included); otherwise, with a positive specific heat and a
positive `MassFlowTolerance`, delta-T is `|MyLoad| / (Cp * flow)` for the clamped load
handed back, the supply temperature is the return temperature plus delta-T and the
reported heating load is `|MyLoad|`. -/
theorem overloaded_heating_resolution (p : Plant) (s : ModuleState) (MyLoad : Real64)
    (RunFlag : Bool) (hM : 0 < MyLoad) (hR : RunFlag = true)
    (hl : p.FlowLock s.GasAbsorber.HWLoopNum = 2) :
    (s.Node.HeatReturn.MassFlowRate < p.MassFlowTolerance →
      (CalcGasAbsorberHeaterModel p s MyLoad RunFlag).HeatDeltaTemp = 0 ∧
      (CalcGasAbsorberHeaterModel p s MyLoad RunFlag).state.GasAbsorberReport.HotWaterSupplyTemp
        = s.Node.HeatReturn.Temp ∧
      (CalcGasAbsorberHeaterModel p s MyLoad RunFlag).state.GasAbsorberReport.HotWaterReturnTemp
        = s.Node.HeatReturn.Temp ∧
      (CalcGasAbsorberHeaterModel p s MyLoad RunFlag).state.GasAbsorberReport.HeatingLoad = 0) ∧
    (¬ s.Node.HeatReturn.MassFlowRate < p.MassFlowTolerance →
      0 < p.GetSpecificHeatGlycol s.GasAbsorber.HWLoopNum 0 → 0 < p.MassFlowTolerance →
      (CalcGasAbsorberHeaterModel p s MyLoad RunFlag).HeatDeltaTemp =
        |(CalcGasAbsorberHeaterModel p s MyLoad RunFlag).MyLoad| /
          (p.GetSpecificHeatGlycol s.GasAbsorber.HWLoopNum 0 *
            s.Node.HeatReturn.MassFlowRate) ∧
      (CalcGasAbsorberHeaterModel p s MyLoad RunFlag).state.GasAbsorberReport.HotWaterSupplyTemp
        = s.Node.HeatReturn.Temp +
          (CalcGasAbsorberHeaterModel p s MyLoad RunFlag).HeatDeltaTemp ∧
      (CalcGasAbsorberHeaterModel p s MyLoad RunFlag).state.GasAbsorberReport.HeatingLoad
        = |(CalcGasAbsorberHeaterModel p s MyLoad RunFlag).MyLoad|) := by
  obtain ⟨_, e2, e3, e4, e5⟩ := heater_run p s MyLoad RunFlag hM hR
  have h02 : ¬ ((2 : Int) = 0) := by decide
  have h12 : ¬ ((2 : Int) = 1) := by decide
  constructor
  · intro hflow
    rw [e2, e3, e4, e5]
    simp [heatSide, hl, hflow]
  · intro hflow hcp htol
    have hpos : 0 < s.Node.HeatReturn.MassFlowRate :=
      lt_of_lt_of_le htol (not_lt.mp hflow)
    have hden : 0 < p.GetSpecificHeatGlycol s.GasAbsorber.HWLoopNum 0 *
        s.Node.HeatReturn.MassFlowRate := mul_pos hcp hpos
    rw [e2, e3, e4]
    generalize (CalcGasAbsorberHeaterModel p s MyLoad RunFlag).MyLoad = M
    simp only [heatSide, hl, h02, h12, hflow, if_true, if_false]
    refine ⟨trivial, trivial, ?_⟩
    have h1 : s.Node.HeatReturn.MassFlowRate *
        p.GetSpecificHeatGlycol s.GasAbsorber.HWLoopNum 0 *
        (|M| / (p.GetSpecificHeatGlycol s.GasAbsorber.HWLoopNum 0 *
          s.Node.HeatReturn.MassFlowRate)) = |M| := by
      field_simp
      ring
    rw [h1, abs_abs]

/-- Witness for C11: the sample unit with flow lock 2 asked for 30 kW of heating; its hot
water flow of 2 kg/s is above the tolerance, so the second half applies. -/
theorem overloaded_heating_resolution_witness :
    ¬ state0.Node.HeatReturn.MassFlowRate < (plantWith 2).MassFlowTolerance ∧
      (CalcGasAbsorberHeaterModel (plantWith 2) state0 30000 true).HeatDeltaTemp =
        |(CalcGasAbsorberHeaterModel (plantWith 2) state0 30000 true).MyLoad| /
          ((plantWith 2).GetSpecificHeatGlycol state0.GasAbsorber.HWLoopNum 0 *
            state0.Node.HeatReturn.MassFlowRate) ∧
      (CalcGasAbsorberHeaterModel (plantWith 2) state0 30000
          true).state.GasAbsorberReport.HotWaterSupplyTemp
        = state0.Node.HeatReturn.Temp +
          (CalcGasAbsorberHeaterModel (plantWith 2) state0 30000 true).HeatDeltaTemp ∧
      (CalcGasAbsorberHeaterModel (plantWith 2) state0 30000
          true).state.GasAbsorberReport.HeatingLoad
        = |(CalcGasAbsorberHeaterModel (plantWith 2) state0 30000 true).MyLoad| :=
  ⟨by norm_num [state0, nodes0, node0, plantWith],
    (overloaded_heating_resolution (plantWith 2) state0 30000 true (by norm_num) rfl rfl).2
      (by norm_num [state0, nodes0, node0, plantWith])
      (by norm_num [plantWith]) (by norm_num [plantWith])⟩

/-! ## C12: heating parasitic electricity net of the cooling parasitic -/

/-- The electric powers a heating call that is not idle writes to the report record. -/
theorem heater_run_electric (p : Plant) (s : ModuleState) (MyLoad : Real64) (RunFlag : Bool)
    (hM : 0 < MyLoad) (hR : RunFlag = true) :
    (CalcGasAbsorberHeaterModel p s MyLoad RunFlag).state.GasAbsorberReport.HeatElectricPower =
        heatElectricPower s.GasAbsorber
          (CalcGasAbsorberHeaterModel p s MyLoad
            RunFlag).state.GasAbsorberReport.FractionOfPeriodRunning
          s.GasAbsorberReport.CoolElectricPower ∧
      (CalcGasAbsorberHeaterModel p s MyLoad RunFlag).state.GasAbsorberReport.ElectricPower =
        s.GasAbsorberReport.CoolElectricPower +
          (CalcGasAbsorberHeaterModel p s MyLoad
            RunFlag).state.GasAbsorberReport.HeatElectricPower ∧
      (CalcGasAbsorberHeaterModel p s MyLoad RunFlag).state.GasAbsorberReport.CoolElectricPower =
        s.GasAbsorberReport.CoolElectricPower := by
  have h : ¬ (MyLoad ≤ 0 ∨ RunFlag = false) := by
    intro hc
    rcases hc with hc | hc
    · exact absurd hM (not_lt.mpr hc)
    · rw [hR] at hc
      cases hc
  simp [CalcGasAbsorberHeaterModel, h, writeHeatReport]

/-- C12. In a heating call that is not idle (load above 0, `RunFlag` true), write `raw` for
`NomCoolingCap * NomHeatCoolRatio * ElecHeatRatio` times the running fraction the call
reports, and `cool` for the cooling electric power found in the report record on entry
(which the call leaves in place).  The reported heating electric power is 0 when
`raw <= cool` and `raw - cool` otherwise, it is never negative, and the combined
`ElectricPower` written is `max raw cool`. -/
theorem heating_electric_power_net_of_cooling (p : Plant) (s : ModuleState)
    (MyLoad : Real64) (RunFlag : Bool) (hM : 0 < MyLoad) (hR : RunFlag = true) :
    (CalcGasAbsorberHeaterModel p s MyLoad RunFlag).state.GasAbsorberReport.HeatElectricPower =
        (if s.GasAbsorber.NomCoolingCap * s.GasAbsorber.NomHeatCoolRatio *
              s.GasAbsorber.ElecHeatRatio *
              (CalcGasAbsorberHeaterModel p s MyLoad
                RunFlag).state.GasAbsorberReport.FractionOfPeriodRunning ≤
            s.GasAbsorberReport.CoolElectricPower then 0
          else s.GasAbsorber.NomCoolingCap * s.GasAbsorber.NomHeatCoolRatio *
              s.GasAbsorber.ElecHeatRatio *
              (CalcGasAbsorberHeaterModel p s MyLoad
                RunFlag).state.GasAbsorberReport.FractionOfPeriodRunning -
            s.GasAbsorberReport.CoolElectricPower) ∧
      0 ≤ (CalcGasAbsorberHeaterModel p s MyLoad
        RunFlag).state.GasAbsorberReport.HeatElectricPower ∧
      (CalcGasAbsorberHeaterModel p s MyLoad RunFlag).state.GasAbsorberReport.ElectricPower =
        max (s.GasAbsorber.NomCoolingCap * s.GasAbsorber.NomHeatCoolRatio *
              s.GasAbsorber.ElecHeatRatio *
              (CalcGasAbsorberHeaterModel p s MyLoad
                RunFlag).state.GasAbsorberReport.FractionOfPeriodRunning)
          s.GasAbsorberReport.CoolElectricPower ∧
      (CalcGasAbsorberHeaterModel p s MyLoad RunFlag).state.GasAbsorberReport.CoolElectricPower =
        s.GasAbsorberReport.CoolElectricPower := by
  obtain ⟨e1, e2, e3⟩ := heater_run_electric p s MyLoad RunFlag hM hR
  rw [e2, e1]
  generalize (CalcGasAbsorberHeaterModel p s MyLoad
    RunFlag).state.GasAbsorberReport.FractionOfPeriodRunning = f
  refine ⟨rfl, ?_, ?_, e3⟩
  · unfold heatElectricPower
    simp only
    split_ifs with hle
    · exact le_refl 0
    · exact le_of_lt (sub_pos.mpr (not_le.mp hle))
  · unfold heatElectricPower
    simp only
    split_ifs with hle
    · rw [add_zero, max_eq_right hle]
    · rw [max_eq_left (le_of_lt (not_le.mp hle))]
      ring

/-- Witness for C12: the sample unit with a stored heating capacity of 80 kW and 100 W of
cooling parasitic asked for 40 kW of heating; the raw heating parasitic is 400 W, of which
300 W are reported for heating, and the combined electric power is 400 W. -/
theorem heating_electric_power_net_of_cooling_witness :
    (CalcGasAbsorberHeaterModel (plantWith 0) stateHeated 40000
        true).state.GasAbsorberReport.HeatElectricPower = 300 ∧
      0 ≤ (CalcGasAbsorberHeaterModel (plantWith 0) stateHeated 40000
        true).state.GasAbsorberReport.HeatElectricPower ∧
      (CalcGasAbsorberHeaterModel (plantWith 0) stateHeated 40000
          true).state.GasAbsorberReport.ElectricPower =
        max (stateHeated.GasAbsorber.NomCoolingCap * stateHeated.GasAbsorber.NomHeatCoolRatio *
              stateHeated.GasAbsorber.ElecHeatRatio *
              (CalcGasAbsorberHeaterModel (plantWith 0) stateHeated 40000
                true).state.GasAbsorberReport.FractionOfPeriodRunning)
          stateHeated.GasAbsorberReport.CoolElectricPower :=
  ⟨by
      norm_num [CalcGasAbsorberHeaterModel, writeHeatReport, heatElectricPower, heatSide,
        clampLoad, sign, heatSupplySetPointTemp, stateHeated, state0, spec0, report0, nodes0,
        node0, plantWith],
    (heating_electric_power_net_of_cooling (plantWith 0) stateHeated 40000 true
      (by norm_num) rfl).2.1,
    (heating_electric_power_net_of_cooling (plantWith 0) stateHeated 40000 true
      (by norm_num) rfl).2.2.1⟩

/-! ## C13: the capacity the heater clamps the load against -/

/-- C13 (does not hold of the code). The sample unit on its first heating call, asked for
30 kW with `RunFlag` true: the available heating capacity computed in the call is
`NomHeatCoolRatio * NomCoolingCap * curve = 80 kW > 0` and `0 < MinPartLoadRat = 0.1 <=
MaxPartLoadRat = 1`, yet the load handed back is 0, outside `[8 kW, 80 kW]`, and the
reported heating part-load ratio is 0, below `MinPartLoadRat`: the load is clamped against
the `HeatingCapacity` found in the report record on entry (0 here), not against the
capacity computed in the call. -/
theorem heating_load_not_clamped_to_current_capacity :
    (0 : Real64) < 30000 ∧
      state0.GasAbsorber.NomHeatCoolRatio * state0.GasAbsorber.NomCoolingCap *
          (plantWith 0).CurveValue state0.GasAbsorber.HeatCapFCoolCurve
            (state0.GasAbsorberReport.CoolingLoad / state0.GasAbsorber.NomCoolingCap) none
        = 80000 ∧
      (CalcGasAbsorberHeaterModel (plantWith 0) state0 30000
          true).state.GasAbsorberReport.HeatingCapacity = 80000 ∧
      0 < state0.GasAbsorber.MinPartLoadRat ∧
      state0.GasAbsorber.MinPartLoadRat ≤ state0.GasAbsorber.MaxPartLoadRat ∧
      state0.GasAbsorberReport.HeatingCapacity = 0 ∧
      (CalcGasAbsorberHeaterModel (plantWith 0) state0 30000 true).MyLoad = 0 ∧
      ¬ (state0.GasAbsorber.MinPartLoadRat * 80000 ≤
        (CalcGasAbsorberHeaterModel (plantWith 0) state0 30000 true).MyLoad) ∧
      (CalcGasAbsorberHeaterModel (plantWith 0) state0 30000
          true).state.GasAbsorberReport.HeatingLoad = 0 ∧
      (CalcGasAbsorberHeaterModel (plantWith 0) state0 30000
          true).state.GasAbsorberReport.HeatPartLoadRatio = 0 ∧
      ¬ (state0.GasAbsorber.MinPartLoadRat ≤
        (CalcGasAbsorberHeaterModel (plantWith 0) state0 30000
          true).state.GasAbsorberReport.HeatPartLoadRatio) := by
  norm_num [CalcGasAbsorberHeaterModel, writeHeatReport, heatElectricPower, heatSide,
    clampLoad, sign, heatSupplySetPointTemp, state0, spec0, report0, nodes0, node0,
    plantWith]

/-! ## C24: the heat balance of the flow-locked branch on exit -/

/-- C24. For every cooling call with flow lock 1 that is not idle and does not end fatally,
with `Cp > 0`, a positive locked chilled water flow, and either the possible-subcooling
flag set or the return temperature not below the set point: the call returns, and on exit
the reported load equals the reported flow times `Cp` times delta-T, and delta-T equals
the reported return temperature minus the reported supply temperature.  No assumption is
made on which of the low-limit, node-minimum and requested-load checks fire. -/
theorem locked_exit_heat_balance (p : Plant) (s : ModuleState) (MyLoad : Real64)
    (h : ¬ chillerIdle s MyLoad) (hf : ¬ condFlowFails p s)
    (hl : p.FlowLock s.GasAbsorber.CWLoopNum = 1) (hcp : 0 < Cp_CW p s)
    (hflow : 0 < s.Node.ChillReturn.MassFlowRate)
    (hset : s.GasAbsorber.PossibleSubcooling = true ∨
      chillSupplySetPointTemp p s ≤ s.Node.ChillReturn.Temp) :
    ∃ r, CalcGasAbsorberChillerModel p s MyLoad = Except.ok r ∧
      r.state.GasAbsorberReport.ChillWaterFlowRate = s.Node.ChillReturn.MassFlowRate ∧
      r.state.GasAbsorberReport.ChillReturnTemp = s.Node.ChillReturn.Temp ∧
      r.state.GasAbsorberReport.CoolingLoad =
        r.state.GasAbsorberReport.ChillWaterFlowRate * Cp_CW p s * r.ChillDeltaTemp ∧
      r.ChillDeltaTemp =
        r.state.GasAbsorberReport.ChillReturnTemp -
          r.state.GasAbsorberReport.ChillSupplyTemp := by
  have hset2 : s.GasAbsorber.PossibleSubcooling = false →
      chillSupplySetPointTemp p s ≤ s.Node.ChillReturn.Temp := by
    intro hps
    rcases hset with hs | hs
    · rw [hps] at hs
      cases hs
    · exact hs
  obtain ⟨_, e2, e3, _⟩ := chillerRun_locked p s MyLoad hl
  obtain ⟨k1, k2⟩ := chillerRun_locked_exact p s MyLoad hl hcp hflow hset2
  exact ⟨chillerRun p s MyLoad, calc_run h hf, e3, e2, k1, k2⟩

/-- Witness for C24: the sample unit with flow lock 1 and chilled water returning at 3 C,
below the low limit of 5 C and above the set point of 2 C, where the low-limit check
fires and sets the supply temperature to the return temperature. -/
theorem locked_exit_heat_balance_witness :
    ∃ r, CalcGasAbsorberChillerModel (plantWith 1) stateColdReturn (-40000) = Except.ok r ∧
      r.state.GasAbsorberReport.ChillWaterFlowRate =
        stateColdReturn.Node.ChillReturn.MassFlowRate ∧
      r.state.GasAbsorberReport.ChillReturnTemp = stateColdReturn.Node.ChillReturn.Temp ∧
      r.state.GasAbsorberReport.CoolingLoad =
        r.state.GasAbsorberReport.ChillWaterFlowRate * Cp_CW (plantWith 1) stateColdReturn *
          r.ChillDeltaTemp ∧
      r.ChillDeltaTemp =
        r.state.GasAbsorberReport.ChillReturnTemp -
          r.state.GasAbsorberReport.ChillSupplyTemp :=
  locked_exit_heat_balance (plantWith 1) stateColdReturn (-40000)
    (by simp [chillerIdle, stateColdReturn, state0, spec0])
    (by norm_num [condFlowFails, condSide, stateColdReturn, state0, spec0, plantWith])
    rfl (by norm_num [Cp_CW, plantWith])
    (by norm_num [stateColdReturn, state0, nodes0, node0])
    (Or.inr (by
      norm_num [chillSupplySetPointTemp, plantWith, stateColdReturn, state0, spec0, nodes0,
        node0]))

/-! ## C26: the heater clamps against the stored capacity -/

theorem clampLoad_zero_capacity (MyLoad lMin lMax : Real64) (hM : 0 < MyLoad) :
    clampLoad MyLoad 0 lMin lMax = 0 := by
  have h1 : sign (max |MyLoad| (0 * lMin)) MyLoad = MyLoad := by
    unfold sign
    rw [if_pos (le_of_lt hM), zero_mul, max_eq_left (abs_nonneg _), abs_abs, abs_of_pos hM]
  unfold clampLoad
  simp only
  rw [h1]
  unfold sign
  rw [if_pos (le_of_lt hM), zero_mul, min_eq_right (abs_nonneg _), abs_zero]

/-- C26. `CalcGasAbsorberHeaterModel` clamps the requested load against the
`HeatingCapacity` found in the report record on entry (stored by the previous call), while
the capacity computed in the call, `NomHeatCoolRatio * NomCoolingCap * curve`, is only
stored for the next call.  An idle call (load not above 0, or `RunFlag` false) stores a
capacity of 0.  Whenever the stored capacity is 0, a call that is not idle hands back the
load 0 whatever positive load was requested; with flow lock 0 the heating load is then 0,
and the hot water flow requested is 0 (delta-T not 0, `Cp` not 0) or the flow is set to 0
without a request (delta-T 0). -/
theorem heater_clamps_against_stored_capacity (p : Plant) (s : ModuleState) :
    (∀ (MyLoad : Real64) (RunFlag : Bool), MyLoad ≤ 0 ∨ RunFlag = false →
      (CalcGasAbsorberHeaterModel p s MyLoad RunFlag).state.GasAbsorberReport.HeatingCapacity
        = 0) ∧
    (∀ MyLoad : Real64, 0 < MyLoad →
      (CalcGasAbsorberHeaterModel p s MyLoad true).MyLoad =
        clampLoad MyLoad s.GasAbsorberReport.HeatingCapacity s.GasAbsorber.MinPartLoadRat
          s.GasAbsorber.MaxPartLoadRat ∧
      (CalcGasAbsorberHeaterModel p s MyLoad true).state.GasAbsorberReport.HeatingCapacity =
        s.GasAbsorber.NomHeatCoolRatio * s.GasAbsorber.NomCoolingCap *
          p.CurveValue s.GasAbsorber.HeatCapFCoolCurve
            (s.GasAbsorberReport.CoolingLoad / s.GasAbsorber.NomCoolingCap) none ∧
      (s.GasAbsorberReport.HeatingCapacity = 0 →
        (CalcGasAbsorberHeaterModel p s MyLoad true).MyLoad = 0 ∧
        (p.FlowLock s.GasAbsorber.HWLoopNum = 0 →
          (CalcGasAbsorberHeaterModel p s MyLoad true).state.GasAbsorberReport.HeatingLoad
            = 0 ∧
          (|s.Node.HeatReturn.Temp - heatSupplySetPointTemp p s| ≠ 0 →
            p.GetSpecificHeatGlycol s.GasAbsorber.HWLoopNum 0 ≠ 0 →
            (CalcGasAbsorberHeaterModel p s MyLoad true).events =
              [Event.SetComponentFlowRate s.GasAbsorber.HWLoopNum 0]) ∧
          (|s.Node.HeatReturn.Temp - heatSupplySetPointTemp p s| = 0 →
            (CalcGasAbsorberHeaterModel p s MyLoad true).state.GasAbsorberReport.HotWaterFlowRate
              = 0 ∧
            (CalcGasAbsorberHeaterModel p s MyLoad true).events =
              [Event.ShowRecurringWarningErrorAtEnd ErrCount.DeltaTempHeatErrCount])))) := by
  constructor
  · intro MyLoad RunFlag hidle
    simp [CalcGasAbsorberHeaterModel, hidle, writeHeatReport]
  · intro MyLoad hM
    have h : ¬ (MyLoad ≤ 0 ∨ true = false) := by
      intro hc
      rcases hc with hc | hc
      · exact absurd hM (not_lt.mpr hc)
      · cases hc
    have hM2 : ¬ MyLoad ≤ 0 := not_le.mpr hM
    have eL : (CalcGasAbsorberHeaterModel p s MyLoad true).MyLoad =
        clampLoad MyLoad s.GasAbsorberReport.HeatingCapacity s.GasAbsorber.MinPartLoadRat
          s.GasAbsorber.MaxPartLoadRat := by
      simp [CalcGasAbsorberHeaterModel, hM2]
    refine ⟨eL, ?_, ?_⟩
    · simp [CalcGasAbsorberHeaterModel, hM2, writeHeatReport]
    · intro hcap
      have e0 : (CalcGasAbsorberHeaterModel p s MyLoad true).MyLoad = 0 := by
        rw [eL, hcap]
        exact clampLoad_zero_capacity MyLoad _ _ hM
      have ec : clampLoad MyLoad s.GasAbsorberReport.HeatingCapacity
          s.GasAbsorber.MinPartLoadRat s.GasAbsorber.MaxPartLoadRat = 0 := by
        rw [← eL]
        exact e0
      refine ⟨e0, ?_⟩
      intro hl
      refine ⟨?_, ?_, ?_⟩
      · simp only [CalcGasAbsorberHeaterModel, if_neg h, writeHeatReport, ec, heatSide, hl,
          if_true]
        split_ifs <;> simp
      · intro hdt hcp
        have hreq : |(0 : Real64)| / (p.GetSpecificHeatGlycol s.GasAbsorber.HWLoopNum 0 *
            |s.Node.HeatReturn.Temp - heatSupplySetPointTemp p s|) = 0 := by
          rw [div_eq_iff (mul_ne_zero hcp hdt), abs_zero, zero_mul]
        simp only [CalcGasAbsorberHeaterModel, if_neg h, ec, heatSide, hl, if_true]
        rw [if_pos hdt, hreq, abs_zero]
      · intro hdt
        simp only [CalcGasAbsorberHeaterModel, if_neg h, writeHeatReport, ec, heatSide, hl,
          if_true]
        have hdt2 : ¬ (|s.Node.HeatReturn.Temp - heatSupplySetPointTemp p s| ≠ 0) :=
          not_not.mpr hdt
        rw [if_neg hdt2]
        exact ⟨rfl, rfl⟩

/-- Witness for C26: the sample unit on its first heating call (stored capacity 0) asked
for 30 kW with flow lock 0; the return water is 5 K off the set point. -/
theorem heater_clamps_against_stored_capacity_witness :
    (CalcGasAbsorberHeaterModel (plantWith 0) state0 30000 true).MyLoad = 0 ∧
      (CalcGasAbsorberHeaterModel (plantWith 0) state0 30000
        true).state.GasAbsorberReport.HeatingLoad = 0 ∧
      (CalcGasAbsorberHeaterModel (plantWith 0) state0 30000 true).events =
        [Event.SetComponentFlowRate state0.GasAbsorber.HWLoopNum 0] :=
  ⟨(((heater_clamps_against_stored_capacity (plantWith 0) state0).2 30000
      (by norm_num)).2.2 rfl).1,
    ((((heater_clamps_against_stored_capacity (plantWith 0) state0).2 30000
      (by norm_num)).2.2 rfl).2 rfl).1,
    ((((heater_clamps_against_stored_capacity (plantWith 0) state0).2 30000
      (by norm_num)).2.2 rfl).2 rfl).2.1
      (by norm_num [heatSupplySetPointTemp, plantWith, state0, spec0, nodes0, node0])
      (by norm_num [plantWith])⟩

/-! ## The running fraction of a cooling call in exact arithmetic -/

theorem chillerRun_fraction (p : Plant) (s : ModuleState) (MyLoad : Real64) :
    (chillerRun p s MyLoad).state.GasAbsorberReport.FractionOfPeriodRunning =
        coolFractionOfPeriodRunning
          (coolPartLoadRatio
            (clampLoad MyLoad (availableCoolingCapacity p s) s.GasAbsorber.MinPartLoadRat
              s.GasAbsorber.MaxPartLoadRat)
            (availableCoolingCapacity p s) s.GasAbsorber.MinPartLoadRat
            s.GasAbsorber.MaxPartLoadRat)
          s.GasAbsorberReport.HeatPartLoadRatio s.GasAbsorber.MinPartLoadRat ∧
      (chillerRun p s MyLoad).state.GasAbsorberReport.CoolFuelUseRate =
        (chillerRun p s MyLoad).state.GasAbsorberReport.CoolingCapacity *
            s.GasAbsorber.FuelCoolRatio *
            p.CurveValue s.GasAbsorber.FuelCoolFTCurve
              (chillerRun p s MyLoad).state.GasAbsorberReport.ChillSupplyTemp
              (some (condSide p s).calcCondTemp) *
            p.CurveValue s.GasAbsorber.FuelCoolFPLRCurve
              (chillerRun p s MyLoad).state.GasAbsorberReport.CoolPartLoadRatio none *
          (chillerRun p s MyLoad).state.GasAbsorberReport.FractionOfPeriodRunning ∧
      (chillerRun p s MyLoad).state.GasAbsorberReport.CoolElectricPower =
        s.GasAbsorber.NomCoolingCap * s.GasAbsorber.ElecCoolRatio *
            (chillerRun p s MyLoad).state.GasAbsorberReport.FractionOfPeriodRunning *
            p.CurveValue s.GasAbsorber.ElecCoolFTCurve
              (chillerRun p s MyLoad).state.GasAbsorberReport.ChillSupplyTemp
              (some (condSide p s).calcCondTemp) *
          p.CurveValue s.GasAbsorber.ElecCoolFPLRCurve
            (chillerRun p s MyLoad).state.GasAbsorberReport.CoolPartLoadRatio none ∧
      (chillerRun p s MyLoad).state.GasAbsorberReport.CoolingCapacity =
        availableCoolingCapacity p s :=
  ⟨rfl, rfl, rfl, rfl⟩

theorem coolFraction_one {cool heat lMin : Real64} (hmin : 0 < lMin) (hc : lMin ≤ cool) :
    coolFractionOfPeriodRunning cool heat lMin = 1 := by
  unfold coolFractionOfPeriodRunning
  split_ifs
  · apply min_eq_left
    rw [le_div_iff₀ hmin, one_mul]
    exact le_trans hc (le_max_right _ _)
  · rfl

/-- Exact arithmetic. For every cooling call that is not idle and does not end fatally,
with available cooling capacity above 0 and `0 < MinPartLoadRat <= MaxPartLoadRat`: the
call returns and the `FractionOfPeriodRunning` it reports is exactly 1, whatever heating
part-load ratio the report record holds; the cooling fuel use rate is then
`capacity * FuelCoolRatio * FT curve * FPLR curve` and the cooling electric power
`NomCoolingCap * ElecCoolRatio * FT curve * FPLR curve`, with no reduction for cycling. -/
theorem exact_cooling_running_fraction_is_one (p : Plant) (s : ModuleState) (MyLoad : Real64)
    (h : ¬ chillerIdle s MyLoad) (hf : ¬ condFlowFails p s)
    (hc : 0 < availableCoolingCapacity p s) (hmin : 0 < s.GasAbsorber.MinPartLoadRat)
    (hmax : s.GasAbsorber.MinPartLoadRat ≤ s.GasAbsorber.MaxPartLoadRat) :
    ∃ r, CalcGasAbsorberChillerModel p s MyLoad = Except.ok r ∧
      r.state.GasAbsorberReport.FractionOfPeriodRunning = 1 ∧
      r.state.GasAbsorberReport.CoolFuelUseRate =
        availableCoolingCapacity p s * s.GasAbsorber.FuelCoolRatio *
          p.CurveValue s.GasAbsorber.FuelCoolFTCurve
            r.state.GasAbsorberReport.ChillSupplyTemp (some (condSide p s).calcCondTemp) *
          p.CurveValue s.GasAbsorber.FuelCoolFPLRCurve
            r.state.GasAbsorberReport.CoolPartLoadRatio none ∧
      r.state.GasAbsorberReport.CoolElectricPower =
        s.GasAbsorber.NomCoolingCap * s.GasAbsorber.ElecCoolRatio *
          p.CurveValue s.GasAbsorber.ElecCoolFTCurve
            r.state.GasAbsorberReport.ChillSupplyTemp (some (condSide p s).calcCondTemp) *
          p.CurveValue s.GasAbsorber.ElecCoolFPLRCurve
            r.state.GasAbsorberReport.CoolPartLoadRatio none := by
  have hM : MyLoad < 0 := by
    by_contra hge
    exact h (Or.inl (not_lt.mp hge))
  obtain ⟨_, c2, _⟩ := clampLoad_in_range hM hc hmin hmax
  have hplr := (coolPartLoadRatio_in_range hc hmax c2).1
  obtain ⟨e1, e2, e3, e4⟩ := chillerRun_fraction p s MyLoad
  have hone : (chillerRun p s MyLoad).state.GasAbsorberReport.FractionOfPeriodRunning = 1 := by
    rw [e1]
    exact coolFraction_one hmin hplr
  refine ⟨chillerRun p s MyLoad, calc_run h hf, hone, ?_, ?_⟩
  · rw [e2, hone, mul_one, e4]
  · rw [e3, hone, mul_one]

/-- The sample unit with flow lock 0 asked for 40 kW of cooling while the report record
holds a heating part-load ratio of 0, in exact arithmetic. -/
theorem exact_cooling_running_fraction_is_one_witness :
    ∃ r, CalcGasAbsorberChillerModel (plantWith 0) state0 (-40000) = Except.ok r ∧
      r.state.GasAbsorberReport.FractionOfPeriodRunning = 1 := by
  obtain ⟨r, h1, h2, _⟩ :=
    exact_cooling_running_fraction_is_one (plantWith 0) state0 (-40000) state0_not_idle
      (state0_condFlow 0)
      (by norm_num [availableCoolingCapacity, plantWith, state0, spec0])
      (by norm_num [state0, spec0]) (by norm_num [state0, spec0])
  exact ⟨r, h1, h2⟩

/-! ## C29: the temperature of the hot water specific heat lookup -/

/-- C29. In `CalcGasAbsorberHeaterModel` the specific heat `Cp_HW` is the fluid property
looked up at temperature 0, whatever the hot water return temperature is: the state with
the return node at any other temperature `T` has the same `Cp_HW`, and in a call that is
not idle (load above 0, `RunFlag` true) the hot water side of either state is resolved
with that one value. -/
theorem hot_water_specific_heat_looked_up_at_zero (p : Plant) (s : ModuleState)
    (T MyLoad : Real64) (RunFlag : Bool) (hM : 0 < MyLoad) (hR : RunFlag = true) :
    Cp_HW p s = p.GetSpecificHeatGlycol s.GasAbsorber.HWLoopNum 0 ∧
      Cp_HW p (withHeatReturnTemp s T) = Cp_HW p s ∧
      (CalcGasAbsorberHeaterModel p s MyLoad RunFlag).state.GasAbsorberReport.HeatingLoad =
        (heatSide p s.GasAbsorber (CalcGasAbsorberHeaterModel p s MyLoad RunFlag).MyLoad
          (Cp_HW p s) |s.Node.HeatReturn.Temp - heatSupplySetPointTemp p s|
          s.Node.HeatReturn.Temp s.Node.HeatReturn.MassFlowRate
          (heatSupplySetPointTemp p s)).lHeatingLoad ∧
      (CalcGasAbsorberHeaterModel p s MyLoad RunFlag).HeatDeltaTemp =
        (heatSide p s.GasAbsorber (CalcGasAbsorberHeaterModel p s MyLoad RunFlag).MyLoad
          (Cp_HW p s) |s.Node.HeatReturn.Temp - heatSupplySetPointTemp p s|
          s.Node.HeatReturn.Temp s.Node.HeatReturn.MassFlowRate
          (heatSupplySetPointTemp p s)).HeatDeltaTemp ∧
      (CalcGasAbsorberHeaterModel p (withHeatReturnTemp s T) MyLoad
          RunFlag).state.GasAbsorberReport.HeatingLoad =
        (heatSide p s.GasAbsorber
          (CalcGasAbsorberHeaterModel p (withHeatReturnTemp s T) MyLoad RunFlag).MyLoad
          (Cp_HW p s) |T - heatSupplySetPointTemp p s| T s.Node.HeatReturn.MassFlowRate
          (heatSupplySetPointTemp p s)).lHeatingLoad ∧
      (CalcGasAbsorberHeaterModel p (withHeatReturnTemp s T) MyLoad RunFlag).HeatDeltaTemp =
        (heatSide p s.GasAbsorber
          (CalcGasAbsorberHeaterModel p (withHeatReturnTemp s T) MyLoad RunFlag).MyLoad
          (Cp_HW p s) |T - heatSupplySetPointTemp p s| T s.Node.HeatReturn.MassFlowRate
          (heatSupplySetPointTemp p s)).HeatDeltaTemp := by
  obtain ⟨_, e2, e3, _⟩ := heater_run p s MyLoad RunFlag hM hR
  obtain ⟨_, k2, k3, _⟩ := heater_run p (withHeatReturnTemp s T) MyLoad RunFlag hM hR
  exact ⟨rfl, rfl, e3, e2, k3, k2⟩

/-- Witness for C29: a plant whose specific heat is `4000 + T`, flow lock 2, the sample
unit with a stored capacity of 80 kW asked for 40 kW with 2 kg/s of hot water returning at
12 C or at 50 C: delta-T is `40000 / (4000 * 2) = 5` K in both calls. -/
theorem hot_water_specific_heat_looked_up_at_zero_witness :
    Cp_HW plantCpVaries (withHeatReturnTemp stateHeated 50) = Cp_HW plantCpVaries stateHeated ∧
      Cp_HW plantCpVaries stateHeated = 4000 ∧
      (CalcGasAbsorberHeaterModel plantCpVaries stateHeated 40000 true).HeatDeltaTemp = 5 ∧
      (CalcGasAbsorberHeaterModel plantCpVaries (withHeatReturnTemp stateHeated 50) 40000
        true).HeatDeltaTemp = 5 := by
  obtain ⟨_, h2, _, h4, _, h6⟩ :=
    hot_water_specific_heat_looked_up_at_zero plantCpVaries stateHeated 50 40000 true
      (by norm_num) rfl
  have hcp : Cp_HW plantCpVaries stateHeated = 4000 := by
    norm_num [Cp_HW, plantCpVaries]
  have hL : ∀ st : ModuleState, st.GasAbsorberReport = stateHeated.GasAbsorberReport →
      st.GasAbsorber = stateHeated.GasAbsorber →
      (CalcGasAbsorberHeaterModel plantCpVaries st 40000 true).MyLoad = 40000 := by
    intro st h1 h2
    have := (heater_run plantCpVaries st 40000 true (by norm_num) rfl).1
    rw [this, h1, h2]
    norm_num [clampLoad, sign, stateHeated, state0, spec0, report0]
  refine ⟨h2, hcp, ?_, ?_⟩
  · rw [h4, hL stateHeated rfl rfl, hcp]
    norm_num [heatSide, plantCpVaries, plantWith, stateHeated, state0, nodes0, node0,
      spec0]
  · rw [h6, hL (withHeatReturnTemp stateHeated 50) rfl rfl, hcp]
    norm_num [heatSide, plantCpVaries, plantWith, stateHeated, state0, nodes0, node0,
      spec0]

/-! ## C22: the stored condenser supply temperature and the other units -/

theorem calcOf_run {p : Plant} {M : ModuleData} {ChillNum : Int} {MyLoad : Real64}
    (h : ¬ chillerIdle (unitState M ChillNum) MyLoad)
    (hf : ¬ condFlowFails p (unitState M ChillNum)) :
    CalcGasAbsorberChillerModelOf p M ChillNum MyLoad =
      Except.ok (storeUnit M ChillNum (chillerRun p (unitState M ChillNum) MyLoad).state,
        chillerRun p (unitState M ChillNum) MyLoad) := by
  simp [CalcGasAbsorberChillerModelOf, calc_run h hf]

/-- The sample unit with the entering convention, asked for 40 kW whatever estimate is
stored, computes a condenser supply temperature of `29 + 118600 / (5 * 4000) = 34.93` C. -/
theorem entering_unit_supply (t : Real64) :
    (chillerRun (plantWith 0) { state0 with Calc_oldCondSupplyTemp := t }
      (-40000)).state.Calc_oldCondSupplyTemp = 3493 / 100 := by
  norm_num [chillerRun, chillerCore, chillSide, chillFlowFree, writeCoolReport, clampLoad,
    sign, coolPartLoadRatio, coolFractionOfPeriodRunning, availableCoolingCapacity,
    condSide, chillSupplySetPointTemp, Cp_CW, Cp_CD, plantWith, state0, spec0, nodes0,
    node0, report0]

/-- The sample unit with the leaving convention and condenser water returning at 30 C,
asked for 40 kW: the curves are read at the stored estimate `t` when it is not 0 and at
`30 + 8` C otherwise, and the supply temperature computed and stored is 32 C. -/
theorem leaving_unit_supply (t : Real64) :
    (chillerRun (plantWith 0) { stateLeavingWarm with Calc_oldCondSupplyTemp := t }
        (-40000)).calcCondTemp = some (if t = 0 then 38 else t) ∧
      (chillerRun (plantWith 0) { stateLeavingWarm with Calc_oldCondSupplyTemp := t }
        (-40000)).state.Calc_oldCondSupplyTemp = 32 := by
  constructor
  · rw [chillerRun_calcCondTemp]
    by_cases ht : t = 0 <;>
      norm_num [condSide, stateLeavingWarm, stateLeaving, state0, spec0, nodes0, node0, ht]
  · norm_num [chillerRun, chillerCore, chillSide, chillFlowFree, writeCoolReport, clampLoad,
      sign, coolPartLoadRatio, coolFractionOfPeriodRunning, availableCoolingCapacity,
      condSide, chillSupplySetPointTemp, Cp_CW, Cp_CD, plantWith, stateLeavingWarm,
      stateLeaving, state0, spec0, nodes0, node0, report0]

theorem calcOf_resolve {p : Plant} {M : ModuleData} {ChillNum : Int} {MyLoad : Real64}
    (h : ¬ chillerIdle (unitState M ChillNum) MyLoad)
    (hf : ¬ condFlowFails p (unitState M ChillNum)) :
    CalcGasAbsorberChillerModelOf p M ChillNum MyLoad =
      Except.ok (resolveUnit p M ChillNum MyLoad,
        chillerRun p (unitState M ChillNum) MyLoad) :=
  calcOf_run h hf

/-- C22 (does not hold of the code). Two units share the one variable
`Calc_oldCondSupplyTemp`.  Unit 2 (leaving convention) is resolved first: it reads the
curves at `30 + 8 = 38` C and stores its computed supply temperature, 32 C.  Then unit 1
is resolved: unit 2's data, report record and nodes stay as they are, but the stored
estimate becomes unit 1's supply temperature, 34.93 C.  The next resolution of unit 2
reads the curves at 34.93 C, not at the 32 C it had computed itself. -/
theorem estimate_overwritten_by_other_unit :
    ∃ MA rA MB rB MC rC,
      CalcGasAbsorberChillerModelOf (plantWith 0) twoUnits 2 (-40000) = Except.ok (MA, rA) ∧
      rA.calcCondTemp = some 38 ∧
      rA.state.GasAbsorberReport.CondSupplyTemp = 32 ∧
      MA.Calc_oldCondSupplyTemp = 32 ∧
      CalcGasAbsorberChillerModelOf (plantWith 0) MA 1 (-40000) = Except.ok (MB, rB) ∧
      MB.GasAbsorber 2 = MA.GasAbsorber 2 ∧
      MB.GasAbsorberReport 2 = MA.GasAbsorberReport 2 ∧
      MB.Node 2 = MA.Node 2 ∧
      MB.Calc_oldCondSupplyTemp = 3493 / 100 ∧
      MB.Calc_oldCondSupplyTemp ≠ MA.Calc_oldCondSupplyTemp ∧
      CalcGasAbsorberChillerModelOf (plantWith 0) MB 2 (-40000) = Except.ok (MC, rC) ∧
      rC.calcCondTemp = some (3493 / 100) ∧
      rC.calcCondTemp ≠ some rA.state.GasAbsorberReport.CondSupplyTemp := by
  have hsA : unitState twoUnits 2 = { stateLeavingWarm with Calc_oldCondSupplyTemp := 0 } :=
    rfl
  have hiA : ¬ chillerIdle (unitState twoUnits 2) (-40000) := by
    simp [chillerIdle, hsA, stateLeavingWarm, stateLeaving, state0, spec0]
  have hfA : ¬ condFlowFails (plantWith 0) (unitState twoUnits 2) := by
    norm_num [condFlowFails, condSide, hsA, stateLeavingWarm, stateLeaving, state0, spec0,
      plantWith]
  obtain ⟨a1, a2⟩ := leaving_unit_supply 0
  rw [← hsA] at a1 a2
  have a3 := chillerRun_stored (plantWith 0) (unitState twoUnits 2) (-40000)
  rw [a2] at a3
  have hMA : (resolveUnit (plantWith 0) twoUnits 2 (-40000)).Calc_oldCondSupplyTemp = 32 :=
    a2
  have hsB : unitState (resolveUnit (plantWith 0) twoUnits 2 (-40000)) 1 =
      { state0 with Calc_oldCondSupplyTemp := 32 } := by
    have h0 : unitState (resolveUnit (plantWith 0) twoUnits 2 (-40000)) 1 =
        { state0 with Calc_oldCondSupplyTemp :=
            (resolveUnit (plantWith 0) twoUnits 2 (-40000)).Calc_oldCondSupplyTemp } := rfl
    rw [h0, hMA]
  have hiB : ¬ chillerIdle (unitState (resolveUnit (plantWith 0) twoUnits 2 (-40000)) 1)
      (-40000) := by
    simp [chillerIdle, hsB, state0, spec0]
  have hfB : ¬ condFlowFails (plantWith 0)
      (unitState (resolveUnit (plantWith 0) twoUnits 2 (-40000)) 1) := by
    rw [hsB]
    norm_num [condFlowFails, condSide, state0, spec0, plantWith]
  have b2 := entering_unit_supply 32
  rw [← hsB] at b2
  have hMB : (resolveUnit (plantWith 0) (resolveUnit (plantWith 0) twoUnits 2 (-40000)) 1
      (-40000)).Calc_oldCondSupplyTemp = 3493 / 100 := b2
  have hw : (unitState (resolveUnit (plantWith 0)
      (resolveUnit (plantWith 0) twoUnits 2 (-40000)) 1 (-40000)) 2).GasAbsorber.isWaterCooled
      = true := rfl
  have he : (unitState (resolveUnit (plantWith 0)
      (resolveUnit (plantWith 0) twoUnits 2 (-40000)) 1
      (-40000)) 2).GasAbsorber.isEnterCondensTemp = false := rfl
  have hold : (unitState (resolveUnit (plantWith 0)
      (resolveUnit (plantWith 0) twoUnits 2 (-40000)) 1
      (-40000)) 2).Calc_oldCondSupplyTemp = 3493 / 100 := hMB
  have hiC : ¬ chillerIdle (unitState (resolveUnit (plantWith 0)
      (resolveUnit (plantWith 0) twoUnits 2 (-40000)) 1 (-40000)) 2) (-40000) := by
    intro hc
    rcases hc with hc | hc
    · norm_num at hc
    · exact hc (Or.inr rfl)
  have hfC : ¬ condFlowFails (plantWith 0) (unitState (resolveUnit (plantWith 0)
      (resolveUnit (plantWith 0) twoUnits 2 (-40000)) 1 (-40000)) 2) := by
    intro hc
    have h2 := hc.2
    rw [condSide_flow_waterCooled hw] at h2
    have h3 : (plantWith 0).SetComponentFlowRate
        (unitState (resolveUnit (plantWith 0)
          (resolveUnit (plantWith 0) twoUnits 2 (-40000)) 1 (-40000)) 2).GasAbsorber.CDLoopNum
        (unitState (resolveUnit (plantWith 0)
          (resolveUnit (plantWith 0) twoUnits 2 (-40000)) 1
          (-40000)) 2).GasAbsorber.DesCondMassFlowRate = 5 := rfl
    rw [h3] at h2
    norm_num [plantWith] at h2
  have c1 : (chillerRun (plantWith 0) (unitState (resolveUnit (plantWith 0)
      (resolveUnit (plantWith 0) twoUnits 2 (-40000)) 1 (-40000)) 2) (-40000)).calcCondTemp
      = some (3493 / 100) := by
    rw [chillerRun_calcCondTemp, (condSide_calcCondTemp (plantWith 0) _).2.1 hw he, hold]
    norm_num
  refine ⟨resolveUnit (plantWith 0) twoUnits 2 (-40000),
    chillerRun (plantWith 0) (unitState twoUnits 2) (-40000),
    resolveUnit (plantWith 0) (resolveUnit (plantWith 0) twoUnits 2 (-40000)) 1 (-40000),
    chillerRun (plantWith 0) (unitState (resolveUnit (plantWith 0) twoUnits 2 (-40000)) 1)
      (-40000),
    resolveUnit (plantWith 0) (resolveUnit (plantWith 0)
      (resolveUnit (plantWith 0) twoUnits 2 (-40000)) 1 (-40000)) 2 (-40000),
    chillerRun (plantWith 0) (unitState (resolveUnit (plantWith 0)
      (resolveUnit (plantWith 0) twoUnits 2 (-40000)) 1 (-40000)) 2) (-40000),
    calcOf_resolve hiA hfA, ?_, a3.symm, hMA, calcOf_resolve hiB hfB, rfl, rfl, rfl, hMB,
    ?_, calcOf_resolve hiC hfC, c1, ?_⟩
  · simpa using a1
  · rw [hMB, hMA]
    norm_num
  · rw [c1, ← a3]
    norm_num

/-! ## C7 and C27: the capacity clamp and the part load ratio in binary64 arithmetic -/

theorem roundToDouble_pos (q : ℚ) (e n : ℤ) (hlo : (2 : ℚ) ^ e ≤ q)
    (hhi : q < (2 : ℚ) ^ (e + 1)) (hn1 : (n : ℚ) - 1 / 2 < q / 2 ^ (e - 52))
    (hn2 : q / 2 ^ (e - 52) < n + 1 / 2) :
    roundToDouble q = n * 2 ^ (e - 52) := by
  have hq : 0 < q := lt_of_lt_of_le (zpow_pos (by norm_num) e) hlo
  have habs : |q| = q := abs_of_pos hq
  have hlog : Int.log 2 q = e := by
    apply le_antisymm
    · have := (Int.lt_zpow_iff_log_lt (b := 2) (by norm_num) hq (x := e + 1)).mp
        (by exact_mod_cast hhi)
      omega
    · exact (Int.zpow_le_iff_le_log (b := 2) (by norm_num) hq).mp (by exact_mod_cast hlo)
  unfold roundToDouble roundMagnitude
  rw [if_neg (ne_of_gt hq), if_neg (not_lt.mpr (le_of_lt hq))]
  simp only [habs, hlog]
  congr 1
  generalize q / 2 ^ (e - 52) = t at hn1 hn2
  by_cases hfl : (n : ℚ) ≤ t
  · have hfloor : ⌊t⌋ = n := by
      rw [Int.floor_eq_iff]
      constructor
      · exact hfl
      · linarith
    have hfr : Int.fract t = t - n := by
      rw [Int.fract, hfloor]
    rw [hfr, hfloor, if_pos (by linarith)]
  · have hfloor : ⌊t⌋ = n - 1 := by
      rw [Int.floor_eq_iff]
      push_cast
      constructor
      · linarith
      · linarith [not_le.mp hfl]
    have hfr : Int.fract t = t - (n - 1) := by
      rw [Int.fract, hfloor]
      push_cast
      ring
    rw [hfr, hfloor, if_neg (by linarith), if_pos (by linarith)]
    push_cast
    ring

theorem roundToDouble_neg (q : ℚ) : roundToDouble (-q) = -roundToDouble q := by
  unfold roundToDouble
  by_cases h0 : q = 0
  · simp [h0]
  · rw [if_neg (neg_ne_zero.mpr h0), if_neg h0, abs_neg]
    rcases lt_or_gt_of_ne h0 with h | h
    · rw [if_neg (by linarith), if_pos h, neg_neg]
    · rw [if_pos (by linarith), if_neg (by linarith)]

theorem roundToDouble_zero : roundToDouble 0 = 0 := by
  simp [roundToDouble]

/-- With no rounding the three parametrised readings are the exact ones. -/
theorem rounding_id_exact :
    clampLoadFl id = clampLoad ∧ coolPartLoadRatioFl id = coolPartLoadRatio ∧
      coolFractionOfPeriodRunningFl id = coolFractionOfPeriodRunning :=
  ⟨rfl, rfl, rfl⟩

/-- The `double` nearest to 0.1. -/
theorem double_tenth : roundToDouble (1 / 10) = 3602879701896397 / 36028797018963968 := by
  rw [roundToDouble_pos (1 / 10) (-4) 7205759403792794 (by norm_num) (by norm_num)
    (by norm_num) (by norm_num)]
  norm_num

/-- The product `82004 * 0.1` in `double`: 8200.4 rounded to 53 bits. -/
theorem double_minimum_load :
    roundToDouble (82004 * (3602879701896397 / 36028797018963968)) =
      4508217576207155 / 549755813888 := by
  rw [roundToDouble_pos _ 13 4508217576207155 (by norm_num) (by norm_num)
    (by norm_num) (by norm_num)]
  norm_num

/-- The product `82004 * 1` is a `double`. -/
theorem double_maximum_load : roundToDouble (82004 * 1) = 82004 := by
  rw [roundToDouble_pos _ 16 5635271970258944 (by norm_num) (by norm_num)
    (by norm_num) (by norm_num)]
  norm_num

/-- The quotient of the clamped load by the capacity in `double`: one unit in the last
place below the `double` nearest to 0.1. -/
theorem double_ratio :
    roundToDouble (4508217576207155 / 549755813888 / 82004) =
      7205759403792793 / 72057594037927936 := by
  rw [roundToDouble_pos _ (-4) 7205759403792793 (by norm_num) (by norm_num)
    (by norm_num) (by norm_num)]
  norm_num

theorem clampLoadFl_sample :
    clampLoadFl roundToDouble (-1000) 82004 (roundToDouble (1 / 10)) 1 =
      -(4508217576207155 / 549755813888) := by
  simp only [clampLoadFl, double_tenth, double_minimum_load, double_maximum_load]
  norm_num [sign, abs_of_pos, abs_of_neg]

theorem coolPartLoadRatioFl_sample :
    coolPartLoadRatioFl roundToDouble (-(4508217576207155 / 549755813888)) 82004
        (roundToDouble (1 / 10)) 1 = -(7205759403792793 / 72057594037927936) := by
  have h1 : |(-(4508217576207155 / 549755813888) : Real64)| =
      4508217576207155 / 549755813888 := by
    rw [abs_neg, abs_of_pos (by norm_num)]
  have h2 : (-(4508217576207155 / 549755813888) : Real64) / 82004 =
      -(4508217576207155 / 549755813888 / 82004) := by
    ring
  simp only [coolPartLoadRatioFl, h1, h2, roundToDouble_neg, double_ratio, double_tenth]
  norm_num

/-- C7 (does not hold of the code). Lines 1628-1629 and 1715-1727 evaluated in the
`double` arithmetic of the source for a unit with available cooling capacity 82004 W,
`MinPartLoadRat` 0.1 and `MaxPartLoadRat` 1 that is asked for 1000 W of cooling
(`MyLoad = -1000`): the clamped
load is `-(82004 * 0.1)` rounded, about -8200.4 W; the quotient of its magnitude by the
capacity rounds to 0.09999999999999999, one unit in the last place below the `double`
0.1, so the test of line 1720 succeeds and the cooling part load ratio that is reported is
`MyLoad / capacity`, about -0.1: negative, and so outside
`[MinPartLoadRat, MaxPartLoadRat]`. In exact arithmetic the same lines give 1/10. -/
theorem part_load_ratio_below_minimum_in_binary64 :
    roundToDouble (1 / 10) = 3602879701896397 / 36028797018963968 ∧
      clampLoadFl roundToDouble (-1000) 82004 (roundToDouble (1 / 10)) 1 =
        -(4508217576207155 / 549755813888) ∧
      coolPartLoadRatioFl roundToDouble
          (clampLoadFl roundToDouble (-1000) 82004 (roundToDouble (1 / 10)) 1) 82004
          (roundToDouble (1 / 10)) 1 = -(7205759403792793 / 72057594037927936) ∧
      ¬ (roundToDouble (1 / 10) ≤ coolPartLoadRatioFl roundToDouble
          (clampLoadFl roundToDouble (-1000) 82004 (roundToDouble (1 / 10)) 1) 82004
          (roundToDouble (1 / 10)) 1) ∧
      coolPartLoadRatio (clampLoad (-1000) 82004 (1 / 10) 1) 82004 (1 / 10) 1 = 1 / 10 := by
  refine ⟨double_tenth, clampLoadFl_sample, ?_, ?_, ?_⟩
  · rw [clampLoadFl_sample, coolPartLoadRatioFl_sample]
  · rw [clampLoadFl_sample, coolPartLoadRatioFl_sample, double_tenth]
    norm_num
  · norm_num [coolPartLoadRatio, clampLoad, sign, abs_of_pos, abs_of_neg]

/-- C27 (does not hold of the code). Lines 1628-1629 and 1715-1735 evaluated in the
`double` arithmetic of the source for the unit of C7 (available cooling capacity 82004 W,
`MinPartLoadRat` 0.1, `MaxPartLoadRat` 1, `MyLoad = -1000`) while the report record
holds a heating part load ratio of 0: the cooling part load ratio is negative, line 1731 takes the cycling branch
and `FractionOfPeriodRunning` is `min(1, max(0, ratio) / 0.1) = 0`, not 1.  The cooling
fuel use rate of line 1739, a product whose last factor is this fraction, and the cooling
electric power of line 1745, a product in which the fraction is followed by two curve
values, are then 0 whatever the other factors are.  In exact arithmetic the same lines
give the fraction 1. -/
theorem running_fraction_zero_in_binary64 :
    coolFractionOfPeriodRunningFl roundToDouble
        (coolPartLoadRatioFl roundToDouble
          (clampLoadFl roundToDouble (-1000) 82004 (roundToDouble (1 / 10)) 1) 82004
          (roundToDouble (1 / 10)) 1) 0 (roundToDouble (1 / 10)) = 0 ∧
      (∀ x : Real64, roundToDouble (x * coolFractionOfPeriodRunningFl roundToDouble
        (coolPartLoadRatioFl roundToDouble
          (clampLoadFl roundToDouble (-1000) 82004 (roundToDouble (1 / 10)) 1) 82004
          (roundToDouble (1 / 10)) 1) 0 (roundToDouble (1 / 10))) = 0) ∧
      (∀ x c1 c2 : Real64, roundToDouble (roundToDouble (roundToDouble
        (x * coolFractionOfPeriodRunningFl roundToDouble
          (coolPartLoadRatioFl roundToDouble
            (clampLoadFl roundToDouble (-1000) 82004 (roundToDouble (1 / 10)) 1) 82004
            (roundToDouble (1 / 10)) 1) 0 (roundToDouble (1 / 10))) * c1) * c2) = 0) ∧
      coolFractionOfPeriodRunning
        (coolPartLoadRatio (clampLoad (-1000) 82004 (1 / 10) 1) 82004 (1 / 10) 1) 0
        (1 / 10) = 1 := by
  have h : coolFractionOfPeriodRunningFl roundToDouble
      (coolPartLoadRatioFl roundToDouble
        (clampLoadFl roundToDouble (-1000) 82004 (roundToDouble (1 / 10)) 1) 82004
        (roundToDouble (1 / 10)) 1) 0 (roundToDouble (1 / 10)) = 0 := by
    rw [clampLoadFl_sample, coolPartLoadRatioFl_sample, double_tenth]
    have hmax : max (0 : Real64) (-(7205759403792793 / 72057594037927936)) = 0 :=
      max_eq_left (by norm_num)
    simp only [coolFractionOfPeriodRunningFl, hmax, zero_div, roundToDouble_zero]
    norm_num
  refine ⟨h, ?_, ?_, ?_⟩
  · intro x
    rw [h, mul_zero, roundToDouble_zero]
  · intro x c1 c2
    rw [h, mul_zero, roundToDouble_zero, zero_mul, roundToDouble_zero, zero_mul,
      roundToDouble_zero]
  · norm_num [coolFractionOfPeriodRunning, coolPartLoadRatio, clampLoad, sign, abs_of_pos,
      abs_of_neg]

end ChillerGasAbsorption

namespace IceRink

variable {R : Type} [LinearOrderedField R]


/-! ## The ice rink: outcome of a call -/

theorem calculateIceRink_ok {m : MathFns R} {w : World R} {d : IceRinkData R}
    {is_test : Bool} (h : fatalCheck d = none) :
    calculateIceRink m w d is_test = Except.ok (calculateIceRinkRun m w d is_test) := by
  simp [calculateIceRink, h]

theorem rink0_members : (rink0 R).Qsrcmax = -5 ∧ (rink0 R).maxmdot = 1 := by
  constructor <;>
  norm_num [rink0, initializeFirstTime, IceRinkFreezing, worldAt, rinkInput]

theorem rink0_fatalCheck : fatalCheck (rink0 R) = none := by
  simp [fatalCheck, rink0, initializeFirstTime, rinkInput, SurfaceTempControl,
    BrineOutletTempControl]

/-! ## Members after the preparation part of a call -/

theorem prepare_operation (w : World R) (d : IceRinkData R) (is_test : Bool) :
    (prepare w d is_test).operation = w.GetCurrentScheduleValue d.IceSetptSchedPtr := by
  cases is_test <;> by_cases h : d.ControlStrategy = BrineOutletTempControl <;>
    simp [prepare, readSetPoint, fetchCoeffs, readSurface, h]

theorem prepare_Tsurfin2 (w : World R) (d : IceRinkData R) (is_test : Bool) :
    (prepare w d is_test).Tsurfin2 = w.TH 1 2 d.SurfacePtr := by
  cases is_test <;> by_cases h : d.ControlStrategy = BrineOutletTempControl <;>
    simp [prepare, readSetPoint, fetchCoeffs, readSurface, h]

theorem prepare_IceSetPointTemp (w : World R) (d : IceRinkData R) (is_test : Bool) :
    (prepare w d is_test).IceSetPointTemp = d.IceSetPointTemp := by
  cases is_test <;> by_cases h : d.ControlStrategy = BrineOutletTempControl <;>
    simp [prepare, readSetPoint, fetchCoeffs, readSurface, h]

theorem prepare_SurfacePtr (w : World R) (d : IceRinkData R) (is_test : Bool) :
    (prepare w d is_test).SurfacePtr = d.SurfacePtr := by
  cases is_test <;> by_cases h : d.ControlStrategy = BrineOutletTempControl <;>
    simp [prepare, readSetPoint, fetchCoeffs, readSurface, h]

theorem prepare_RefrigTempIn (w : World R) (d : IceRinkData R) (is_test : Bool) :
    (prepare w d is_test).RefrigTempIn = w.NodeTemp d.InNode := by
  cases is_test <;> by_cases h : d.ControlStrategy = BrineOutletTempControl <;>
    simp [prepare, readSetPoint, fetchCoeffs, readSurface, h]

theorem prepare_CpRefrig (w : World R) (d : IceRinkData R) (is_test : Bool) :
    (prepare w d is_test).CpRefrig = w.GetSpecificHeatGlycol d.LoopNum (w.NodeTemp d.InNode) := by
  cases is_test <;> by_cases h : d.ControlStrategy = BrineOutletTempControl <;>
    simp [prepare, readSetPoint, fetchCoeffs, readSurface, h]

theorem prepare_maxmdot (w : World R) (d : IceRinkData R) (is_test : Bool) :
    (prepare w d is_test).maxmdot = d.maxmdot := by
  cases is_test <;> by_cases h : d.ControlStrategy = BrineOutletTempControl <;>
    simp [prepare, readSetPoint, fetchCoeffs, readSurface, h]

theorem prepare_Qsrcmax (w : World R) (d : IceRinkData R) (is_test : Bool) :
    (prepare w d is_test).Qsrcmax = d.Qsrcmax := by
  cases is_test <;> by_cases h : d.ControlStrategy = BrineOutletTempControl <;>
    simp [prepare, readSetPoint, fetchCoeffs, readSurface, h]

theorem prepare_LoopNum (w : World R) (d : IceRinkData R) (is_test : Bool) :
    (prepare w d is_test).LoopNum = d.LoopNum := by
  cases is_test <;> by_cases h : d.ControlStrategy = BrineOutletTempControl <;>
    simp [prepare, readSetPoint, fetchCoeffs, readSurface, h]

theorem prepare_TubeDiameter (w : World R) (d : IceRinkData R) (is_test : Bool) :
    (prepare w d is_test).TubeDiameter = d.TubeDiameter := by
  cases is_test <;> by_cases h : d.ControlStrategy = BrineOutletTempControl <;>
    simp [prepare, readSetPoint, fetchCoeffs, readSurface, h]

theorem prepare_TubeLength (w : World R) (d : IceRinkData R) (is_test : Bool) :
    (prepare w d is_test).TubeLength = d.TubeLength := by
  cases is_test <;> by_cases h : d.ControlStrategy = BrineOutletTempControl <;>
    simp [prepare, readSetPoint, fetchCoeffs, readSurface, h]

theorem prepare_LengthRink (w : World R) (d : IceRinkData R) (is_test : Bool) :
    (prepare w d is_test).LengthRink = d.LengthRink := by
  cases is_test <;> by_cases h : d.ControlStrategy = BrineOutletTempControl <;>
    simp [prepare, readSetPoint, fetchCoeffs, readSurface, h]

theorem prepare_WidthRink (w : World R) (d : IceRinkData R) (is_test : Bool) :
    (prepare w d is_test).WidthRink = d.WidthRink := by
  cases is_test <;> by_cases h : d.ControlStrategy = BrineOutletTempControl <;>
    simp [prepare, readSetPoint, fetchCoeffs, readSurface, h]

theorem prepare_IceThickness (w : World R) (d : IceRinkData R) (is_test : Bool) :
    (prepare w d is_test).IceThickness = d.IceThickness := by
  cases is_test <;> by_cases h : d.ControlStrategy = BrineOutletTempControl <;>
    simp [prepare, readSetPoint, fetchCoeffs, readSurface, h]

theorem prepare_Increments (w : World R) (d : IceRinkData R) (is_test : Bool) :
    (prepare w d is_test).Increments = d.Increments := by
  cases is_test <;> by_cases h : d.ControlStrategy = BrineOutletTempControl <;>
    simp [prepare, readSetPoint, fetchCoeffs, readSurface, h]

theorem prepare_SecInHour (w : World R) (d : IceRinkData R) (is_test : Bool) :
    (prepare w d is_test).SecInHour = d.SecInHour := by
  cases is_test <;> by_cases h : d.ControlStrategy = BrineOutletTempControl <;>
    simp [prepare, readSetPoint, fetchCoeffs, readSurface, h]

theorem prepare_RhoWater (w : World R) (d : IceRinkData R) (is_test : Bool) :
    (prepare w d is_test).RhoWater = w.GetDensityWater (w.TempSurfIn d.SurfacePtr) := by
  cases is_test <;> by_cases h : d.ControlStrategy = BrineOutletTempControl <;>
    simp [prepare, readSetPoint, fetchCoeffs, readSurface, h]

theorem prepare_CpWater (w : World R) (d : IceRinkData R) (is_test : Bool) :
    (prepare w d is_test).CpWater = w.GetSpecificHeatWater (w.TempSurfIn d.SurfacePtr) := by
  cases is_test <;> by_cases h : d.ControlStrategy = BrineOutletTempControl <;>
    simp [prepare, readSetPoint, fetchCoeffs, readSurface, h]

theorem calcEffectiveness_prepare (m : MathFns R) (w : World R) (d : IceRinkData R)
    (is_test : Bool) (T x : R) :
    calcEffectiveness m w (prepare w d is_test) T x = calcEffectiveness m w d T x := by
  simp only [calcEffectiveness, ntu, nuseltNum, reynoldsNum, prepare_LoopNum,
    prepare_TubeDiameter, prepare_TubeLength]

/-! ## Members after the operating branch -/

theorem operate_off (m : MathFns R) (w : World R) (d : IceRinkData R)
    (h : d.operation ≠ 1 ∨ d.Tsurfin2 ≤ d.IceSetPointTemp) :
    operate m w d = rinkOff d := by
  unfold operate
  by_cases h1 : d.operation = 1
  · rcases h with h | h
    · exact absurd h1 h
    · simp [h1, h]
  · simp [h1]

theorem operate_on (m : MathFns R) (w : World R) (d : IceRinkData R)
    (h1 : d.operation = 1) (h2 : d.IceSetPointTemp < d.Tsurfin2) :
    operate m w d = rinkOn m w d := by
  unfold operate
  simp [h1, not_le.mpr h2]

theorem run_source_at (m : MathFns R) (w : World R) (d : IceRinkData R) (is_test : Bool) :
    (calculateIceRinkRun m w d is_test).QRadSysSource d.SurfacePtr =
      (operate m w (prepare w d is_test)).Q := by
  simp [calculateIceRinkRun]

theorem run_LoadMet (m : MathFns R) (w : World R) (d : IceRinkData R) (is_test : Bool) :
    (calculateIceRinkRun m w d is_test).LoadMet =
      (calculateIceRinkRun m w d is_test).QRadSysSource d.SurfacePtr := rfl

theorem run_source_frame (m : MathFns R) (w : World R) (d : IceRinkData R)
    (is_test : Bool) (n : Int) (h : n ≠ d.SurfacePtr) :
    (calculateIceRinkRun m w d is_test).QRadSysSource n = w.QRadSysSource n := by
  simp [calculateIceRinkRun, Function.update_noteq h]

theorem run_ReqMassFlow (m : MathFns R) (w : World R) (d : IceRinkData R) (is_test : Bool) :
    (calculateIceRinkRun m w d is_test).rink.ReqMassFlow =
      (operate m w (prepare w d is_test)).ReqMassFlow := by
  simp only [calculateIceRinkRun]
  split_ifs <;> rfl

theorem run_RefrigMassFlow (m : MathFns R) (w : World R) (d : IceRinkData R) (is_test : Bool) :
    (calculateIceRinkRun m w d is_test).rink.RefrigMassFlow =
      (operate m w (prepare w d is_test)).RefrigMassFlow := by
  simp only [calculateIceRinkRun]
  split_ifs <;> rfl

theorem run_PastRefrigMassFlow (m : MathFns R) (w : World R) (d : IceRinkData R) (is_test : Bool) :
    (calculateIceRinkRun m w d is_test).rink.PastRefrigMassFlow =
      (operate m w (prepare w d is_test)).PastRefrigMassFlow := by
  simp only [calculateIceRinkRun]
  split_ifs <;> rfl

theorem run_Q (m : MathFns R) (w : World R) (d : IceRinkData R) (is_test : Bool) :
    (calculateIceRinkRun m w d is_test).rink.Q =
      (operate m w (prepare w d is_test)).Q := by
  simp only [calculateIceRinkRun]
  split_ifs <;> rfl

theorem run_Effectiveness (m : MathFns R) (w : World R) (d : IceRinkData R) (is_test : Bool) :
    (calculateIceRinkRun m w d is_test).rink.Effectiveness =
      (operate m w (prepare w d is_test)).Effectiveness := by
  simp only [calculateIceRinkRun]
  split_ifs <;> rfl

theorem run_Qsetpoint (m : MathFns R) (w : World R) (d : IceRinkData R) (is_test : Bool) :
    (calculateIceRinkRun m w d is_test).rink.Qsetpoint =
      (operate m w (prepare w d is_test)).Qsetpoint := by
  simp only [calculateIceRinkRun]
  split_ifs <;> rfl


/-! ## C14: rates and energies -/

theorem round_trip (x a b : R) (ha : a ≠ 0) (hb : b ≠ 0) : x * a * b / (a * b) = x := by
  rw [mul_assoc]
  exact mul_div_cancel_right₀ x (mul_ne_zero ha hb)

/-- C14. For every report record, load and run flag, with `TimeStepSys` and `SecInHour`
not zero: `UpdateGasAbsorberCoolRecords` leaves the six rates (cooling load, tower load,
fuel use, cooling fuel use, electric power, cooling electric power) as they are and sets
each energy to its rate times `TimeStepSys * SecInHour`, so the energy divided by
`TimeStepSys * SecInHour` is the rate again; `UpdateGasAbsorberHeatRecords` does the same
for heating load, fuel use, heating fuel use, electric power and heating electric power;
`IceRinkData::report` sets `CoolPower` to `|LoadMet| / COP` and `CoolEnergy` to `CoolPower`
times `TimeStepSys` times the member `SecInHour`, with the same round trip. -/
theorem energy_is_rate_times_time_step (p : ChillerGasAbsorption.Plant)
    (s : ChillerGasAbsorption.ModuleState) (MyLoad : ChillerGasAbsorption.Real64)
    (RunFlag : Bool) (w : World R) (d : IceRinkData R)
    (hT : p.TimeStepSys ≠ 0) (hS : p.SecInHour ≠ 0)
    (hTr : w.TimeStepSys ≠ 0) (hSr : d.SecInHour ≠ 0) :
      ((ChillerGasAbsorption.UpdateGasAbsorberCoolRecords p s MyLoad RunFlag).GasAbsorberReport.CoolingLoad =
          s.GasAbsorberReport.CoolingLoad ∧
        (ChillerGasAbsorption.UpdateGasAbsorberCoolRecords p s MyLoad RunFlag).GasAbsorberReport.CoolingEnergy =
          s.GasAbsorberReport.CoolingLoad * p.TimeStepSys * p.SecInHour ∧
        (ChillerGasAbsorption.UpdateGasAbsorberCoolRecords p s MyLoad RunFlag).GasAbsorberReport.CoolingEnergy /
            (p.TimeStepSys * p.SecInHour) =
          (ChillerGasAbsorption.UpdateGasAbsorberCoolRecords p s MyLoad RunFlag).GasAbsorberReport.CoolingLoad) ∧
      ((ChillerGasAbsorption.UpdateGasAbsorberCoolRecords p s MyLoad RunFlag).GasAbsorberReport.TowerLoad =
          s.GasAbsorberReport.TowerLoad ∧
        (ChillerGasAbsorption.UpdateGasAbsorberCoolRecords p s MyLoad RunFlag).GasAbsorberReport.TowerEnergy =
          s.GasAbsorberReport.TowerLoad * p.TimeStepSys * p.SecInHour ∧
        (ChillerGasAbsorption.UpdateGasAbsorberCoolRecords p s MyLoad RunFlag).GasAbsorberReport.TowerEnergy /
            (p.TimeStepSys * p.SecInHour) =
          (ChillerGasAbsorption.UpdateGasAbsorberCoolRecords p s MyLoad RunFlag).GasAbsorberReport.TowerLoad) ∧
      ((ChillerGasAbsorption.UpdateGasAbsorberCoolRecords p s MyLoad RunFlag).GasAbsorberReport.FuelUseRate =
          s.GasAbsorberReport.FuelUseRate ∧
        (ChillerGasAbsorption.UpdateGasAbsorberCoolRecords p s MyLoad RunFlag).GasAbsorberReport.FuelEnergy =
          s.GasAbsorberReport.FuelUseRate * p.TimeStepSys * p.SecInHour ∧
        (ChillerGasAbsorption.UpdateGasAbsorberCoolRecords p s MyLoad RunFlag).GasAbsorberReport.FuelEnergy /
            (p.TimeStepSys * p.SecInHour) =
          (ChillerGasAbsorption.UpdateGasAbsorberCoolRecords p s MyLoad RunFlag).GasAbsorberReport.FuelUseRate) ∧
      ((ChillerGasAbsorption.UpdateGasAbsorberCoolRecords p s MyLoad RunFlag).GasAbsorberReport.CoolFuelUseRate =
          s.GasAbsorberReport.CoolFuelUseRate ∧
        (ChillerGasAbsorption.UpdateGasAbsorberCoolRecords p s MyLoad RunFlag).GasAbsorberReport.CoolFuelEnergy =
          s.GasAbsorberReport.CoolFuelUseRate * p.TimeStepSys * p.SecInHour ∧
        (ChillerGasAbsorption.UpdateGasAbsorberCoolRecords p s MyLoad RunFlag).GasAbsorberReport.CoolFuelEnergy /
            (p.TimeStepSys * p.SecInHour) =
          (ChillerGasAbsorption.UpdateGasAbsorberCoolRecords p s MyLoad RunFlag).GasAbsorberReport.CoolFuelUseRate) ∧
      ((ChillerGasAbsorption.UpdateGasAbsorberCoolRecords p s MyLoad RunFlag).GasAbsorberReport.ElectricPower =
          s.GasAbsorberReport.ElectricPower ∧
        (ChillerGasAbsorption.UpdateGasAbsorberCoolRecords p s MyLoad RunFlag).GasAbsorberReport.ElectricEnergy =
          s.GasAbsorberReport.ElectricPower * p.TimeStepSys * p.SecInHour ∧
        (ChillerGasAbsorption.UpdateGasAbsorberCoolRecords p s MyLoad RunFlag).GasAbsorberReport.ElectricEnergy /
            (p.TimeStepSys * p.SecInHour) =
          (ChillerGasAbsorption.UpdateGasAbsorberCoolRecords p s MyLoad RunFlag).GasAbsorberReport.ElectricPower) ∧
      ((ChillerGasAbsorption.UpdateGasAbsorberCoolRecords p s MyLoad RunFlag).GasAbsorberReport.CoolElectricPower =
          s.GasAbsorberReport.CoolElectricPower ∧
        (ChillerGasAbsorption.UpdateGasAbsorberCoolRecords p s MyLoad RunFlag).GasAbsorberReport.CoolElectricEnergy =
          s.GasAbsorberReport.CoolElectricPower * p.TimeStepSys * p.SecInHour ∧
        (ChillerGasAbsorption.UpdateGasAbsorberCoolRecords p s MyLoad RunFlag).GasAbsorberReport.CoolElectricEnergy /
            (p.TimeStepSys * p.SecInHour) =
          (ChillerGasAbsorption.UpdateGasAbsorberCoolRecords p s MyLoad RunFlag).GasAbsorberReport.CoolElectricPower) ∧
      ((ChillerGasAbsorption.UpdateGasAbsorberHeatRecords p s MyLoad RunFlag).GasAbsorberReport.HeatingLoad =
          s.GasAbsorberReport.HeatingLoad ∧
        (ChillerGasAbsorption.UpdateGasAbsorberHeatRecords p s MyLoad RunFlag).GasAbsorberReport.HeatingEnergy =
          s.GasAbsorberReport.HeatingLoad * p.TimeStepSys * p.SecInHour ∧
        (ChillerGasAbsorption.UpdateGasAbsorberHeatRecords p s MyLoad RunFlag).GasAbsorberReport.HeatingEnergy /
            (p.TimeStepSys * p.SecInHour) =
          (ChillerGasAbsorption.UpdateGasAbsorberHeatRecords p s MyLoad RunFlag).GasAbsorberReport.HeatingLoad) ∧
      ((ChillerGasAbsorption.UpdateGasAbsorberHeatRecords p s MyLoad RunFlag).GasAbsorberReport.FuelUseRate =
          s.GasAbsorberReport.FuelUseRate ∧
        (ChillerGasAbsorption.UpdateGasAbsorberHeatRecords p s MyLoad RunFlag).GasAbsorberReport.FuelEnergy =
          s.GasAbsorberReport.FuelUseRate * p.TimeStepSys * p.SecInHour ∧
        (ChillerGasAbsorption.UpdateGasAbsorberHeatRecords p s MyLoad RunFlag).GasAbsorberReport.FuelEnergy /
            (p.TimeStepSys * p.SecInHour) =
          (ChillerGasAbsorption.UpdateGasAbsorberHeatRecords p s MyLoad RunFlag).GasAbsorberReport.FuelUseRate) ∧
      ((ChillerGasAbsorption.UpdateGasAbsorberHeatRecords p s MyLoad RunFlag).GasAbsorberReport.HeatFuelUseRate =
          s.GasAbsorberReport.HeatFuelUseRate ∧
        (ChillerGasAbsorption.UpdateGasAbsorberHeatRecords p s MyLoad RunFlag).GasAbsorberReport.HeatFuelEnergy =
          s.GasAbsorberReport.HeatFuelUseRate * p.TimeStepSys * p.SecInHour ∧
        (ChillerGasAbsorption.UpdateGasAbsorberHeatRecords p s MyLoad RunFlag).GasAbsorberReport.HeatFuelEnergy /
            (p.TimeStepSys * p.SecInHour) =
          (ChillerGasAbsorption.UpdateGasAbsorberHeatRecords p s MyLoad RunFlag).GasAbsorberReport.HeatFuelUseRate) ∧
      ((ChillerGasAbsorption.UpdateGasAbsorberHeatRecords p s MyLoad RunFlag).GasAbsorberReport.ElectricPower =
          s.GasAbsorberReport.ElectricPower ∧
        (ChillerGasAbsorption.UpdateGasAbsorberHeatRecords p s MyLoad RunFlag).GasAbsorberReport.ElectricEnergy =
          s.GasAbsorberReport.ElectricPower * p.TimeStepSys * p.SecInHour ∧
        (ChillerGasAbsorption.UpdateGasAbsorberHeatRecords p s MyLoad RunFlag).GasAbsorberReport.ElectricEnergy /
            (p.TimeStepSys * p.SecInHour) =
          (ChillerGasAbsorption.UpdateGasAbsorberHeatRecords p s MyLoad RunFlag).GasAbsorberReport.ElectricPower) ∧
      ((ChillerGasAbsorption.UpdateGasAbsorberHeatRecords p s MyLoad RunFlag).GasAbsorberReport.HeatElectricPower =
          s.GasAbsorberReport.HeatElectricPower ∧
        (ChillerGasAbsorption.UpdateGasAbsorberHeatRecords p s MyLoad RunFlag).GasAbsorberReport.HeatElectricEnergy =
          s.GasAbsorberReport.HeatElectricPower * p.TimeStepSys * p.SecInHour ∧
        (ChillerGasAbsorption.UpdateGasAbsorberHeatRecords p s MyLoad RunFlag).GasAbsorberReport.HeatElectricEnergy /
            (p.TimeStepSys * p.SecInHour) =
          (ChillerGasAbsorption.UpdateGasAbsorberHeatRecords p s MyLoad RunFlag).GasAbsorberReport.HeatElectricPower) ∧
      ((report w d).CoolPower = |d.LoadMet| / d.COP ∧
        (report w d).CoolEnergy = (report w d).CoolPower * w.TimeStepSys * d.SecInHour ∧
        (report w d).CoolEnergy / (w.TimeStepSys * d.SecInHour) = (report w d).CoolPower) :=
  ⟨⟨rfl, rfl, round_trip _ _ _ hT hS⟩,
    ⟨rfl, rfl, round_trip _ _ _ hT hS⟩,
    ⟨rfl, rfl, round_trip _ _ _ hT hS⟩,
    ⟨rfl, rfl, round_trip _ _ _ hT hS⟩,
    ⟨rfl, rfl, round_trip _ _ _ hT hS⟩,
    ⟨rfl, rfl, round_trip _ _ _ hT hS⟩,
    ⟨rfl, rfl, round_trip _ _ _ hT hS⟩,
    ⟨rfl, rfl, round_trip _ _ _ hT hS⟩,
    ⟨rfl, rfl, round_trip _ _ _ hT hS⟩,
    ⟨rfl, rfl, round_trip _ _ _ hT hS⟩,
    ⟨rfl, rfl, round_trip _ _ _ hT hS⟩,
    ⟨rfl, rfl, round_trip _ _ _ hTr hSr⟩⟩

/-- Witness for C14: the sample absorber (time step 1/4 h) and the sample rink. -/
theorem energy_is_rate_times_time_step_witness :
    (ChillerGasAbsorption.UpdateGasAbsorberCoolRecords (ChillerGasAbsorption.plantWith 0)
          ChillerGasAbsorption.stateHeated 40000 true).GasAbsorberReport.CoolElectricEnergy /
        ((ChillerGasAbsorption.plantWith 0).TimeStepSys *
          (ChillerGasAbsorption.plantWith 0).SecInHour) =
      (ChillerGasAbsorption.UpdateGasAbsorberCoolRecords (ChillerGasAbsorption.plantWith 0)
        ChillerGasAbsorption.stateHeated 40000 true).GasAbsorberReport.CoolElectricPower ∧
      (report (worldAt ℝ 1 1) (rink0 ℝ)).CoolEnergy /
          ((worldAt ℝ 1 1).TimeStepSys * (rink0 ℝ).SecInHour) =
        (report (worldAt ℝ 1 1) (rink0 ℝ)).CoolPower :=
  ⟨(energy_is_rate_times_time_step (ChillerGasAbsorption.plantWith 0)
      ChillerGasAbsorption.stateHeated 40000 true (worldAt ℝ 1 1) (rink0 ℝ)
      (by norm_num [ChillerGasAbsorption.plantWith])
      (by norm_num [ChillerGasAbsorption.plantWith])
      (by norm_num [worldAt])
      (by norm_num [rink0, initializeFirstTime, rinkInput])).2.2.2.2.2.1.2.2,
    (energy_is_rate_times_time_step (ChillerGasAbsorption.plantWith 0)
      ChillerGasAbsorption.stateHeated 40000 true (worldAt ℝ 1 1) (rink0 ℝ)
      (by norm_num [ChillerGasAbsorption.plantWith])
      (by norm_num [ChillerGasAbsorption.plantWith])
      (by norm_num [worldAt])
      (by norm_num [rink0, initializeFirstTime, rinkInput])).2.2.2.2.2.2.2.2.2.2.2.2.2⟩


/-! ## C15: the rink switched off -/

/-- C15. For every call of `calculateIceRink` that passes the fatal checks in which the
value of the operation schedule is not 1 (off), or in which the slab surface temperature
`TH(1, 2, SurfNum)` is at or below `IceSetPointTemp` (equality included): the call returns,
the heat source written to `QRadSysSource(SurfNum)` is 0, so are `LoadMet` and `Q`, and
the required, the actual and the stored past refrigerant mass flow are all 0. -/
theorem rink_off_zero_source_and_flows (m : MathFns R) (w : World R) (d : IceRinkData R)
    (is_test : Bool) (hf : fatalCheck d = none)
    (h : w.GetCurrentScheduleValue d.IceSetptSchedPtr ≠ 1 ∨
      w.TH 1 2 d.SurfacePtr ≤ d.IceSetPointTemp) :
    ∃ r, calculateIceRink m w d is_test = Except.ok r ∧
      r.QRadSysSource d.SurfacePtr = 0 ∧ r.LoadMet = 0 ∧ r.rink.Q = 0 ∧
      r.rink.ReqMassFlow = 0 ∧ r.rink.RefrigMassFlow = 0 ∧
      r.rink.PastRefrigMassFlow = 0 := by
  have hoff : operate m w (prepare w d is_test) = rinkOff (prepare w d is_test) := by
    apply operate_off
    rw [prepare_operation, prepare_Tsurfin2, prepare_IceSetPointTemp]
    exact h
  refine ⟨calculateIceRinkRun m w d is_test, calculateIceRink_ok hf, ?_, ?_, ?_, ?_, ?_, ?_⟩
  · rw [run_source_at, hoff]
    rfl
  · rw [run_LoadMet, run_source_at, hoff]
    rfl
  · rw [run_Q, hoff]
    rfl
  · rw [run_ReqMassFlow, hoff]
    rfl
  · rw [run_RefrigMassFlow, hoff]
    rfl
  · rw [run_PastRefrigMassFlow, hoff]
    rfl

/-- Witness for C15: the sample rink with the slab surface exactly at the ice set point of
-2 C and the schedule on; the source array held 7 before the call. -/
theorem rink_off_zero_source_and_flows_witness :
    (worldAt ℝ 1 (-2)).QRadSysSource (rink0 ℝ).SurfacePtr = 7 ∧
      ∃ r, calculateIceRink realMath (worldAt ℝ 1 (-2)) (rink0 ℝ) false = Except.ok r ∧
        r.QRadSysSource (rink0 ℝ).SurfacePtr = 0 ∧ r.LoadMet = 0 ∧ r.rink.Q = 0 ∧
        r.rink.ReqMassFlow = 0 ∧ r.rink.RefrigMassFlow = 0 ∧
        r.rink.PastRefrigMassFlow = 0 :=
  ⟨rfl, rink_off_zero_source_and_flows realMath (worldAt ℝ 1 (-2)) (rink0 ℝ) false
    rink0_fatalCheck
    (Or.inr (by norm_num [worldAt, rink0, initializeFirstTime, rinkInput]))⟩


/-! ## The operating branches -/

/-- The target rate of a call in terms of the data read by the call. -/
theorem targetRate_prepare (w : World R) (d : IceRinkData R) (is_test : Bool) :
    targetRate (prepare w d is_test) =
      if w.TH 1 2 d.SurfacePtr ≥ 0 then
        w.GetDensityWater (w.TempSurfIn d.SurfacePtr) *
            (d.LengthRink * d.WidthRink * d.IceThickness) *
            (w.GetSpecificHeatWater (w.TempSurfIn d.SurfacePtr) * w.TH 1 2 d.SurfacePtr +
              333550 - 2040 * d.IceSetPointTemp) /
          (d.Increments * d.SecInHour)
      else
        917 * (d.LengthRink * d.WidthRink * d.IceThickness) *
            (2040 * (w.TH 1 2 d.SurfacePtr - d.IceSetPointTemp)) /
          (d.Increments * d.SecInHour) := by
  simp only [targetRate, prepare_Tsurfin2, prepare_RhoWater, prepare_CpWater,
    prepare_LengthRink, prepare_WidthRink, prepare_IceThickness, prepare_IceSetPointTemp,
    prepare_Increments, prepare_SecInHour]

/-- The members an operating call (schedule value 1, slab surface above the ice set
point) leaves behind. -/
theorem run_on (m : MathFns R) (w : World R) (d : IceRinkData R) (is_test : Bool)
    (hop : w.GetCurrentScheduleValue d.IceSetptSchedPtr = 1)
    (hT : d.IceSetPointTemp < w.TH 1 2 d.SurfacePtr) :
    (calculateIceRinkRun m w d is_test).rink.Qsetpoint = targetRate (prepare w d is_test) ∧
      (calculateIceRinkRun m w d is_test).rink.ReqMassFlow =
        (if |targetRate (prepare w d is_test) /
              (w.GetSpecificHeatGlycol d.LoopNum (w.NodeTemp d.InNode) *
                (w.TH 1 2 d.SurfacePtr - w.NodeTemp d.InNode))| > d.maxmdot
          then d.maxmdot
          else |targetRate (prepare w d is_test) /
              (w.GetSpecificHeatGlycol d.LoopNum (w.NodeTemp d.InNode) *
                (w.TH 1 2 d.SurfacePtr - w.NodeTemp d.InNode))|) ∧
      (calculateIceRinkRun m w d is_test).rink.RefrigMassFlow =
        (calculateIceRinkRun m w d is_test).rink.ReqMassFlow ∧
      (calculateIceRinkRun m w d is_test).rink.PastRefrigMassFlow =
        (calculateIceRinkRun m w d is_test).rink.ReqMassFlow ∧
      (calculateIceRinkRun m w d is_test).rink.Effectiveness =
        calcEffectiveness m w d (w.NodeTemp d.InNode)
          (calculateIceRinkRun m w d is_test).rink.ReqMassFlow ∧
      (calculateIceRinkRun m w d is_test).rink.Q =
        (if -((calculateIceRinkRun m w d is_test).rink.Effectiveness *
              (calculateIceRinkRun m w d is_test).rink.Qsetpoint) <
            (calculateIceRinkRun m w d is_test).rink.Effectiveness * d.Qsrcmax
          then (calculateIceRinkRun m w d is_test).rink.Effectiveness * d.Qsrcmax
          else -((calculateIceRinkRun m w d is_test).rink.Effectiveness *
              (calculateIceRinkRun m w d is_test).rink.Qsetpoint)) ∧
      (calculateIceRinkRun m w d is_test).QRadSysSource d.SurfacePtr =
        (calculateIceRinkRun m w d is_test).rink.Q := by
  have hon : operate m w (prepare w d is_test) = rinkOn m w (prepare w d is_test) := by
    apply operate_on
    · rw [prepare_operation]
      exact hop
    · rw [prepare_Tsurfin2, prepare_IceSetPointTemp]
      exact hT
  rw [run_Qsetpoint, run_ReqMassFlow, run_RefrigMassFlow, run_PastRefrigMassFlow,
    run_Effectiveness, run_Q, run_source_at, hon]
  simp only [rinkOn, prepare_CpRefrig, prepare_Tsurfin2, prepare_RefrigTempIn,
    prepare_maxmdot, prepare_Qsrcmax, calcEffectiveness_prepare, and_self]

theorem ite_gt_eq_min (a b : R) : (if a > b then b else a) = min a b := by
  split_ifs with h
  · exact (min_eq_right (le_of_lt h)).symm
  · exact (min_eq_left (not_lt.mp h)).symm

theorem ite_lt_eq_max (a b : R) : (if a < b then b else a) = max a b := by
  split_ifs with h
  · exact (max_eq_right (le_of_lt h)).symm
  · exact (max_eq_left (not_lt.mp h)).symm

/-! ## The sample rink -/

/-- In the sample surroundings a flow of at most 1 kg/s through the 100 m tubes is laminar
with `NTU = 366 * Pi / flow > 50`: the effectiveness is 1. -/
theorem sample_effectiveness (s T Tin x : ℝ) (hx : 0 < x) (hx1 : x ≤ 1) :
    calcEffectiveness realMath (worldAt ℝ s T) (rink0 ℝ) Tin x = 1 := by
  have hpi := Real.pi_gt_three
  have hre : ¬ (4 * x / Real.pi ≥ 2300) := by
    rw [ge_iff_le, not_le, div_lt_iff₀ (by linarith)]
    nlinarith
  have hntu : Real.pi * (366 / 100) * 100 / x > 50 := by
    rw [gt_iff_lt, lt_div_iff₀ hx]
    nlinarith
  simp only [calcEffectiveness, effectivenessOfNTU, ntu, nuseltNum, reynoldsNum, worldAt,
    rink0, initializeFirstTime, rinkInput, realMath, mul_one]
  rw [if_neg hre, if_pos hntu]


/-! ## C16: the flow limit and the source -/

/-- The sample rink with the slab surface at `T` above -2 C and the schedule on: the
target rate, the refrigerant flow and the source after the call, in terms of the target
rate `q` of the call. -/
theorem sample_run (T q : ℝ) (hT : -2 < T)
    (hq : targetRate (prepare (worldAt ℝ 1 T) (rink0 ℝ) false) = q)
    (hreq : 1 < |q / (T + 3 / 2)|) :
    (calculateIceRinkRun realMath (worldAt ℝ 1 T) (rink0 ℝ) false).rink.Qsetpoint = q ∧
      (calculateIceRinkRun realMath (worldAt ℝ 1 T) (rink0 ℝ) false).rink.RefrigMassFlow
        = 1 ∧
      (calculateIceRinkRun realMath (worldAt ℝ 1 T) (rink0 ℝ) false).rink.Effectiveness
        = 1 ∧
      (calculateIceRinkRun realMath (worldAt ℝ 1 T) (rink0 ℝ) false).QRadSysSource
          (rink0 ℝ).SurfacePtr = max (-q) (-5) := by
  have hop : (worldAt ℝ 1 T).GetCurrentScheduleValue (rink0 ℝ).IceSetptSchedPtr = 1 := rfl
  have hT2 : (rink0 ℝ).IceSetPointTemp < (worldAt ℝ 1 T).TH 1 2 (rink0 ℝ).SurfacePtr := by
    norm_num [worldAt, rink0, initializeFirstTime, rinkInput]
    exact hT
  obtain ⟨e1, e2, e3, _, e5, e6, e7⟩ :=
    run_on realMath (worldAt ℝ 1 T) (rink0 ℝ) false hop hT2
  have hmax : (rink0 ℝ).maxmdot = 1 := rink0_members.2
  have hsrc : (rink0 ℝ).Qsrcmax = -5 := rink0_members.1
  have hden : (worldAt ℝ 1 T).GetSpecificHeatGlycol (rink0 ℝ).LoopNum
      ((worldAt ℝ 1 T).NodeTemp (rink0 ℝ).InNode) *
      ((worldAt ℝ 1 T).TH 1 2 (rink0 ℝ).SurfacePtr -
        (worldAt ℝ 1 T).NodeTemp (rink0 ℝ).InNode) = T + 3 / 2 := by
    norm_num [worldAt]
  rw [hq, hden, hmax, if_pos hreq] at e2
  rw [e2] at e3 e5
  rw [sample_effectiveness 1 T _ 1 one_pos le_rfl] at e5
  rw [hq] at e1
  rw [e5, e1, hsrc, ite_lt_eq_max, one_mul, one_mul] at e6
  rw [e6] at e7
  exact ⟨e1, e3, e5, e7⟩

/-- Counterexample to C16 as stated. The sample rink with the slab surface at 1 C: the
target rate is 34163/360 W (about 94.9 W), the unclamped requirement 34163/900 kg/s exceeds
`maxmdot = 1`, the flow is `maxmdot`, the effectiveness at `maxmdot` is 1, yet the source
written is `Effectiveness * Qsrcmax = -5 W`, whose magnitude is not
`effectiveness(maxmdot) * targetRate`. -/
theorem clamped_flow_source_limited_by_Qsrcmax :
    ∃ r, calculateIceRink realMath (worldAt ℝ 1 1) (rink0 ℝ) false = Except.ok r ∧
      (worldAt ℝ 1 1).GetCurrentScheduleValue (rink0 ℝ).IceSetptSchedPtr = 1 ∧
      (rink0 ℝ).IceSetPointTemp < (worldAt ℝ 1 1).TH 1 2 (rink0 ℝ).SurfacePtr ∧
      r.rink.Qsetpoint = 34163 / 360 ∧
      (rink0 ℝ).maxmdot <
        |r.rink.Qsetpoint /
          ((worldAt ℝ 1 1).GetSpecificHeatGlycol (rink0 ℝ).LoopNum
              ((worldAt ℝ 1 1).NodeTemp (rink0 ℝ).InNode) *
            ((worldAt ℝ 1 1).TH 1 2 (rink0 ℝ).SurfacePtr -
              (worldAt ℝ 1 1).NodeTemp (rink0 ℝ).InNode))| ∧
      r.rink.RefrigMassFlow = (rink0 ℝ).maxmdot ∧
      calcEffectiveness realMath (worldAt ℝ 1 1) (rink0 ℝ)
        ((worldAt ℝ 1 1).NodeTemp (rink0 ℝ).InNode) (rink0 ℝ).maxmdot = 1 ∧
      r.QRadSysSource (rink0 ℝ).SurfacePtr = -5 ∧
      |r.QRadSysSource (rink0 ℝ).SurfacePtr| ≠
        calcEffectiveness realMath (worldAt ℝ 1 1) (rink0 ℝ)
            ((worldAt ℝ 1 1).NodeTemp (rink0 ℝ).InNode) (rink0 ℝ).maxmdot *
          r.rink.Qsetpoint := by
  have hq : targetRate (prepare (worldAt ℝ 1 1) (rink0 ℝ) false) = 34163 / 360 := by
    rw [targetRate_prepare]
    norm_num [worldAt, rink0, initializeFirstTime, rinkInput]
  obtain ⟨e1, e2, _, e4⟩ := sample_run 1 (34163 / 360) (by norm_num) hq
    (by rw [abs_of_pos] <;> norm_num)
  have hmax : (rink0 ℝ).maxmdot = 1 := rink0_members.2
  have he : calcEffectiveness realMath (worldAt ℝ 1 1) (rink0 ℝ)
      ((worldAt ℝ 1 1).NodeTemp (rink0 ℝ).InNode) (rink0 ℝ).maxmdot = 1 := by
    rw [hmax]
    exact sample_effectiveness 1 1 _ 1 one_pos le_rfl
  have hs : (calculateIceRinkRun realMath (worldAt ℝ 1 1) (rink0 ℝ) false).QRadSysSource
      (rink0 ℝ).SurfacePtr = -5 := by
    rw [e4]
    norm_num
  refine ⟨_, calculateIceRink_ok rink0_fatalCheck, rfl, ?_, e1, ?_, ?_, he, hs, ?_⟩
  · norm_num [worldAt, rink0, initializeFirstTime, rinkInput]
  · rw [e1, hmax]
    norm_num [worldAt, rink0, initializeFirstTime, rinkInput]
    rw [abs_of_pos] <;> norm_num
  · rw [e2, hmax]
  · rw [hs, he, e1]
    norm_num


/-- C16 (amended). In a call of `calculateIceRink` that passes the fatal checks with the
schedule value 1 and the slab surface above the ice set point, and with
`CpRefrig * (surface temperature - inlet temperature)` not zero: the required, the actual
and the stored past refrigerant flow all equal
`min |Qsetpoint / (CpRefrig * (surface temperature - inlet temperature))| maxmdot`.
Whenever the requirement does not exceed `maxmdot`, the flow times
`|CpRefrig * (surface temperature - inlet temperature)|` is `|Qsetpoint|`.  Whenever the unclamped requirement exceeds `maxmdot`, the flow is `maxmdot`, the
effectiveness is the one at `maxmdot` and the source written is
`max (-(effectiveness * Qsetpoint)) (effectiveness * Qsrcmax)`: it is
`-(effectiveness(maxmdot) * Qsetpoint)` only if that is not below
`effectiveness(maxmdot) * Qsrcmax`, and `effectiveness(maxmdot) * Qsrcmax` otherwise. -/
theorem refrigerant_flow_limited_to_maxmdot (m : MathFns R) (w : World R)
    (d : IceRinkData R) (is_test : Bool) (hf : fatalCheck d = none)
    (hop : w.GetCurrentScheduleValue d.IceSetptSchedPtr = 1)
    (hT : d.IceSetPointTemp < w.TH 1 2 d.SurfacePtr)
    (hden : w.GetSpecificHeatGlycol d.LoopNum (w.NodeTemp d.InNode) *
      (w.TH 1 2 d.SurfacePtr - w.NodeTemp d.InNode) ≠ 0) :
    ∃ r, calculateIceRink m w d is_test = Except.ok r ∧
      r.rink.ReqMassFlow =
        min |r.rink.Qsetpoint / (w.GetSpecificHeatGlycol d.LoopNum (w.NodeTemp d.InNode) *
          (w.TH 1 2 d.SurfacePtr - w.NodeTemp d.InNode))| d.maxmdot ∧
      r.rink.RefrigMassFlow = r.rink.ReqMassFlow ∧
      r.rink.PastRefrigMassFlow = r.rink.ReqMassFlow ∧
      (|r.rink.Qsetpoint / (w.GetSpecificHeatGlycol d.LoopNum (w.NodeTemp d.InNode) *
            (w.TH 1 2 d.SurfacePtr - w.NodeTemp d.InNode))| ≤ d.maxmdot →
        r.rink.RefrigMassFlow *
            |w.GetSpecificHeatGlycol d.LoopNum (w.NodeTemp d.InNode) *
              (w.TH 1 2 d.SurfacePtr - w.NodeTemp d.InNode)| = |r.rink.Qsetpoint|) ∧
      (d.maxmdot <
          |r.rink.Qsetpoint / (w.GetSpecificHeatGlycol d.LoopNum (w.NodeTemp d.InNode) *
            (w.TH 1 2 d.SurfacePtr - w.NodeTemp d.InNode))| →
        r.rink.RefrigMassFlow = d.maxmdot ∧
        r.rink.Effectiveness = calcEffectiveness m w d (w.NodeTemp d.InNode) d.maxmdot ∧
        r.QRadSysSource d.SurfacePtr =
          max (-(calcEffectiveness m w d (w.NodeTemp d.InNode) d.maxmdot * r.rink.Qsetpoint))
            (calcEffectiveness m w d (w.NodeTemp d.InNode) d.maxmdot * d.Qsrcmax) ∧
        (calcEffectiveness m w d (w.NodeTemp d.InNode) d.maxmdot * d.Qsrcmax ≤
            -(calcEffectiveness m w d (w.NodeTemp d.InNode) d.maxmdot * r.rink.Qsetpoint) →
          r.QRadSysSource d.SurfacePtr =
            -(calcEffectiveness m w d (w.NodeTemp d.InNode) d.maxmdot * r.rink.Qsetpoint)) ∧
        (-(calcEffectiveness m w d (w.NodeTemp d.InNode) d.maxmdot * r.rink.Qsetpoint) <
            calcEffectiveness m w d (w.NodeTemp d.InNode) d.maxmdot * d.Qsrcmax →
          r.QRadSysSource d.SurfacePtr =
            calcEffectiveness m w d (w.NodeTemp d.InNode) d.maxmdot * d.Qsrcmax)) := by
  obtain ⟨e1, e2, e3, e4, e5, e6, e7⟩ := run_on m w d is_test hop hT
  rw [← e1, ite_gt_eq_min] at e2
  refine ⟨_, calculateIceRink_ok hf, e2, e3, e4, ?_, ?_⟩
  · intro hle
    rw [e3, e2, min_eq_left hle, abs_div, div_mul_cancel₀ _ (abs_ne_zero.mpr hden)]
  intro hgt
  have hreq : (calculateIceRinkRun m w d is_test).rink.ReqMassFlow = d.maxmdot := by
    rw [e2]
    exact min_eq_right (le_of_lt hgt)
  rw [hreq] at e5
  rw [e6, ite_lt_eq_max, e5] at e7
  refine ⟨e3.trans hreq, e5, e7, ?_, ?_⟩
  · intro hle
    rw [e7]
    exact max_eq_left hle
  · intro hlt
    rw [e7]
    exact max_eq_right (le_of_lt hlt)

/-- Witness for C16: the sample rink with the slab surface at -1 C.  The target rate is
`917 * 2040 / 3600000 W` (about 0.52 W), the unclamped requirement twice that, above
`maxmdot = 1`; the effectiveness at `maxmdot` is 1 and `Qsrcmax = -5`, so the flow is
`maxmdot` and the source is minus the target rate. -/
theorem refrigerant_flow_limited_to_maxmdot_witness :
    ∃ r, calculateIceRink realMath (worldAt ℝ 1 (-1)) (rink0 ℝ) false = Except.ok r ∧
      r.rink.Qsetpoint = 917 * 2040 / 3600000 ∧
      r.rink.RefrigMassFlow = (rink0 ℝ).maxmdot ∧
      r.QRadSysSource (rink0 ℝ).SurfacePtr =
        -(calcEffectiveness realMath (worldAt ℝ 1 (-1)) (rink0 ℝ)
            ((worldAt ℝ 1 (-1)).NodeTemp (rink0 ℝ).InNode) (rink0 ℝ).maxmdot *
          r.rink.Qsetpoint) := by
  obtain ⟨r, h1, _, _, _, _, h6⟩ :=
    refrigerant_flow_limited_to_maxmdot realMath (worldAt ℝ 1 (-1)) (rink0 ℝ) false
      rink0_fatalCheck rfl (by norm_num [worldAt, rink0, initializeFirstTime, rinkInput])
      (by norm_num [worldAt])
  have hr : r = calculateIceRinkRun realMath (worldAt ℝ 1 (-1)) (rink0 ℝ) false := by
    rw [calculateIceRink_ok rink0_fatalCheck] at h1
    exact (Except.ok.inj h1).symm
  have hq : targetRate (prepare (worldAt ℝ 1 (-1)) (rink0 ℝ) false) =
      917 * 2040 / 3600000 := by
    rw [targetRate_prepare]
    norm_num [worldAt, rink0, initializeFirstTime, rinkInput]
  obtain ⟨e1, _, _, _⟩ := sample_run (-1) (917 * 2040 / 3600000) (by norm_num) hq
    (by rw [abs_of_pos] <;> norm_num)
  rw [← hr] at e1
  have hmax : (rink0 ℝ).maxmdot = 1 := rink0_members.2
  have hsrc : (rink0 ℝ).Qsrcmax = -5 := rink0_members.1
  have he : calcEffectiveness realMath (worldAt ℝ 1 (-1)) (rink0 ℝ)
      ((worldAt ℝ 1 (-1)).NodeTemp (rink0 ℝ).InNode) (rink0 ℝ).maxmdot = 1 := by
    rw [hmax]
    exact sample_effectiveness 1 (-1) _ 1 one_pos le_rfl
  have hgt : (rink0 ℝ).maxmdot <
      |r.rink.Qsetpoint /
        ((worldAt ℝ 1 (-1)).GetSpecificHeatGlycol (rink0 ℝ).LoopNum
            ((worldAt ℝ 1 (-1)).NodeTemp (rink0 ℝ).InNode) *
          ((worldAt ℝ 1 (-1)).TH 1 2 (rink0 ℝ).SurfacePtr -
            (worldAt ℝ 1 (-1)).NodeTemp (rink0 ℝ).InNode))| := by
    rw [e1, hmax]
    norm_num [worldAt]
    rw [abs_of_pos] <;> norm_num
  obtain ⟨k1, _, _, k4, _⟩ := h6 hgt
  refine ⟨r, h1, e1, k1, k4 ?_⟩
  rw [he, hsrc, e1]
  norm_num


/-! ## C17: the source never exceeds the maximum extraction rate -/

/-- C17. In a call of `calculateIceRink` that passes the fatal checks with the schedule
value 1 and the slab surface above the ice set point (either operating branch), the
effectiveness stored is `calcEffectiveness` at the refrigerant flow of the call, and the
heat source written to `QRadSysSource(SurfNum)`, which is also `LoadMet`, equals
`max (-(Effectiveness * Qsetpoint)) (Effectiveness * Qsrcmax)`.  Hence whenever
`Qsrcmax <= 0`, `Effectiveness >= 0` and `Qsetpoint >= 0`, the source is not positive and
its magnitude is at most `Effectiveness * |Qsrcmax|`. -/
theorem source_limited_by_maximum_extraction (m : MathFns R) (w : World R)
    (d : IceRinkData R) (is_test : Bool) (hf : fatalCheck d = none)
    (hop : w.GetCurrentScheduleValue d.IceSetptSchedPtr = 1)
    (hT : d.IceSetPointTemp < w.TH 1 2 d.SurfacePtr) :
    ∃ r, calculateIceRink m w d is_test = Except.ok r ∧
      r.rink.Effectiveness =
        calcEffectiveness m w d (w.NodeTemp d.InNode) r.rink.RefrigMassFlow ∧
      r.QRadSysSource d.SurfacePtr =
        max (-(r.rink.Effectiveness * r.rink.Qsetpoint))
          (r.rink.Effectiveness * d.Qsrcmax) ∧
      r.LoadMet = r.QRadSysSource d.SurfacePtr ∧
      (d.Qsrcmax ≤ 0 → 0 ≤ r.rink.Effectiveness → 0 ≤ r.rink.Qsetpoint →
        r.QRadSysSource d.SurfacePtr ≤ 0 ∧
        |r.QRadSysSource d.SurfacePtr| ≤ r.rink.Effectiveness * |d.Qsrcmax|) := by
  obtain ⟨_, _, e3, _, e5, e6, e7⟩ := run_on m w d is_test hop hT
  rw [e6, ite_lt_eq_max] at e7
  rw [← e3] at e5
  refine ⟨_, calculateIceRink_ok hf, e5, e7, run_LoadMet m w d is_test, ?_⟩
  intro hs he hq
  rw [e7]
  have h1 : -((calculateIceRinkRun m w d is_test).rink.Effectiveness *
      (calculateIceRinkRun m w d is_test).rink.Qsetpoint) ≤ 0 :=
    neg_nonpos.mpr (mul_nonneg he hq)
  have h2 : (calculateIceRinkRun m w d is_test).rink.Effectiveness * d.Qsrcmax ≤ 0 :=
    mul_nonpos_of_nonneg_of_nonpos he hs
  have h3 : max (-((calculateIceRinkRun m w d is_test).rink.Effectiveness *
      (calculateIceRinkRun m w d is_test).rink.Qsetpoint))
      ((calculateIceRinkRun m w d is_test).rink.Effectiveness * d.Qsrcmax) ≤ 0 :=
    max_le h1 h2
  refine ⟨h3, ?_⟩
  rw [abs_of_nonpos h3, abs_of_nonpos hs, mul_neg, neg_le_neg_iff]
  exact le_max_right _ _

/-- Witness for C17: the sample rink with the slab surface at 1 C, where the effectiveness
is 1, the target rate about 94.9 W and `Qsrcmax = -5 W`: the source is -5 W. -/
theorem source_limited_by_maximum_extraction_witness :
    ∃ r, calculateIceRink realMath (worldAt ℝ 1 1) (rink0 ℝ) false = Except.ok r ∧
      r.rink.Effectiveness = 1 ∧ r.rink.Qsetpoint = 34163 / 360 ∧
      r.QRadSysSource (rink0 ℝ).SurfacePtr = -5 ∧
      r.QRadSysSource (rink0 ℝ).SurfacePtr ≤ 0 ∧
      |r.QRadSysSource (rink0 ℝ).SurfacePtr| ≤ r.rink.Effectiveness * |(rink0 ℝ).Qsrcmax| := by
  obtain ⟨r, h1, _, h3, _, h5⟩ :=
    source_limited_by_maximum_extraction realMath (worldAt ℝ 1 1) (rink0 ℝ) false
      rink0_fatalCheck rfl (by norm_num [worldAt, rink0, initializeFirstTime, rinkInput])
  have hr : r = calculateIceRinkRun realMath (worldAt ℝ 1 1) (rink0 ℝ) false := by
    rw [calculateIceRink_ok rink0_fatalCheck] at h1
    exact (Except.ok.inj h1).symm
  have hq : targetRate (prepare (worldAt ℝ 1 1) (rink0 ℝ) false) = 34163 / 360 := by
    rw [targetRate_prepare]
    norm_num [worldAt, rink0, initializeFirstTime, rinkInput]
  obtain ⟨e1, _, e3, _⟩ := sample_run 1 (34163 / 360) (by norm_num) hq
    (by rw [abs_of_pos] <;> norm_num)
  rw [← hr] at e1 e3
  have hsrc : (rink0 ℝ).Qsrcmax = -5 := rink0_members.1
  have hs : r.QRadSysSource (rink0 ℝ).SurfacePtr = -5 := by
    rw [h3, e1, e3, hsrc]
    norm_num
  obtain ⟨k1, k2⟩ := h5 (by rw [hsrc]; norm_num) (by rw [e3]; norm_num)
    (by rw [e1]; norm_num)
  exact ⟨r, h1, e3, e1, hs, k1, k2⟩

/-! ## C18: the target rate -/

/-- Counterexample to C18 as stated. The sample rink with the schedule on and the slab
surface at exactly 0 C, above the set point of -2 C and not above 0: the target rate is
the water balance `1000 * V * (4000 * 0 + 333550 + 2040 * 2) / 3600 = 33763/360 W`, not
the ice balance `917 * V * 2040 * (0 + 2) / 3600`. -/
theorem target_rate_at_zero_is_water_balance :
    ∃ r, calculateIceRink realMath (worldAt ℝ 1 0) (rink0 ℝ) false = Except.ok r ∧
      (worldAt ℝ 1 0).GetCurrentScheduleValue (rink0 ℝ).IceSetptSchedPtr = 1 ∧
      (rink0 ℝ).IceSetPointTemp < (worldAt ℝ 1 0).TH 1 2 (rink0 ℝ).SurfacePtr ∧
      ¬ (0 < (worldAt ℝ 1 0).TH 1 2 (rink0 ℝ).SurfacePtr) ∧
      r.rink.Qsetpoint = 33763 / 360 ∧
      r.rink.Qsetpoint ≠
        917 * ((rink0 ℝ).LengthRink * (rink0 ℝ).WidthRink * (rink0 ℝ).IceThickness) * 2040 *
            ((worldAt ℝ 1 0).TH 1 2 (rink0 ℝ).SurfacePtr - (rink0 ℝ).IceSetPointTemp) /
          ((rink0 ℝ).Increments * (rink0 ℝ).SecInHour) := by
  have hT : (rink0 ℝ).IceSetPointTemp < (worldAt ℝ 1 0).TH 1 2 (rink0 ℝ).SurfacePtr := by
    norm_num [worldAt, rink0, initializeFirstTime, rinkInput]
  obtain ⟨e1, _⟩ := run_on realMath (worldAt ℝ 1 0) (rink0 ℝ) false rfl hT
  have hq : targetRate (prepare (worldAt ℝ 1 0) (rink0 ℝ) false) = 33763 / 360 := by
    rw [targetRate_prepare]
    norm_num [worldAt, rink0, initializeFirstTime, rinkInput]
  rw [hq] at e1
  refine ⟨_, calculateIceRink_ok rink0_fatalCheck, rfl, hT, ?_, e1, ?_⟩
  · norm_num [worldAt]
  · rw [e1]
    norm_num [worldAt, rink0, initializeFirstTime, rinkInput]

/-- C18 (amended). In a call of `calculateIceRink` that passes the fatal checks with the
schedule value 1 and the slab surface temperature `T` above the ice set point `Tset`: if
`T >= 0` (0 included) the target rate `Qsetpoint` is
`RhoWater * Volume * (CpWater * T + 333550 - 2040 * Tset) / (Increments * SecInHour)` with
the water properties taken at the ice temperature `TempSurfIn(SurfNum)`; if `T < 0` it is
`917 * Volume * (2040 * (T - Tset)) / (Increments * SecInHour)`.  `Volume` is
`LengthRink * WidthRink * IceThickness`. -/
theorem target_rate_water_or_ice_balance (m : MathFns R) (w : World R)
    (d : IceRinkData R) (is_test : Bool) (hf : fatalCheck d = none)
    (hop : w.GetCurrentScheduleValue d.IceSetptSchedPtr = 1)
    (hT : d.IceSetPointTemp < w.TH 1 2 d.SurfacePtr) :
    ∃ r, calculateIceRink m w d is_test = Except.ok r ∧
      (0 ≤ w.TH 1 2 d.SurfacePtr →
        r.rink.Qsetpoint =
          w.GetDensityWater (w.TempSurfIn d.SurfacePtr) *
              (d.LengthRink * d.WidthRink * d.IceThickness) *
              (w.GetSpecificHeatWater (w.TempSurfIn d.SurfacePtr) * w.TH 1 2 d.SurfacePtr +
                333550 - 2040 * d.IceSetPointTemp) /
            (d.Increments * d.SecInHour)) ∧
      (w.TH 1 2 d.SurfacePtr < 0 →
        r.rink.Qsetpoint =
          917 * (d.LengthRink * d.WidthRink * d.IceThickness) *
              (2040 * (w.TH 1 2 d.SurfacePtr - d.IceSetPointTemp)) /
            (d.Increments * d.SecInHour)) := by
  obtain ⟨e1, _⟩ := run_on m w d is_test hop hT
  rw [targetRate_prepare] at e1
  refine ⟨_, calculateIceRink_ok hf, ?_, ?_⟩
  · intro h0
    rw [e1, if_pos (ge_iff_le.mpr h0)]
  · intro h0
    rw [e1, if_neg (not_le.mpr h0)]

/-- Witness for C18: the sample rink with the slab surface at -1 C (ice balance). -/
theorem target_rate_water_or_ice_balance_witness :
    ∃ r, calculateIceRink realMath (worldAt ℝ 1 (-1)) (rink0 ℝ) false = Except.ok r ∧
      r.rink.Qsetpoint =
        917 * ((rink0 ℝ).LengthRink * (rink0 ℝ).WidthRink * (rink0 ℝ).IceThickness) *
            (2040 * ((worldAt ℝ 1 (-1)).TH 1 2 (rink0 ℝ).SurfacePtr -
              (rink0 ℝ).IceSetPointTemp)) /
          ((rink0 ℝ).Increments * (rink0 ℝ).SecInHour) := by
  obtain ⟨r, h1, _, h3⟩ :=
    target_rate_water_or_ice_balance realMath (worldAt ℝ 1 (-1)) (rink0 ℝ) false
      rink0_fatalCheck rfl (by norm_num [worldAt, rink0, initializeFirstTime, rinkInput])
  exact ⟨r, h1, h3 (by norm_num [worldAt])⟩


/-! ## C19 and C20: the effectiveness -/

theorem effectivenessOfNTU_real_mono (N1 N2 : ℝ) (h : N1 ≤ N2) :
    effectivenessOfNTU realMath N1 ≤ effectivenessOfNTU realMath N2 := by
  unfold effectivenessOfNTU
  simp only [realMath]
  by_cases h2 : N2 > 50
  · rw [if_pos h2]
    split_ifs
    · exact le_refl 1
    · have := Real.exp_pos (-N1)
      linarith
  · have h1 : ¬ N1 > 50 := fun hc => h2 (lt_of_lt_of_le hc h)
    rw [if_neg h2, if_neg h1]
    have := Real.exp_le_exp.mpr (neg_le_neg h)
    linarith

/-- C19. `calcEffectiveness` returns the value of `effectivenessOfNTU` at the `NTU` it
computes: exactly 1 whenever `NTU > 50` and `1 - exp (-NTU)` otherwise.  As a function
of `NTU` this is monotonically non-decreasing over all reals, the cap at 50 included. -/
theorem effectiveness_capped_and_monotone_in_NTU :
    (∀ (w : World ℝ) (d : IceRinkData ℝ) (T x : ℝ),
        calcEffectiveness realMath w d T x = effectivenessOfNTU realMath (ntu realMath w d T x) ∧
        (50 < ntu realMath w d T x → calcEffectiveness realMath w d T x = 1) ∧
        (ntu realMath w d T x ≤ 50 →
          calcEffectiveness realMath w d T x = 1 - Real.exp (-(ntu realMath w d T x)))) ∧
      (∀ N : ℝ, 50 < N → effectivenessOfNTU realMath N = 1) ∧
      (∀ N : ℝ, N ≤ 50 → effectivenessOfNTU realMath N = 1 - Real.exp (-N)) ∧
      (∀ N1 N2 : ℝ, N1 ≤ N2 →
        effectivenessOfNTU realMath N1 ≤ effectivenessOfNTU realMath N2) := by
  have hhi : ∀ N : ℝ, 50 < N → effectivenessOfNTU realMath N = 1 := by
    intro N hN
    unfold effectivenessOfNTU
    rw [if_pos hN]
  have hlo : ∀ N : ℝ, N ≤ 50 → effectivenessOfNTU realMath N = 1 - Real.exp (-N) := by
    intro N hN
    unfold effectivenessOfNTU
    rw [if_neg (not_lt.mpr hN)]
    rfl
  refine ⟨?_, hhi, hlo, effectivenessOfNTU_real_mono⟩
  intro w d T x
  exact ⟨rfl, hhi _, hlo _⟩

/-- Witness for C19: the values at `NTU = 0`, `50` and `51`, and their order. -/
theorem effectiveness_capped_and_monotone_in_NTU_witness :
    effectivenessOfNTU realMath 51 = 1 ∧
      effectivenessOfNTU realMath 50 = 1 - Real.exp (-50) ∧
      effectivenessOfNTU realMath 0 ≤ effectivenessOfNTU realMath 50 ∧
      effectivenessOfNTU realMath 50 ≤ effectivenessOfNTU realMath 51 :=
  ⟨effectiveness_capped_and_monotone_in_NTU.2.1 51 (by norm_num),
    effectiveness_capped_and_monotone_in_NTU.2.2.1 50 (le_refl 50),
    effectiveness_capped_and_monotone_in_NTU.2.2.2 0 50 (by norm_num),
    effectiveness_capped_and_monotone_in_NTU.2.2.2 50 51 (by norm_num)⟩

/-- Laminar flows through the 1 m tubes of `rinkShort`: `NTU = 3.66 * Pi / flow`. -/
theorem short_effectiveness (s T Tin x : ℝ) (hx : 1 ≤ x) (hx2 : x ≤ 2) :
    reynoldsNum realMath (worldAt ℝ s T) (rinkShort ℝ) Tin x < 2300 ∧
      calcEffectiveness realMath (worldAt ℝ s T) (rinkShort ℝ) Tin x =
        1 - Real.exp (-(Real.pi * (366 / 100) / x)) := by
  have hpi := Real.pi_gt_three
  have hpi4 := Real.pi_le_four
  have hx0 : 0 < x := by linarith
  have hre : 4 * x / Real.pi < 2300 := by
    rw [div_lt_iff₀ (by linarith)]
    nlinarith
  have hntu : ¬ (Real.pi * (366 / 100) / x > 50) := by
    rw [gt_iff_lt, not_lt, div_le_iff₀ hx0]
    nlinarith
  constructor
  · simp only [reynoldsNum, worldAt, rinkShort, rink0, initializeFirstTime, rinkInput,
      realMath, mul_one]
    exact hre
  · simp only [calcEffectiveness, effectivenessOfNTU, ntu, nuseltNum, reynoldsNum, worldAt,
      rinkShort, rink0, initializeFirstTime, rinkInput, realMath, mul_one]
    rw [if_neg (not_le.mpr hre), if_neg hntu]

/-- Counterexample to C20 as stated. With the tube geometry and the fluid properties of
the sample rink with 1 m tubes, the flows 1 kg/s and 2 kg/s are both laminar and
`NTU` is `3.66 * Pi` and `1.83 * Pi`: the effectiveness at the larger flow is strictly
smaller. -/
theorem effectiveness_decreases_in_laminar_flow :
    (0 : ℝ) < 1 ∧ (1 : ℝ) ≤ 2 ∧
      reynoldsNum realMath (worldAt ℝ 1 0) (rinkShort ℝ) (-3 / 2) 1 < 2300 ∧
      reynoldsNum realMath (worldAt ℝ 1 0) (rinkShort ℝ) (-3 / 2) 2 < 2300 ∧
      ¬ (calcEffectiveness realMath (worldAt ℝ 1 0) (rinkShort ℝ) (-3 / 2) 1 ≤
        calcEffectiveness realMath (worldAt ℝ 1 0) (rinkShort ℝ) (-3 / 2) 2) := by
  obtain ⟨r1, e1⟩ := short_effectiveness 1 0 (-3 / 2) 1 (le_refl 1) (by norm_num)
  obtain ⟨r2, e2⟩ := short_effectiveness 1 0 (-3 / 2) 2 (by norm_num) (le_refl 2)
  refine ⟨one_pos, by norm_num, r1, r2, ?_⟩
  rw [e1, e2, not_le]
  have hpi := Real.pi_pos
  have : Real.exp (-(Real.pi * (366 / 100) / 1)) < Real.exp (-(Real.pi * (366 / 100) / 2)) :=
    Real.exp_lt_exp.mpr (by linarith)
  linarith


theorem rpow_div_antitone (a b : ℝ) (ha : 0 < a) (hab : a ≤ b) :
    b ^ (8 / 10 : ℝ) / b ≤ a ^ (8 / 10 : ℝ) / a := by
  have hb : 0 < b := lt_of_lt_of_le ha hab
  rw [div_le_div_iff₀ hb ha]
  have ea : a = a ^ (8 / 10 : ℝ) * a ^ (2 / 10 : ℝ) := by
    rw [← Real.rpow_add ha]
    norm_num
  have eb : b = b ^ (8 / 10 : ℝ) * b ^ (2 / 10 : ℝ) := by
    rw [← Real.rpow_add hb]
    norm_num
  have h2 : a ^ (2 / 10 : ℝ) ≤ b ^ (2 / 10 : ℝ) :=
    Real.rpow_le_rpow (le_of_lt ha) hab (by norm_num)
  have pa : 0 ≤ a ^ (8 / 10 : ℝ) := Real.rpow_nonneg (le_of_lt ha) _
  have pb : 0 ≤ b ^ (8 / 10 : ℝ) := Real.rpow_nonneg (le_of_lt hb) _
  calc b ^ (8 / 10 : ℝ) * a = b ^ (8 / 10 : ℝ) * (a ^ (8 / 10 : ℝ) * a ^ (2 / 10 : ℝ)) := by
        rw [← ea]
    _ ≤ b ^ (8 / 10 : ℝ) * (a ^ (8 / 10 : ℝ) * b ^ (2 / 10 : ℝ)) :=
        mul_le_mul_of_nonneg_left (mul_le_mul_of_nonneg_left h2 pa) pb
    _ = a ^ (8 / 10 : ℝ) * (b ^ (8 / 10 : ℝ) * b ^ (2 / 10 : ℝ)) := by ring
    _ = a ^ (8 / 10 : ℝ) * b := by rw [← eb]

/-- C20 (amended). For fixed tube geometry and fluid properties (positive specific heat,
conductivity, viscosity and tube diameter, tube length not negative) and positive flows
`m1 <= m2` in one flow regime (both laminar, `Re(m2) < 2300`, or both turbulent,
`Re(m1) >= 2300`), `calcEffectiveness` does not increase with the flow:
`effectiveness(m2) <= effectiveness(m1)`. -/
theorem effectiveness_antitone_in_flow_within_regime (w : World ℝ) (d : IceRinkData ℝ)
    (T m1 m2 : ℝ) (hcp : 0 < w.GetSpecificHeatGlycol d.LoopNum T)
    (hk : 0 < w.GetConductivityGlycol d.LoopNum T)
    (hmu : 0 < w.GetViscosityGlycol d.LoopNum T) (hD : 0 < d.TubeDiameter)
    (hL : 0 ≤ d.TubeLength) (h1 : 0 < m1) (h12 : m1 ≤ m2)
    (hreg : reynoldsNum realMath w d T m2 < 2300 ∨ 2300 ≤ reynoldsNum realMath w d T m1) :
    calcEffectiveness realMath w d T m2 ≤ calcEffectiveness realMath w d T m1 := by
  have h2 : 0 < m2 := lt_of_lt_of_le h1 h12
  have hpi := Real.pi_pos
  have hc : 0 < Real.pi * w.GetViscosityGlycol d.LoopNum T * d.TubeDiameter :=
    mul_pos (mul_pos hpi hmu) hD
  have hre : reynoldsNum realMath w d T m1 ≤ reynoldsNum realMath w d T m2 := by
    simp only [reynoldsNum, realMath]
    exact div_le_div_of_nonneg_right (by linarith) (le_of_lt hc)
  have hre1 : 0 < reynoldsNum realMath w d T m1 := by
    simp only [reynoldsNum, realMath]
    exact div_pos (by linarith) hc
  apply effectivenessOfNTU_real_mono
  rcases hreg with hlam | hturb
  · have hlam1 : reynoldsNum realMath w d T m1 < 2300 := lt_of_le_of_lt hre hlam
    simp only [ntu, nuseltNum]
    rw [if_neg (not_le.mpr hlam), if_neg (not_le.mpr hlam1)]
    apply div_le_div_of_nonneg_left
    · exact mul_nonneg (mul_nonneg (mul_nonneg (le_of_lt hpi) (le_of_lt hk)) (by norm_num)) hL
    · exact mul_pos h1 hcp
    · exact mul_le_mul_of_nonneg_right h12 (le_of_lt hcp)
  · have hturb2 : reynoldsNum realMath w d T m2 ≥ 2300 := le_trans hturb hre
    simp only [ntu, nuseltNum]
    rw [if_pos hturb2, if_pos (ge_iff_le.mpr hturb)]
    have hpr : 0 ≤ realMath.pow (w.GetViscosityGlycol d.LoopNum T *
        w.GetSpecificHeatGlycol d.LoopNum T / w.GetConductivityGlycol d.LoopNum T)
        (3 / 10) :=
      Real.rpow_nonneg (le_of_lt (div_pos (mul_pos hmu hcp) hk)) _
    have hA : 0 ≤ Real.pi * w.GetConductivityGlycol d.LoopNum T * (23 / 1000) *
        realMath.pow (w.GetViscosityGlycol d.LoopNum T *
          w.GetSpecificHeatGlycol d.LoopNum T / w.GetConductivityGlycol d.LoopNum T)
          (3 / 10) * d.TubeLength / w.GetSpecificHeatGlycol d.LoopNum T :=
      div_nonneg (mul_nonneg (mul_nonneg (mul_nonneg (mul_nonneg (le_of_lt hpi)
        (le_of_lt hk)) (by norm_num)) hpr) hL) (le_of_lt hcp)
    have hc4 : 0 < 4 / (Real.pi * w.GetViscosityGlycol d.LoopNum T * d.TubeDiameter) :=
      div_pos (by norm_num) hc
    have er : ∀ x : ℝ, reynoldsNum realMath w d T x =
        4 / (Real.pi * w.GetViscosityGlycol d.LoopNum T * d.TubeDiameter) * x := by
      intro x
      simp only [reynoldsNum, realMath]
      ring
    have key : ∀ x : ℝ, 0 < x →
        realMath.Pi * w.GetConductivityGlycol d.LoopNum T *
            (23 / 1000 * realMath.pow (reynoldsNum realMath w d T x) (8 / 10) *
              realMath.pow (w.GetViscosityGlycol d.LoopNum T *
                w.GetSpecificHeatGlycol d.LoopNum T / w.GetConductivityGlycol d.LoopNum T)
                (3 / 10)) * d.TubeLength / (x * w.GetSpecificHeatGlycol d.LoopNum T) =
          (Real.pi * w.GetConductivityGlycol d.LoopNum T * (23 / 1000) *
            realMath.pow (w.GetViscosityGlycol d.LoopNum T *
              w.GetSpecificHeatGlycol d.LoopNum T / w.GetConductivityGlycol d.LoopNum T)
              (3 / 10) * d.TubeLength / w.GetSpecificHeatGlycol d.LoopNum T) *
            (4 / (Real.pi * w.GetViscosityGlycol d.LoopNum T * d.TubeDiameter) *
              ((reynoldsNum realMath w d T x) ^ (8 / 10 : ℝ) /
                reynoldsNum realMath w d T x)) := by
      intro x hx
      have hpow : realMath.pow (reynoldsNum realMath w d T x) (8 / 10) =
          (reynoldsNum realMath w d T x) ^ (8 / 10 : ℝ) := rfl
      rw [hpow]
      generalize (reynoldsNum realMath w d T x) ^ (8 / 10 : ℝ) = P
      generalize realMath.pow (w.GetViscosityGlycol d.LoopNum T *
        w.GetSpecificHeatGlycol d.LoopNum T / w.GetConductivityGlycol d.LoopNum T)
        (3 / 10) = Q
      have h4 : (4 / (Real.pi * w.GetViscosityGlycol d.LoopNum T * d.TubeDiameter)) ≠ 0 :=
        ne_of_gt hc4
      have hcp0 : w.GetSpecificHeatGlycol d.LoopNum T ≠ 0 := ne_of_gt hcp
      have hx0 : x ≠ 0 := ne_of_gt hx
      have hR : reynoldsNum realMath w d T x =
          4 / (Real.pi * w.GetViscosityGlycol d.LoopNum T * d.TubeDiameter) * x := er x
      rw [hR]
      simp only [realMath]
      field_simp
      ring
    rw [key m1 h1, key m2 h2]
    exact mul_le_mul_of_nonneg_left
      (mul_le_mul_of_nonneg_left (rpow_div_antitone _ _ hre1 hre) (le_of_lt hc4)) hA


/-- Witness for C20: laminar flows of 1 and 2 kg/s and turbulent flows of 2300 and
4600 kg/s through the 1 m tubes of the sample rink. -/
theorem effectiveness_antitone_in_flow_within_regime_witness :
    calcEffectiveness realMath (worldAt ℝ 1 0) (rinkShort ℝ) (-3 / 2) 2 ≤
        calcEffectiveness realMath (worldAt ℝ 1 0) (rinkShort ℝ) (-3 / 2) 1 ∧
      calcEffectiveness realMath (worldAt ℝ 1 0) (rinkShort ℝ) (-3 / 2) 4600 ≤
        calcEffectiveness realMath (worldAt ℝ 1 0) (rinkShort ℝ) (-3 / 2) 2300 :=
  ⟨effectiveness_antitone_in_flow_within_regime (worldAt ℝ 1 0) (rinkShort ℝ) (-3 / 2) 1 2
      (by norm_num [worldAt]) (by norm_num [worldAt]) (by norm_num [worldAt])
      (by norm_num [rinkShort, rink0, initializeFirstTime, rinkInput])
      (by norm_num [rinkShort, rink0, initializeFirstTime, rinkInput])
      (by norm_num) (by norm_num)
      (Or.inl (short_effectiveness 1 0 (-3 / 2) 2 (by norm_num) (le_refl 2)).1),
    effectiveness_antitone_in_flow_within_regime (worldAt ℝ 1 0) (rinkShort ℝ) (-3 / 2)
      2300 4600
      (by norm_num [worldAt]) (by norm_num [worldAt]) (by norm_num [worldAt])
      (by norm_num [rinkShort, rink0, initializeFirstTime, rinkInput])
      (by norm_num [rinkShort, rink0, initializeFirstTime, rinkInput])
      (by norm_num) (by norm_num)
      (Or.inr (by
        have hpi := Real.pi_pos
        have hpi4 := Real.pi_le_four
        simp only [reynoldsNum, worldAt, rinkShort, rink0, initializeFirstTime, rinkInput,
          realMath, mul_one]
        rw [le_div_iff₀ hpi]
        nlinarith))⟩

/-! ## What the operating branch depends on -/

/-- The source and the three flows left by the operating branch are determined by the
schedule value, the surface and set point temperatures, the sheet geometry, the water
properties, the refrigerant inlet state, the two limits, the tube geometry and the
refrigerant property functions. -/
theorem operate_congr (m : MathFns R) (w w' : World R) (d d' : IceRinkData R)
    (h1 : d'.operation = d.operation) (h2 : d'.Tsurfin2 = d.Tsurfin2)
    (h3 : d'.IceSetPointTemp = d.IceSetPointTemp) (h4 : d'.LengthRink = d.LengthRink)
    (h5 : d'.WidthRink = d.WidthRink) (h6 : d'.IceThickness = d.IceThickness)
    (h7 : d'.RhoWater = d.RhoWater) (h8 : d'.CpWater = d.CpWater)
    (h9 : d'.Increments = d.Increments) (h10 : d'.SecInHour = d.SecInHour)
    (h11 : d'.CpRefrig = d.CpRefrig) (h12 : d'.RefrigTempIn = d.RefrigTempIn)
    (h13 : d'.maxmdot = d.maxmdot) (h14 : d'.Qsrcmax = d.Qsrcmax)
    (h15 : d'.LoopNum = d.LoopNum) (h16 : d'.TubeDiameter = d.TubeDiameter)
    (h17 : d'.TubeLength = d.TubeLength)
    (k1 : w'.GetSpecificHeatGlycol = w.GetSpecificHeatGlycol)
    (k2 : w'.GetConductivityGlycol = w.GetConductivityGlycol)
    (k3 : w'.GetViscosityGlycol = w.GetViscosityGlycol) :
    (operate m w' d').Q = (operate m w d).Q ∧
      (operate m w' d').ReqMassFlow = (operate m w d).ReqMassFlow ∧
      (operate m w' d').RefrigMassFlow = (operate m w d).RefrigMassFlow ∧
      (operate m w' d').PastRefrigMassFlow = (operate m w d).PastRefrigMassFlow := by
  simp only [operate, rinkOn, rinkOff, targetRate, calcEffectiveness, effectivenessOfNTU,
    ntu, nuseltNum, reynoldsNum, h1, h2, h3, h4, h5, h6, h7, h8, h9, h10, h11, h12, h13,
    h14, h15, h16, h17, k1, k2, k3]
  by_cases ho : d.operation = 1
  · by_cases hs : d.Tsurfin2 ≤ d.IceSetPointTemp
    · simp only [ho, hs, if_true, and_self]
    · simp only [ho, hs, if_true, if_false, and_self]
  · simp only [ho, if_false, and_self]

theorem run_QRadSysSource (m : MathFns R) (w : World R) (d : IceRinkData R)
    (is_test : Bool) :
    (calculateIceRinkRun m w d is_test).QRadSysSource =
      Function.update w.QRadSysSource d.SurfacePtr (operate m w (prepare w d is_test)).Q :=
  rfl

/-- Two calls whose prepared records agree on what the operating branch reads leave the
same source array, load and flows. -/
theorem run_congr (m : MathFns R) (w w' : World R) (d d' : IceRinkData R)
    (is_test : Bool)
    (hq : (operate m w' (prepare w' d' is_test)).Q = (operate m w (prepare w d is_test)).Q ∧
      (operate m w' (prepare w' d' is_test)).ReqMassFlow =
        (operate m w (prepare w d is_test)).ReqMassFlow ∧
      (operate m w' (prepare w' d' is_test)).RefrigMassFlow =
        (operate m w (prepare w d is_test)).RefrigMassFlow ∧
      (operate m w' (prepare w' d' is_test)).PastRefrigMassFlow =
        (operate m w (prepare w d is_test)).PastRefrigMassFlow)
    (hs : d'.SurfacePtr = d.SurfacePtr) (ha : w'.QRadSysSource = w.QRadSysSource) :
    (calculateIceRinkRun m w' d' is_test).rink.Q =
        (calculateIceRinkRun m w d is_test).rink.Q ∧
      (calculateIceRinkRun m w' d' is_test).rink.ReqMassFlow =
        (calculateIceRinkRun m w d is_test).rink.ReqMassFlow ∧
      (calculateIceRinkRun m w' d' is_test).rink.RefrigMassFlow =
        (calculateIceRinkRun m w d is_test).rink.RefrigMassFlow ∧
      (calculateIceRinkRun m w' d' is_test).rink.PastRefrigMassFlow =
        (calculateIceRinkRun m w d is_test).rink.PastRefrigMassFlow ∧
      (calculateIceRinkRun m w' d' is_test).QRadSysSource =
        (calculateIceRinkRun m w d is_test).QRadSysSource ∧
      (calculateIceRinkRun m w' d' is_test).LoadMet =
        (calculateIceRinkRun m w d is_test).LoadMet := by
  obtain ⟨q1, q2, q3, q4⟩ := hq
  have e5 : (calculateIceRinkRun m w' d' is_test).QRadSysSource =
      (calculateIceRinkRun m w d is_test).QRadSysSource := by
    rw [run_QRadSysSource, run_QRadSysSource, q1, hs, ha]
  refine ⟨?_, ?_, ?_, ?_, e5, ?_⟩
  · rw [run_Q, run_Q, q1]
  · rw [run_ReqMassFlow, run_ReqMassFlow, q2]
  · rw [run_RefrigMassFlow, run_RefrigMassFlow, q3]
  · rw [run_PastRefrigMassFlow, run_PastRefrigMassFlow, q4]
  · rw [run_LoadMet, run_LoadMet, e5, hs]

/-! ## C30: the coefficient bundle and the source -/

/-- C30. Two calls of `calculateIceRink` that differ only in the coefficient data of the
heat balance (the arrays from which `Ca` to `Cj` and the area are fetched, taken from `c`
in the second call) and in the coefficients held in the rink record (`cf` in the second
call) end alike; when they return they leave the same `Q`, the same required, actual and
stored past refrigerant flow, the same source array and the same `LoadMet`, with `is_test`
false as well as true. -/
theorem source_independent_of_coefficients (m : MathFns R) (w c : World R)
    (d : IceRinkData R) (cf : Coeffs R) (is_test : Bool) (hf : fatalCheck d = none) :
    ∃ r r', calculateIceRink m w d is_test = Except.ok r ∧
      calculateIceRink m (withCoefficients w c) { d with coeffs := cf } is_test
        = Except.ok r' ∧
      r'.rink.Q = r.rink.Q ∧ r'.rink.ReqMassFlow = r.rink.ReqMassFlow ∧
      r'.rink.RefrigMassFlow = r.rink.RefrigMassFlow ∧
      r'.rink.PastRefrigMassFlow = r.rink.PastRefrigMassFlow ∧
      r'.QRadSysSource = r.QRadSysSource ∧ r'.LoadMet = r.LoadMet := by
  have hf' : fatalCheck { d with coeffs := cf } = none := hf
  refine ⟨_, _, calculateIceRink_ok hf, calculateIceRink_ok hf', ?_⟩
  apply run_congr m w (withCoefficients w c) d { d with coeffs := cf } is_test _ rfl rfl
  apply operate_congr <;>
    simp only [prepare_operation, prepare_Tsurfin2, prepare_IceSetPointTemp,
      prepare_LengthRink, prepare_WidthRink, prepare_IceThickness, prepare_RhoWater,
      prepare_CpWater, prepare_Increments, prepare_SecInHour, prepare_CpRefrig,
      prepare_RefrigTempIn, prepare_maxmdot, prepare_Qsrcmax, prepare_LoopNum,
      prepare_TubeDiameter, prepare_TubeLength, withCoefficients]

/-- Witness for C30: the sample rink with the slab at 1 C, called with the sample
coefficients and with those of `worldSingular` and zero coefficients in the record. -/
theorem source_independent_of_coefficients_witness :
    ∃ r r', calculateIceRink realMath (worldAt ℝ 1 1) (rink0 ℝ) false = Except.ok r ∧
      calculateIceRink realMath (withCoefficients (worldAt ℝ 1 1) (worldSingular ℝ))
        { rink0 ℝ with coeffs := (rinkInput ℝ).coeffs } false = Except.ok r' ∧
      r'.rink.Q = r.rink.Q ∧ r'.rink.ReqMassFlow = r.rink.ReqMassFlow ∧
      r'.rink.RefrigMassFlow = r.rink.RefrigMassFlow ∧
      r'.rink.PastRefrigMassFlow = r.rink.PastRefrigMassFlow ∧
      r'.QRadSysSource = r.QRadSysSource ∧ r'.LoadMet = r.LoadMet :=
  source_independent_of_coefficients realMath (worldAt ℝ 1 1) (worldSingular ℝ) (rink0 ℝ)
    (rinkInput ℝ).coeffs false rink0_fatalCheck

/-! ## C28: the schedule that switches the rink on -/

/-- C28. `calculateIceRink` takes the rink as operating only when the current value of the
schedule `IceSetptSchedPtr` is exactly 1, and does not read the availability schedule
`SchedPtr`.  For a call that passes the fatal checks: a second call in which the
availability schedule (a schedule other than the ice set point schedule) reads any other
value `v`, and in which the member `SchedPtr` is any other pointer `k`, returns as well
and leaves the same `Q`, the same flows, the same source array and the same `LoadMet`;
and when the ice set point schedule reads a value other than 1 the source written and
the required, actual and stored past flow are 0. -/
theorem operation_follows_ice_setpoint_schedule (m : MathFns R) (w : World R)
    (d : IceRinkData R) (is_test : Bool) (v : R) (k : Int) (hf : fatalCheck d = none)
    (hne : d.SchedPtr ≠ d.IceSetptSchedPtr) :
    ∃ r r', calculateIceRink m w d is_test = Except.ok r ∧
      calculateIceRink m (withScheduleValue w d.SchedPtr v) { d with SchedPtr := k } is_test
        = Except.ok r' ∧
      r'.rink.Q = r.rink.Q ∧ r'.rink.ReqMassFlow = r.rink.ReqMassFlow ∧
      r'.rink.RefrigMassFlow = r.rink.RefrigMassFlow ∧
      r'.rink.PastRefrigMassFlow = r.rink.PastRefrigMassFlow ∧
      r'.QRadSysSource = r.QRadSysSource ∧ r'.LoadMet = r.LoadMet ∧
      r.rink.operation = w.GetCurrentScheduleValue d.IceSetptSchedPtr ∧
      (w.GetCurrentScheduleValue d.IceSetptSchedPtr ≠ 1 →
        r.QRadSysSource d.SurfacePtr = 0 ∧ r.rink.Q = 0 ∧ r.rink.ReqMassFlow = 0 ∧
        r.rink.RefrigMassFlow = 0 ∧ r.rink.PastRefrigMassFlow = 0) := by
  have hf' : fatalCheck { d with SchedPtr := k } = none := hf
  have hv : Function.update w.GetCurrentScheduleValue d.SchedPtr v d.IceSetptSchedPtr =
      w.GetCurrentScheduleValue d.IceSetptSchedPtr := by
    simp [Function.update_apply, Ne.symm hne]
  have hcongr := run_congr m w (withScheduleValue w d.SchedPtr v) d { d with SchedPtr := k }
    is_test
    (by
      apply operate_congr
      all_goals first
        | rfl
        | simp only [prepare_operation, prepare_Tsurfin2, prepare_IceSetPointTemp,
            prepare_LengthRink, prepare_WidthRink, prepare_IceThickness, prepare_RhoWater,
            prepare_CpWater, prepare_Increments, prepare_SecInHour, prepare_CpRefrig,
            prepare_RefrigTempIn, prepare_maxmdot, prepare_Qsrcmax, prepare_LoopNum,
            prepare_TubeDiameter, prepare_TubeLength, withScheduleValue, hv])
    rfl rfl
  obtain ⟨c1, c2, c3, c4, c5, c6⟩ := hcongr
  refine ⟨_, _, calculateIceRink_ok hf, calculateIceRink_ok hf', c1, c2, c3, c4, c5, c6,
    ?_, ?_⟩
  · show (calculateIceRinkRun m w d is_test).rink.operation = _
    have : (calculateIceRinkRun m w d is_test).rink.operation =
        (operate m w (prepare w d is_test)).operation := by
      simp only [calculateIceRinkRun]
      split_ifs <;> rfl
    rw [this]
    have h2 : (operate m w (prepare w d is_test)).operation =
        (prepare w d is_test).operation := by
      unfold operate rinkOff rinkOn
      split_ifs <;> rfl
    rw [h2, prepare_operation]
  · intro hoff
    have ho : operate m w (prepare w d is_test) = rinkOff (prepare w d is_test) := by
      apply operate_off
      left
      rw [prepare_operation]
      exact hoff
    refine ⟨?_, ?_, ?_, ?_, ?_⟩
    · rw [run_source_at, ho]
      rfl
    · rw [run_Q, ho]
      rfl
    · rw [run_ReqMassFlow, ho]
      rfl
    · rw [run_RefrigMassFlow, ho]
      rfl
    · rw [run_PastRefrigMassFlow, ho]
      rfl

/-- Witness for C28: the sample rink with the availability schedule on pointer 2 and the ice
set point schedule on pointer 1 reading 1.  Whether the availability schedule reads 1 or 0
(off), the call leaves the same source array and flows. -/
theorem operation_follows_ice_setpoint_schedule_witness :
    (withScheduleValue (worldAt ℝ 1 1) 2 0).GetCurrentScheduleValue 2 = 0 ∧
      ∃ r r', calculateIceRink realMath (worldAt ℝ 1 1) { rink0 ℝ with SchedPtr := 2 } false
          = Except.ok r ∧
        calculateIceRink realMath (withScheduleValue (worldAt ℝ 1 1) 2 0)
          { rink0 ℝ with SchedPtr := 2 } false = Except.ok r' ∧
        r'.rink.Q = r.rink.Q ∧ r'.rink.RefrigMassFlow = r.rink.RefrigMassFlow ∧
        r'.QRadSysSource = r.QRadSysSource ∧ r.rink.operation = 1 := by
  refine ⟨by simp [withScheduleValue], ?_⟩
  obtain ⟨r, r', h1, h2, h3, _, h5, _, h7, _, h9, _⟩ :=
    operation_follows_ice_setpoint_schedule realMath (worldAt ℝ 1 1)
      { rink0 ℝ with SchedPtr := 2 } false 0 2
      (by
        simp [fatalCheck, rink0, initializeFirstTime, rinkInput, SurfaceTempControl,
          BrineOutletTempControl])
      (by simp [rink0, initializeFirstTime, rinkInput])
  exact ⟨r, r', h1, h2, h3, h5, h7, h9⟩

/-! ## C21: the closure denominator -/

theorem operate_coeffs (m : MathFns R) (w : World R) (d : IceRinkData R) :
    (operate m w d).coeffs = d.coeffs := by
  unfold operate rinkOff rinkOn
  split_ifs <;> rfl

theorem run_coeffs (m : MathFns R) (w : World R) (d : IceRinkData R) (is_test : Bool) :
    (calculateIceRinkRun m w d is_test).rink.coeffs = (prepare w d is_test).coeffs := by
  rw [← operate_coeffs m w (prepare w d is_test)]
  simp only [calculateIceRinkRun]
  split_ifs <;> rfl

theorem prepare_coeffs_test (w : World R) (d : IceRinkData R) :
    (prepare w d true).coeffs = d.coeffs := by
  by_cases h : d.ControlStrategy = BrineOutletTempControl <;>
    simp [prepare, readSetPoint, readSurface, h]

theorem quotient_of_ne (x : R) {y : R} (h : y ≠ 0) : quotient x y = some (x / y) := by
  simp [quotient, h]

theorem quotient_zero (x : R) : quotient x 0 = none := by
  simp [quotient]

theorem prepare_coeffs_run (w : World R) (d : IceRinkData R) :
    (prepare w d false).coeffs = (fetchCoeffs w d).coeffs := by
  by_cases h : d.ControlStrategy = BrineOutletTempControl <;>
    simp [prepare, readSetPoint, fetchCoeffs, readSurface, h]

/-- Counterexample to C21 as stated. The sample rink on a slab whose coefficients give
`Ce * Cb = 2 * (1 / 2) = 1`: the call with `is_test` false passes the fatal checks and
returns with `1 - Ce * Cb = 0`, and `Ck` and `Cl`, which held 0 before the call, have
been assigned the result of a division by that denominator, which is no number. -/
theorem closure_denominator_zero_not_guarded :
    ∃ r, calculateIceRink realMath (worldSingular ℝ) (rink0 ℝ) false = Except.ok r ∧
      r.rink.coeffs.Ce = 2 ∧ r.rink.coeffs.Cb = 1 / 2 ∧
      1 - r.rink.coeffs.Ce * r.rink.coeffs.Cb = 0 ∧
      (rink0 ℝ).coeffs.Ck = some 0 ∧ (rink0 ℝ).coeffs.Cl = some 0 ∧
      r.rink.coeffs.Ck = none ∧ r.rink.coeffs.Cl = none := by
  refine ⟨_, calculateIceRink_ok rink0_fatalCheck, ?_, ?_, ?_, rfl, rfl, ?_, ?_⟩
  · rw [run_coeffs, prepare_coeffs_run]
    rfl
  · rw [run_coeffs, prepare_coeffs_run]
    rfl
  · rw [run_coeffs, prepare_coeffs_run]
    norm_num [fetchCoeffs, worldSingular, worldAt]
  · rw [run_coeffs, prepare_coeffs_run]
    norm_num [fetchCoeffs, quotient, worldSingular, worldAt]
  · rw [run_coeffs, prepare_coeffs_run]
    norm_num [fetchCoeffs, quotient, worldSingular, worldAt]

/-- C21 (amended). `calculateIceRink` has no guard on the closure denominator.  In every
call with `is_test` false that passes the fatal checks the ten coefficients `Ca` to `Cj`
are fetched from the heat balance and the quotients for `Ck` and `Cl` are formed with the
denominator `1 - Ce * Cb` whatever its value: when `1 - Ce * Cb` is not 0,
`Ck = Cg + (Ci * (Ca + Cb * Cd) + Cj * (Cd + Ce * Ca)) / (1 - Ce * Cb)` and
`Cl = Ch + (Ci * (Cc + Cb * Cf) + Cj * (Cf + Ce * Cc)) / (1 - Ce * Cb)`; when
`1 - Ce * Cb` is 0 the division is performed all the same and `Ck` and `Cl` are no
numbers.  With `is_test` true no quotient is formed and the coefficients of the rink
record are left as they were. -/
theorem closure_coefficients_without_guard (m : MathFns R) (w : World R)
    (d : IceRinkData R) (hf : fatalCheck d = none) :
    (∃ r, calculateIceRink m w d false = Except.ok r ∧
      (r.rink.coeffs.Ca = w.RadSysTiHBConstCoef d.SurfacePtr ∧
        r.rink.coeffs.Cb = w.RadSysTiHBToutCoef d.SurfacePtr ∧
        r.rink.coeffs.Cc = w.RadSysTiHBQsrcCoef d.SurfacePtr ∧
        r.rink.coeffs.Cd = w.RadSysToHBConstCoef d.SurfacePtr ∧
        r.rink.coeffs.Ce = w.RadSysToHBTinCoef d.SurfacePtr ∧
        r.rink.coeffs.Cf = w.RadSysToHBQsrcCoef d.SurfacePtr ∧
        r.rink.coeffs.Cg = w.CTFTsrcConstPart d.SurfacePtr ∧
        r.rink.coeffs.Ch = w.CTFTSourceQ0 (w.SurfaceConstruction d.SurfacePtr) ∧
        r.rink.coeffs.Ci = w.CTFTSourceIn0 (w.SurfaceConstruction d.SurfacePtr) ∧
        r.rink.coeffs.Cj = w.CTFTSourceOut0 (w.SurfaceConstruction d.SurfacePtr)) ∧
      (1 - r.rink.coeffs.Ce * r.rink.coeffs.Cb ≠ 0 →
        r.rink.coeffs.Ck = some
          (r.rink.coeffs.Cg +
            (r.rink.coeffs.Ci * (r.rink.coeffs.Ca + r.rink.coeffs.Cb * r.rink.coeffs.Cd) +
              r.rink.coeffs.Cj * (r.rink.coeffs.Cd + r.rink.coeffs.Ce * r.rink.coeffs.Ca)) /
              (1 - r.rink.coeffs.Ce * r.rink.coeffs.Cb)) ∧
        r.rink.coeffs.Cl = some
          (r.rink.coeffs.Ch +
            (r.rink.coeffs.Ci * (r.rink.coeffs.Cc + r.rink.coeffs.Cb * r.rink.coeffs.Cf) +
              r.rink.coeffs.Cj * (r.rink.coeffs.Cf + r.rink.coeffs.Ce * r.rink.coeffs.Cc)) /
              (1 - r.rink.coeffs.Ce * r.rink.coeffs.Cb))) ∧
      (1 - r.rink.coeffs.Ce * r.rink.coeffs.Cb = 0 →
        r.rink.coeffs.Ck = none ∧ r.rink.coeffs.Cl = none)) ∧
    (∃ r, calculateIceRink m w d true = Except.ok r ∧ r.rink.coeffs = d.coeffs) := by
  constructor
  · refine ⟨_, calculateIceRink_ok hf, ?_, ?_, ?_⟩
    · rw [run_coeffs, prepare_coeffs_run]
      exact ⟨rfl, rfl, rfl, rfl, rfl, rfl, rfl, rfl, rfl, rfl⟩
    · rw [run_coeffs, prepare_coeffs_run]
      intro h
      have h1 : 1 - w.RadSysToHBTinCoef d.SurfacePtr * w.RadSysTiHBToutCoef d.SurfacePtr
          ≠ 0 := h
      simp only [fetchCoeffs, quotient_of_ne _ h1, Option.map_some', and_self]
    · rw [run_coeffs, prepare_coeffs_run]
      intro h
      have h1 : 1 - w.RadSysToHBTinCoef d.SurfacePtr * w.RadSysTiHBToutCoef d.SurfacePtr
          = 0 := h
      simp only [fetchCoeffs, h1, quotient_zero, Option.map_none', and_self]
  · refine ⟨_, calculateIceRink_ok hf, ?_⟩
    rw [run_coeffs, prepare_coeffs_test]

/-- Witness for C21: on the sample slab, where `Ce * Cb = 1/4`, the call of the sample
rink leaves `Ck = 1 + (1 * (1 + 1/2) + 1 * (1 + 1/2)) / (3/4) = 5`; with `is_test` true
the coefficients keep the value 0 they had. -/
theorem closure_coefficients_without_guard_witness :
    (∃ r, calculateIceRink realMath (worldAt ℝ 1 1) (rink0 ℝ) false = Except.ok r ∧
      1 - r.rink.coeffs.Ce * r.rink.coeffs.Cb = 3 / 4 ∧
      r.rink.coeffs.Ck = some 5 ∧ r.rink.coeffs.Cl = some 5) ∧
    (∃ r, calculateIceRink realMath (worldAt ℝ 1 1) (rink0 ℝ) true = Except.ok r ∧
      r.rink.coeffs.Ck = some 0) := by
  obtain ⟨⟨r, h1, ⟨a, b, c, d, e, f, g, h, i, j⟩, h3, _⟩, ⟨r', k1, k2⟩⟩ :=
    closure_coefficients_without_guard realMath (worldAt ℝ 1 1) (rink0 ℝ) rink0_fatalCheck
  have hd : 1 - r.rink.coeffs.Ce * r.rink.coeffs.Cb = 3 / 4 := by
    rw [e, b]
    norm_num [worldAt]
  obtain ⟨p1, p2⟩ := h3 (by rw [hd]; norm_num)
  refine ⟨⟨r, h1, hd, ?_, ?_⟩, ⟨r', k1, ?_⟩⟩
  · rw [p1, a, b, d, e, g, i, j]
    norm_num [worldAt]
  · rw [p2, b, c, e, f, h, i, j]
    norm_num [worldAt]
  · rw [k2]
    rfl

/-! ## C25: the source average update -/

/-- Every entry of an allocated `QRadSysSrcAvg` is 0 throughout a run. -/
theorem sourceAverage_zero {avg : Option (Int → R)} (h : SourceAverage avg) :
    ∀ a, avg = some a → ∀ n, a n = 0 := by
  induction h with
  | unallocated =>
    intro a ha
    cases ha
  | dimension =>
    intro a ha n
    cases ha
    rfl
  | @reset b _ ih =>
    intro a ha n
    cases b with
    | none => cases ha
    | some b0 =>
      cases ha
      rfl
  | @clear b SurfNum _ ih =>
    intro a ha n
    cases b with
    | none => cases ha
    | some b0 =>
      cases ha
      show Function.update b0 SurfNum 0 n = 0
      by_cases hn : n = SurfNum
      · rw [hn, Function.update_same]
      · rw [Function.update_noteq hn]
        exact ih b0 rfl n

/-- Counterexample to C25 as stated. The averages as line 578 leaves them (allocated, 0 on
every surface) and a source array holding -5 W on surface 1 and 7 W on surface 2, a
surface on which no rink has been active (its average is 0): after
`UpdateIceRinkSourceValAvg` the entry of surface 2 is 0, not the 7 W it was. -/
theorem source_update_overwrites_other_surfaces :
    SourceAverage (dimensionSrcAvg : Option (Int → ℚ)) ∧
      (∀ a : Int → ℚ, dimensionSrcAvg = some a → a 2 = 0) ∧
      (fun n : Int => if n = 1 then (-5 : ℚ) else 7) 2 = 7 ∧
      (UpdateIceRinkSourceValAvg dimensionSrcAvg
        (fun n : Int => if n = 1 then (-5 : ℚ) else 7)).2 2 = 0 ∧
      (UpdateIceRinkSourceValAvg dimensionSrcAvg
        (fun n : Int => if n = 1 then (-5 : ℚ) else 7)).2 2 ≠
        (fun n : Int => if n = 1 then (-5 : ℚ) else 7) 2 := by
  refine ⟨SourceAverage.dimension, ?_, by norm_num, rfl, ?_⟩
  · intro a ha
    cases ha
    rfl
  · show (0 : ℚ) ≠ _
    norm_num

/-- C25 (amended). For every value of `QRadSysSrcAvg` that the module produces:
`UpdateIceRinkSourceValAvg` hands back `IceRinkOn` true exactly when some entry of
`QRadSysSrcAvg` is not 0, which is never, so `IceRinkOn` is false; when `QRadSysSrcAvg`
is not allocated the array `QRadSysSource` is left as it was; when it is allocated
`QRadSysSource` becomes equal to `QRadSysSrcAvg` in every entry, that is 0 on every
surface, whether or not a rink was active on it. -/
theorem source_average_update_transfers_zero (QRadSysSrcAvg : Option (Int → R))
    (QRadSysSource : Int → R) (h : SourceAverage QRadSysSrcAvg) :
    ((UpdateIceRinkSourceValAvg QRadSysSrcAvg QRadSysSource).1 = true ↔
        ∃ a n, QRadSysSrcAvg = some a ∧ a n ≠ 0) ∧
      (UpdateIceRinkSourceValAvg QRadSysSrcAvg QRadSysSource).1 = false ∧
      (QRadSysSrcAvg = none →
        (UpdateIceRinkSourceValAvg QRadSysSrcAvg QRadSysSource).2 = QRadSysSource) ∧
      (∀ a, QRadSysSrcAvg = some a →
        (UpdateIceRinkSourceValAvg QRadSysSrcAvg QRadSysSource).2 = a ∧
        ∀ n, (UpdateIceRinkSourceValAvg QRadSysSrcAvg QRadSysSource).2 n = 0) := by
  have hz := sourceAverage_zero h
  have hfalse : (UpdateIceRinkSourceValAvg QRadSysSrcAvg QRadSysSource).1 = false := by
    cases QRadSysSrcAvg <;> rfl
  refine ⟨?_, hfalse, ?_, ?_⟩
  · constructor
    · intro ht
      rw [hfalse] at ht
      cases ht
    · rintro ⟨a, n, ha, hn⟩
      exact absurd (hz a ha n) hn
  · intro hnone
    subst hnone
    rfl
  · intro a ha
    subst ha
    constructor
    · funext n
      show (0 : R) = a n
      rw [hz a rfl n]
    · intro n
      rfl

/-- Witness for C25 (amended): the averages dimensioned and then cleared for surface 1 at
the beginning of a time step, and a source array holding -5 W on surface 1 and 7 W
elsewhere. -/
theorem source_average_update_transfers_zero_witness :
    SourceAverage (clearSrcAvg (dimensionSrcAvg : Option (Int → ℚ)) 1) ∧
      (UpdateIceRinkSourceValAvg (clearSrcAvg (dimensionSrcAvg : Option (Int → ℚ)) 1)
        (fun n : Int => if n = 1 then (-5 : ℚ) else 7)).1 = false ∧
      ∀ n, (UpdateIceRinkSourceValAvg (clearSrcAvg (dimensionSrcAvg : Option (Int → ℚ)) 1)
        (fun n : Int => if n = 1 then (-5 : ℚ) else 7)).2 n = 0 :=
  have h := source_average_update_transfers_zero
    (clearSrcAvg (dimensionSrcAvg : Option (Int → ℚ)) 1)
    (fun n : Int => if n = 1 then (-5 : ℚ) else 7)
    (SourceAverage.clear 1 SourceAverage.dimension)
  ⟨SourceAverage.clear 1 SourceAverage.dimension, h.2.1, (h.2.2.2 _ rfl).2⟩

end IceRink

namespace CurveManager

/-! ## C23: curve evaluation within the authored bounds -/

theorem clipOutput_bounds (c : PerfCurve) (y lo hi : ℚ) (hlo : c.CurveMin = some lo)
    (hhi : c.CurveMax = some hi) (h : lo ≤ hi) :
    lo ≤ clipOutput c y ∧ clipOutput c y ≤ hi := by
  simp only [clipOutput, hlo, hhi]
  exact ⟨le_min (le_max_right _ _) h, min_le_right _ _⟩

/-- C23. For every curve with `Var1Min <= Var1Max` and every value `x` of the
independent variable, `CurveValue` is the curve evaluated at `x` clamped to
`[Var1Min, Var1Max]` and then clipped to the output bounds that are present: an `x` beyond the maximum gives the
value at the maximum and an `x` below the minimum the value at the minimum (no
extrapolation), an `x` within the bounds is evaluated as it is, and with both output
bounds present (`lo <= hi`) the result lies between them. -/
theorem curve_value_clamped_to_domain (c : PerfCurve) (x : ℚ)
    (hdom : c.Var1Min ≤ c.Var1Max) :
    CurveValue c x = clipOutput c (c.evaluate (max (min x c.Var1Max) c.Var1Min)) ∧
      c.Var1Min ≤ max (min x c.Var1Max) c.Var1Min ∧
      max (min x c.Var1Max) c.Var1Min ≤ c.Var1Max ∧
      (c.Var1Max ≤ x → CurveValue c x = CurveValue c c.Var1Max) ∧
      (x ≤ c.Var1Min → CurveValue c x = CurveValue c c.Var1Min) ∧
      (c.Var1Min ≤ x → x ≤ c.Var1Max → CurveValue c x = clipOutput c (c.evaluate x)) ∧
      (∀ lo hi : ℚ, c.CurveMin = some lo → c.CurveMax = some hi → lo ≤ hi →
        lo ≤ CurveValue c x ∧ CurveValue c x ≤ hi) ∧
      (c.CurveMin = none → c.CurveMax = none →
        CurveValue c x = c.evaluate (max (min x c.Var1Max) c.Var1Min)) := by
  refine ⟨rfl, le_max_right _ _, max_le (min_le_right _ _) hdom, ?_, ?_, ?_, ?_, ?_⟩
  · intro h
    simp only [CurveValue]
    rw [min_eq_right h, min_self]
  · intro h
    simp only [CurveValue]
    rw [max_eq_right (le_trans (min_le_left _ _) h), min_eq_left hdom, max_self]
  · intro h1 h2
    simp only [CurveValue]
    rw [min_eq_left h2, max_eq_left h1]
  · intro lo hi hlo hhi h
    exact clipOutput_bounds c _ lo hi hlo hhi h
  · intro hlo hhi
    simp only [CurveValue, clipOutput, hlo, hhi]

/-- Witness for C23: the expectations of the two unit tests.  `TestTableOverwrite` (test
lines 329-337): 1.2 at 0.5, 2.5 at 4, `151/105 = 1.438095238095238...` at 1.0, and with
the output bounds 1.1 and 2.6, 1.1 at 0.3 and 2.6 at 4.  `TestTableMinMax` (test lines
829-834 and 857): the values 0, 0.5, 1, 1.75, 2.25 and 4 at those `x`, and 4 at `x = 6`,
beyond the maximum. -/
theorem curve_value_clamped_to_domain_witness :
    (CurveValue testTableMinMax 6 = CurveValue testTableMinMax testTableMinMax.Var1Max ∧
      CurveValue testTableMinMax 6 = 4) ∧
    (CurveValue testTableMinMax 0 = 0 ∧ CurveValue testTableMinMax (1 / 2) = 1 / 2 ∧
      CurveValue testTableMinMax 1 = 1 ∧ CurveValue testTableMinMax (7 / 4) = 7 / 4 ∧
      CurveValue testTableMinMax (9 / 4) = 9 / 4 ∧ CurveValue testTableMinMax 4 = 4) ∧
    (CurveValue (testTableOverwrite (12 / 10) (25 / 10)) (1 / 2) = 12 / 10 ∧
      CurveValue (testTableOverwrite (12 / 10) (25 / 10)) 4 = 25 / 10 ∧
      CurveValue (testTableOverwrite (12 / 10) (25 / 10)) 1 = 151 / 105 ∧
      |(151 / 105 : ℚ) - 1438095238095238 / 1000000000000000| < 1 / 1000000000000000 ∧
      CurveValue (testTableOverwrite (11 / 10) (26 / 10)) (3 / 10) = 11 / 10 ∧
      CurveValue (testTableOverwrite (11 / 10) (26 / 10)) 4 = 26 / 10) := by
  have h6 := (curve_value_clamped_to_domain testTableMinMax 6
    (by norm_num [testTableMinMax])).2.2.2.1 (by norm_num [testTableMinMax])
  refine ⟨⟨h6, ?_⟩, ?_, ?_⟩
  · norm_num [CurveValue, clipOutput, testTableMinMax]
  · norm_num [CurveValue, clipOutput, testTableMinMax]
  · refine ⟨?_, ?_, ?_, ?_, ?_, ?_⟩ <;>
      norm_num [CurveValue, clipOutput, testTableOverwrite, abs_lt]

end CurveManager

end EnergyPlus
